import Mathlib

/-!
# Node registry of the mesh configuration client (`tools/mesh/remote.c`)

A shallow embedding of the remote-node registry.  The registry is the
file-static queue `nodes`; every function below takes the registry as an
argument and returns the new registry next to its C return value.

Conventions
* C integers are natural numbers; the integer promotions of C are kept by
  doing comparisons in `Int` where a subtraction is involved, and the one
  place where a computed value is stored back into a `uint16_t`
  (`addr = rmt->unicast + rmt->num_ele`) reduces modulo `2^16`.
* An `l_queue *` that may be `NULL` is an `Option (List _)`; `none` is the
  `NULL` pointer.  `remote_node.net_keys` is created by `l_queue_new()` for
  every node (the only place nodes are created is `remote_add_node`), so it
  is a plain list.
* Key indices are stored in the queues as `L_UINT_TO_PTR(idx)`: the entry's
  data pointer *is* the index, and index `0` is the `NULL` pointer.
-/

namespace Remote

/-! ## The ell queue primitives used by `remote.c` -/

/-- The ell primitive `l_queue_find(queue, function, user_data)`: the data
pointer of the first entry accepted by the match function, `NULL` when the
queue is `NULL` or no entry matches. -/
def l_queue_find {α : Type} (queue : Option (List α)) (function : α → Bool) : Option α :=
  match queue with
  | none => none
  | some entries => entries.find? function

/-- The ell primitive `l_queue_push_tail(queue, data)` on a non-`NULL` queue. -/
def l_queue_push_tail {α : Type} (queue : List α) (data : α) : List α :=
  queue ++ [data]

/-- The ell primitive `l_queue_remove(queue, data)` on a non-`NULL` queue:
unlinks and frees the first entry whose data pointer equals `data`; `false`
when no entry holds `data`.  (On the `NULL` queue it returns `false`; the
callers below handle that case themselves.) -/
def l_queue_remove (queue : List Nat) (data : Nat) : Bool × List Nat :=
  if data ∈ queue then (true, queue.erase data) else (false, queue)

/-- The ell primitive `l_queue_insert(queue, data, function, user_data)`:
the new entry is linked in front of the first entry `cur` with
`function(data, cur) < 0`, at the tail when there is none. -/
def l_queue_insert {α : Type} (queue : List α) (data : α) (function : α → α → Int) : List α :=
  match queue with
  | [] => [data]
  | cur :: rest =>
    if function data cur ≥ 0 then cur :: l_queue_insert rest data function
    else data :: cur :: rest

/-- The conversion of a data pointer to a C truth value for a queue whose
entries are `L_UINT_TO_PTR(idx)`: the pointer returned by `l_queue_find` is
non-`NULL` iff an entry matched and its index is not `0`. -/
def ptr_nonnull (p : Option Nat) : Bool :=
  match p with
  | none => false
  | some idx => idx != 0

/-! ## Data model -/

/-- The record `struct remote_node`. -/
structure remote_node where
  unicast : Nat
  net_keys : List Nat
  app_keys : Option (List Nat)
  uuid : List Nat
  num_ele : Nat
  deriving DecidableEq, Repr

/-- The registry: the file-static `struct l_queue *nodes` (`none` is `NULL`). -/
abbrev Registry := Option (List remote_node)

/-- The entries of the registry, none for the `NULL` queue. -/
def node_list (nodes : Registry) : List remote_node :=
  match nodes with
  | none => []
  | some entries => entries

/-- The constant `NET_IDX_INVALID` of `mesh/mesh-defs.h`. -/
def NET_IDX_INVALID : Nat := 0xffff

/-! ## The functions of `remote.c` -/

/-- The match function `simple_match(a, b)`: pointer equality. -/
def simple_match (a b : Nat) : Bool := a == b

/-- The comparison `compare_unicast(a, b, user_data)`. -/
def compare_unicast (a_rmt b_rmt : remote_node) : Int :=
  if a_rmt.unicast < b_rmt.unicast then -1
  else if a_rmt.unicast > b_rmt.unicast then 1
  else 0

/-- The match function `match_node_addr(a, b)`; the comparison
`addr <= rmt->unicast + rmt->num_ele - 1` is done in `int`. -/
def match_node_addr (rmt : remote_node) (addr : Nat) : Bool :=
  decide (addr ≥ rmt.unicast ∧ (addr : Int) ≤ (rmt.unicast : Int) + (rmt.num_ele : Int) - 1)

/-- A store through the pointer `rmt` obtained from
`l_queue_find(nodes, match_node_addr, addr)`: the first entry whose range
holds `addr` takes the new contents. -/
def store_node (entries : List remote_node) (addr : Nat) (rmt : remote_node) :
    List remote_node :=
  match entries with
  | [] => []
  | e :: rest =>
    if match_node_addr e addr then rmt :: rest else e :: store_node rest addr rmt

/-- The function `remote_add_node(uuid, unicast, ele_cnt, net_idx)`. -/
def remote_add_node (nodes : Registry) (uuid : List Nat) (unicast ele_cnt net_idx : Nat) :
    Bool × Registry :=
  match l_queue_find nodes (fun rmt => match_node_addr rmt unicast) with
  | some _ => (false, nodes)
  | none =>
    let rmt : remote_node :=
      { uuid := uuid, unicast := unicast, num_ele := ele_cnt,
        net_keys := l_queue_push_tail [] net_idx, app_keys := none }
    (true, some (l_queue_insert (node_list nodes) rmt compare_unicast))

/-- The function `remote_add_net_key(addr, net_idx)`. -/
def remote_add_net_key (nodes : Registry) (addr net_idx : Nat) : Bool × Registry :=
  match l_queue_find nodes (fun rmt => match_node_addr rmt addr) with
  | none => (false, nodes)
  | some rmt =>
    if ptr_nonnull (l_queue_find (some rmt.net_keys) (fun d => simple_match d net_idx)) then
      (false, nodes)
    else
      (true, some (store_node (node_list nodes) addr
        { rmt with net_keys := l_queue_push_tail rmt.net_keys net_idx }))

/-- The function `remote_add_app_key(addr, app_idx)`. -/
def remote_add_app_key (nodes : Registry) (addr app_idx : Nat) : Bool × Registry :=
  match l_queue_find nodes (fun rmt => match_node_addr rmt addr) with
  | none => (false, nodes)
  | some rmt =>
    let app_keys : List Nat :=
      match rmt.app_keys with
      | none => []
      | some q => q
    if ptr_nonnull (l_queue_find (some app_keys) (fun d => simple_match d app_idx)) then
      (false, some (store_node (node_list nodes) addr { rmt with app_keys := some app_keys }))
    else
      (true, some (store_node (node_list nodes) addr
        { rmt with app_keys := some (l_queue_push_tail app_keys app_idx) }))

/-- The function `remote_del_app_key(addr, app_idx)`;
`l_queue_remove(NULL, data)` is `false`. -/
def remote_del_app_key (nodes : Registry) (addr app_idx : Nat) : Bool × Registry :=
  match l_queue_find nodes (fun rmt => match_node_addr rmt addr) with
  | none => (false, nodes)
  | some rmt =>
    match rmt.app_keys with
    | none => (false, nodes)
    | some q =>
      let r := l_queue_remove q app_idx
      (r.1, some (store_node (node_list nodes) addr { rmt with app_keys := some r.2 }))

/-- The loop
`for (l = l_queue_get_entries(rmt->app_keys); l; l = l->next)` of
`remote_del_net_key`.  The queue is `visited ++ cursor`: `visited` are the
live entries in front of the entry `l`, and `cursor` is `l` with the entries
behind it.  `calls` records the calls `mesh_db_node_app_key_del(unicast,
app_idx)` in order.

When the body removes `app_idx`, `l_queue_remove` unlinks and frees the
first entry that holds it.  That is an entry of `visited` if there is one;
otherwise it is the entry `l` itself, and the loop's `l = l->next` then reads
an entry that has been freed: the behaviour is undefined and the result is
`none`. -/
def del_net_key_loop (keys_get_bound_key : Nat → Nat) (unicast net_idx : Nat) :
    List Nat → List Nat → List (Nat × Nat) → Option (List Nat × List (Nat × Nat))
  | visited, [], calls => some (visited, calls)
  | visited, app_idx :: rest, calls =>
    if net_idx = keys_get_bound_key app_idx then
      if app_idx ∈ visited then
        del_net_key_loop keys_get_bound_key unicast net_idx
          (visited.erase app_idx ++ [app_idx]) rest (calls ++ [(unicast, app_idx)])
      else none
    else
      del_net_key_loop keys_get_bound_key unicast net_idx (visited ++ [app_idx]) rest calls

/-- The function `remote_del_net_key(addr, net_idx)`, with the external
`keys_get_bound_key` as a parameter.  The result holds the C return value,
the new registry and the calls of `mesh_db_node_app_key_del`; it is `none`
when the loop over the app keys reads a freed queue entry (see
`del_net_key_loop`).  `l_queue_get_entries(NULL)` is `NULL`. -/
def remote_del_net_key (keys_get_bound_key : Nat → Nat) (nodes : Registry)
    (addr net_idx : Nat) : Option (Bool × Registry × List (Nat × Nat)) :=
  match l_queue_find nodes (fun rmt => match_node_addr rmt addr) with
  | none => some (false, nodes, [])
  | some rmt =>
    let r := l_queue_remove rmt.net_keys net_idx
    if r.1 = false then some (false, nodes, [])
    else
      match rmt.app_keys with
      | none =>
        some (true, some (store_node (node_list nodes) addr { rmt with net_keys := r.2 }), [])
      | some q =>
        match del_net_key_loop keys_get_bound_key rmt.unicast net_idx [] q [] with
        | none => none
        | some (app_keys, calls) =>
          some (true, some (store_node (node_list nodes) addr
            { rmt with net_keys := r.2, app_keys := some app_keys }), calls)

/-- The function `remote_get_subnet_idx(addr)`; the result is cast to
`uint16_t`. -/
def remote_get_subnet_idx (nodes : Registry) (addr : Nat) : Nat :=
  match l_queue_find nodes (fun rmt => match_node_addr rmt addr) with
  | none => NET_IDX_INVALID
  | some rmt =>
    match rmt.net_keys with
    | [] => NET_IDX_INVALID
    | head :: _ => head % 65536

/-- The loop of `remote_get_next_unicast` from entry `l` on, with the
current value of `addr`, followed by the code after the loop. -/
def next_unicast_scan (high ele_cnt : Nat) : List remote_node → Nat → Nat
  | [], addr => if (addr : Int) + (ele_cnt : Int) - 1 ≤ (high : Int) then addr else 0
  | rmt :: l, addr =>
    if rmt.unicast ≥ addr + ele_cnt then addr
    else if rmt.unicast + rmt.num_ele > addr then
      next_unicast_scan high ele_cnt l ((rmt.unicast + rmt.num_ele) % 65536)
    else next_unicast_scan high ele_cnt l addr

/-- The function `remote_get_next_unicast(low, high, ele_cnt)`; the result
`0` is the unassigned address, that is "no range found". -/
def remote_get_next_unicast (nodes : Registry) (low high ele_cnt : Nat) : Nat :=
  if (ele_cnt : Int) > (high : Int) - (low : Int) + 1 then 0
  else
    match nodes with
    | none => low
    | some entries =>
      if entries.isEmpty then low else next_unicast_scan high ele_cnt entries low

/-! ## Address ranges -/

/-- Address `a` lies in the range `[unicast, unicast + num_ele - 1]`. -/
def in_range (unicast num_ele a : Nat) : Prop :=
  unicast ≤ a ∧ (a : Int) ≤ (unicast : Int) + (num_ele : Int) - 1

/-- The ranges `[u1, u1 + c1 - 1]` and `[u2, u2 + c2 - 1]` share an address. -/
def ranges_intersect (u1 c1 u2 c2 : Nat) : Prop :=
  ∃ a : Nat, in_range u1 c1 a ∧ in_range u2 c2 a

/-- The node list is sorted by ascending unicast. -/
def sorted_by_unicast (nodes : Registry) : Prop :=
  ((node_list nodes).map remote_node.unicast).Pairwise (fun a b => a ≤ b)

/-- No two entries of the registry have ranges that share an address. -/
def non_overlapping (nodes : Registry) : Prop :=
  (node_list nodes).Pairwise
    (fun m n => ¬ ranges_intersect m.unicast m.num_ele n.unicast n.num_ele)

/-- The fields of every node fit their C types: `uint16_t unicast`,
`uint8_t num_ele`, and key indices that were stored from `uint16_t` values. -/
def well_typed (nodes : Registry) : Prop :=
  ∀ n ∈ node_list nodes, n.unicast < 65536 ∧ n.num_ele < 256 ∧
    (∀ k ∈ n.net_keys, k < 65536) ∧ (∀ q, n.app_keys = some q → ∀ k ∈ q, k < 65536)

/-- Every address of every node's range is below `0x10000`. -/
def ranges_below_0x10000 (nodes : Registry) : Prop :=
  ∀ n ∈ node_list nodes, ∀ a, in_range n.unicast n.num_ele a → a < 0x10000

/-- Address `a` lies in `[low, high]` and starts a range of `ele_cnt`
addresses that lies inside `[low, high]` and intersects no node's range. -/
def free_start (nodes : Registry) (low high ele_cnt a : Nat) : Prop :=
  low ≤ a ∧ a ≤ high ∧ (a : Int) + (ele_cnt : Int) - 1 ≤ (high : Int) ∧
    ∀ n ∈ node_list nodes, ¬ ranges_intersect a ele_cnt n.unicast n.num_ele

/-- The registries the program can reach: it starts with `nodes == NULL`
and changes the registry only through the five mutating functions.  A call
of `remote_del_net_key` whose behaviour is undefined yields no state. -/
inductive Reachable : Registry → Prop
  | init : Reachable none
  | add_node {nodes : Registry} (uuid : List Nat) (unicast ele_cnt net_idx : Nat) :
      Reachable nodes → Reachable (remote_add_node nodes uuid unicast ele_cnt net_idx).2
  | add_net_key {nodes : Registry} (addr net_idx : Nat) :
      Reachable nodes → Reachable (remote_add_net_key nodes addr net_idx).2
  | del_net_key {nodes : Registry} (keys_get_bound_key : Nat → Nat) (addr net_idx : Nat)
      (res : Bool × Registry × List (Nat × Nat)) :
      Reachable nodes →
      remote_del_net_key keys_get_bound_key nodes addr net_idx = some res →
      Reachable res.2.1
  | add_app_key {nodes : Registry} (addr app_idx : Nat) :
      Reachable nodes → Reachable (remote_add_app_key nodes addr app_idx).2
  | del_app_key {nodes : Registry} (addr app_idx : Nat) :
      Reachable nodes → Reachable (remote_del_app_key nodes addr app_idx).2

end Remote

/-!
# Configuration client (`tools/mesh/cfgcli.c`)

The request tracker (`requests`), the session variables (`target`,
`rsp_timeout`, `parms`), the commands that send configuration messages and
the receive function `msg_recvd`.

Conventions
* Every function returns the new values of the variables it may change and a
  log of the calls it makes to the outside, in order: shell output, the
  transport and key-send callbacks, timers and the `mesh_db` notifications.
* `requests` is the queue created by `cfgcli_init`; a pending request in it is
  identified by its position (the queue holds one entry per allocation).
* A message is the list of its `len` bytes.  A read at an offset that is not
  below `len` reads what follows the message in the receive buffer; the
  model gives it the value `0`.
* Functions whose C behaviour can be undefined return an `Option`.
-/

namespace Cfgcli

open Remote

/-! ## Constants -/

/-- The macro `NO_RESPONSE`. -/
def NO_RESPONSE : Nat := 0xFFFFFFFF

/-- The macro `MIN_COMPOSITION_LEN`. -/
def MIN_COMPOSITION_LEN : Nat := 16

/-- The macro `DEFAULT_TIMEOUT`. -/
def DEFAULT_TIMEOUT : Nat := 2

/-- The constants `EXIT_SUCCESS` and `EXIT_FAILURE` of the C library. -/
def EXIT_SUCCESS : Nat := 0

/-- The constant `EXIT_FAILURE` of the C library. -/
def EXIT_FAILURE : Nat := 1

/-- Modelled from the spec: the macro `UNASSIGNED_ADDRESS` of
`mesh/mesh-defs.h`, which is not among the sources ("unassigned" sentinel of
the session target); `IS_UNASSIGNED(x)` is `x == UNASSIGNED_ADDRESS`. -/
def UNASSIGNED_ADDRESS : Nat := 0x0000

/-- Modelled from the spec: the macro `OP_UNRELIABLE` of `mesh/mesh-defs.h`,
which is not among the sources (the bit of an opcode that marks the
unacknowledged variant of a message). -/
def OP_UNRELIABLE : Nat := 0x0100

/-- Modelled from the spec: the macro `APP_IDX_DEV_REMOTE` of
`mesh/mesh-defs.h`, which is not among the sources (key context passed to the
transport: the remote node's device key). -/
def APP_IDX_DEV_REMOTE : Nat := 0x6fff

/-- Modelled from the spec: the macro `MESH_STATUS_SUCCESS` of
`mesh/mesh-defs.h`, which is not among the sources (status byte "success"). -/
def MESH_STATUS_SUCCESS : Nat := 0x00

/-- Modelled from the spec: the feature bits `FEATURE_RELAY`, `FEATURE_PROXY`,
`FEATURE_FRIEND` and `FEATURE_LPN` of `mesh/mesh-defs.h`, which is not among
the sources (bits 0 to 3 of the composition feature mask), in this order. -/
def FEATURE_BITS : List Nat := [0x0001, 0x0002, 0x0004, 0x0008]

/-- Modelled from the spec: the opcode macro `OP_APPKEY_ADD` of `tools/mesh/config-model.h`,
which is not among the sources; the value is the one the Mesh Profile
specification assigns to this message. -/
def OP_APPKEY_ADD : Nat := 0x00

/-- Modelled from the spec: the opcode macro `OP_APPKEY_DELETE` of `tools/mesh/config-model.h`,
which is not among the sources; the value is the one the Mesh Profile
specification assigns to this message. -/
def OP_APPKEY_DELETE : Nat := 0x8000

/-- Modelled from the spec: the opcode macro `OP_APPKEY_GET` of `tools/mesh/config-model.h`,
which is not among the sources; the value is the one the Mesh Profile
specification assigns to this message. -/
def OP_APPKEY_GET : Nat := 0x8001

/-- Modelled from the spec: the opcode macro `OP_APPKEY_LIST` of `tools/mesh/config-model.h`,
which is not among the sources; the value is the one the Mesh Profile
specification assigns to this message. -/
def OP_APPKEY_LIST : Nat := 0x8002

/-- Modelled from the spec: the opcode macro `OP_APPKEY_STATUS` of `tools/mesh/config-model.h`,
which is not among the sources; the value is the one the Mesh Profile
specification assigns to this message. -/
def OP_APPKEY_STATUS : Nat := 0x8003

/-- Modelled from the spec: the opcode macro `OP_APPKEY_UPDATE` of `tools/mesh/config-model.h`,
which is not among the sources; the value is the one the Mesh Profile
specification assigns to this message. -/
def OP_APPKEY_UPDATE : Nat := 0x01

/-- Modelled from the spec: the opcode macro `OP_DEV_COMP_GET` of `tools/mesh/config-model.h`,
which is not among the sources; the value is the one the Mesh Profile
specification assigns to this message. -/
def OP_DEV_COMP_GET : Nat := 0x8008

/-- Modelled from the spec: the opcode macro `OP_DEV_COMP_STATUS` of `tools/mesh/config-model.h`,
which is not among the sources; the value is the one the Mesh Profile
specification assigns to this message. -/
def OP_DEV_COMP_STATUS : Nat := 0x02

/-- Modelled from the spec: the opcode macro `OP_CONFIG_BEACON_GET` of `tools/mesh/config-model.h`,
which is not among the sources; the value is the one the Mesh Profile
specification assigns to this message. -/
def OP_CONFIG_BEACON_GET : Nat := 0x8009

/-- Modelled from the spec: the opcode macro `OP_CONFIG_BEACON_SET` of `tools/mesh/config-model.h`,
which is not among the sources; the value is the one the Mesh Profile
specification assigns to this message. -/
def OP_CONFIG_BEACON_SET : Nat := 0x800a

/-- Modelled from the spec: the opcode macro `OP_CONFIG_BEACON_STATUS` of `tools/mesh/config-model.h`,
which is not among the sources; the value is the one the Mesh Profile
specification assigns to this message. -/
def OP_CONFIG_BEACON_STATUS : Nat := 0x800b

/-- Modelled from the spec: the opcode macro `OP_CONFIG_DEFAULT_TTL_GET` of `tools/mesh/config-model.h`,
which is not among the sources; the value is the one the Mesh Profile
specification assigns to this message. -/
def OP_CONFIG_DEFAULT_TTL_GET : Nat := 0x800c

/-- Modelled from the spec: the opcode macro `OP_CONFIG_DEFAULT_TTL_SET` of `tools/mesh/config-model.h`,
which is not among the sources; the value is the one the Mesh Profile
specification assigns to this message. -/
def OP_CONFIG_DEFAULT_TTL_SET : Nat := 0x800d

/-- Modelled from the spec: the opcode macro `OP_CONFIG_DEFAULT_TTL_STATUS` of `tools/mesh/config-model.h`,
which is not among the sources; the value is the one the Mesh Profile
specification assigns to this message. -/
def OP_CONFIG_DEFAULT_TTL_STATUS : Nat := 0x800e

/-- Modelled from the spec: the opcode macro `OP_CONFIG_FRIEND_GET` of `tools/mesh/config-model.h`,
which is not among the sources; the value is the one the Mesh Profile
specification assigns to this message. -/
def OP_CONFIG_FRIEND_GET : Nat := 0x800f

/-- Modelled from the spec: the opcode macro `OP_CONFIG_FRIEND_SET` of `tools/mesh/config-model.h`,
which is not among the sources; the value is the one the Mesh Profile
specification assigns to this message. -/
def OP_CONFIG_FRIEND_SET : Nat := 0x8010

/-- Modelled from the spec: the opcode macro `OP_CONFIG_FRIEND_STATUS` of `tools/mesh/config-model.h`,
which is not among the sources; the value is the one the Mesh Profile
specification assigns to this message. -/
def OP_CONFIG_FRIEND_STATUS : Nat := 0x8011

/-- Modelled from the spec: the opcode macro `OP_CONFIG_PROXY_GET` of `tools/mesh/config-model.h`,
which is not among the sources; the value is the one the Mesh Profile
specification assigns to this message. -/
def OP_CONFIG_PROXY_GET : Nat := 0x8012

/-- Modelled from the spec: the opcode macro `OP_CONFIG_PROXY_SET` of `tools/mesh/config-model.h`,
which is not among the sources; the value is the one the Mesh Profile
specification assigns to this message. -/
def OP_CONFIG_PROXY_SET : Nat := 0x8013

/-- Modelled from the spec: the opcode macro `OP_CONFIG_PROXY_STATUS` of `tools/mesh/config-model.h`,
which is not among the sources; the value is the one the Mesh Profile
specification assigns to this message. -/
def OP_CONFIG_PROXY_STATUS : Nat := 0x8014

/-- Modelled from the spec: the opcode macro `OP_CONFIG_KEY_REFRESH_PHASE_GET` of `tools/mesh/config-model.h`,
which is not among the sources; the value is the one the Mesh Profile
specification assigns to this message. -/
def OP_CONFIG_KEY_REFRESH_PHASE_GET : Nat := 0x8015

/-- Modelled from the spec: the opcode macro `OP_CONFIG_KEY_REFRESH_PHASE_SET` of `tools/mesh/config-model.h`,
which is not among the sources; the value is the one the Mesh Profile
specification assigns to this message. -/
def OP_CONFIG_KEY_REFRESH_PHASE_SET : Nat := 0x8016

/-- Modelled from the spec: the opcode macro `OP_CONFIG_KEY_REFRESH_PHASE_STATUS` of `tools/mesh/config-model.h`,
which is not among the sources; the value is the one the Mesh Profile
specification assigns to this message. -/
def OP_CONFIG_KEY_REFRESH_PHASE_STATUS : Nat := 0x8017

/-- Modelled from the spec: the opcode macro `OP_CONFIG_MODEL_PUB_GET` of `tools/mesh/config-model.h`,
which is not among the sources; the value is the one the Mesh Profile
specification assigns to this message. -/
def OP_CONFIG_MODEL_PUB_GET : Nat := 0x8018

/-- Modelled from the spec: the opcode macro `OP_CONFIG_MODEL_PUB_SET` of `tools/mesh/config-model.h`,
which is not among the sources; the value is the one the Mesh Profile
specification assigns to this message. -/
def OP_CONFIG_MODEL_PUB_SET : Nat := 0x03

/-- Modelled from the spec: the opcode macro `OP_CONFIG_MODEL_PUB_STATUS` of `tools/mesh/config-model.h`,
which is not among the sources; the value is the one the Mesh Profile
specification assigns to this message. -/
def OP_CONFIG_MODEL_PUB_STATUS : Nat := 0x8019

/-- Modelled from the spec: the opcode macro `OP_CONFIG_MODEL_PUB_VIRT_SET` of `tools/mesh/config-model.h`,
which is not among the sources; the value is the one the Mesh Profile
specification assigns to this message. -/
def OP_CONFIG_MODEL_PUB_VIRT_SET : Nat := 0x801a

/-- Modelled from the spec: the opcode macro `OP_CONFIG_MODEL_SUB_ADD` of `tools/mesh/config-model.h`,
which is not among the sources; the value is the one the Mesh Profile
specification assigns to this message. -/
def OP_CONFIG_MODEL_SUB_ADD : Nat := 0x801b

/-- Modelled from the spec: the opcode macro `OP_CONFIG_MODEL_SUB_DELETE` of `tools/mesh/config-model.h`,
which is not among the sources; the value is the one the Mesh Profile
specification assigns to this message. -/
def OP_CONFIG_MODEL_SUB_DELETE : Nat := 0x801c

/-- Modelled from the spec: the opcode macro `OP_CONFIG_MODEL_SUB_DELETE_ALL` of `tools/mesh/config-model.h`,
which is not among the sources; the value is the one the Mesh Profile
specification assigns to this message. -/
def OP_CONFIG_MODEL_SUB_DELETE_ALL : Nat := 0x801d

/-- Modelled from the spec: the opcode macro `OP_CONFIG_MODEL_SUB_OVERWRITE` of `tools/mesh/config-model.h`,
which is not among the sources; the value is the one the Mesh Profile
specification assigns to this message. -/
def OP_CONFIG_MODEL_SUB_OVERWRITE : Nat := 0x801e

/-- Modelled from the spec: the opcode macro `OP_CONFIG_MODEL_SUB_STATUS` of `tools/mesh/config-model.h`,
which is not among the sources; the value is the one the Mesh Profile
specification assigns to this message. -/
def OP_CONFIG_MODEL_SUB_STATUS : Nat := 0x801f

/-- Modelled from the spec: the opcode macro `OP_CONFIG_MODEL_SUB_VIRT_ADD` of `tools/mesh/config-model.h`,
which is not among the sources; the value is the one the Mesh Profile
specification assigns to this message. -/
def OP_CONFIG_MODEL_SUB_VIRT_ADD : Nat := 0x8020

/-- Modelled from the spec: the opcode macro `OP_CONFIG_MODEL_SUB_VIRT_DELETE` of `tools/mesh/config-model.h`,
which is not among the sources; the value is the one the Mesh Profile
specification assigns to this message. -/
def OP_CONFIG_MODEL_SUB_VIRT_DELETE : Nat := 0x8021

/-- Modelled from the spec: the opcode macro `OP_CONFIG_MODEL_SUB_VIRT_OVERWRITE` of `tools/mesh/config-model.h`,
which is not among the sources; the value is the one the Mesh Profile
specification assigns to this message. -/
def OP_CONFIG_MODEL_SUB_VIRT_OVERWRITE : Nat := 0x8022

/-- Modelled from the spec: the opcode macro `OP_CONFIG_NETWORK_TRANSMIT_GET` of `tools/mesh/config-model.h`,
which is not among the sources; the value is the one the Mesh Profile
specification assigns to this message. -/
def OP_CONFIG_NETWORK_TRANSMIT_GET : Nat := 0x8023

/-- Modelled from the spec: the opcode macro `OP_CONFIG_NETWORK_TRANSMIT_SET` of `tools/mesh/config-model.h`,
which is not among the sources; the value is the one the Mesh Profile
specification assigns to this message. -/
def OP_CONFIG_NETWORK_TRANSMIT_SET : Nat := 0x8024

/-- Modelled from the spec: the opcode macro `OP_CONFIG_NETWORK_TRANSMIT_STATUS` of `tools/mesh/config-model.h`,
which is not among the sources; the value is the one the Mesh Profile
specification assigns to this message. -/
def OP_CONFIG_NETWORK_TRANSMIT_STATUS : Nat := 0x8025

/-- Modelled from the spec: the opcode macro `OP_CONFIG_RELAY_GET` of `tools/mesh/config-model.h`,
which is not among the sources; the value is the one the Mesh Profile
specification assigns to this message. -/
def OP_CONFIG_RELAY_GET : Nat := 0x8026

/-- Modelled from the spec: the opcode macro `OP_CONFIG_RELAY_SET` of `tools/mesh/config-model.h`,
which is not among the sources; the value is the one the Mesh Profile
specification assigns to this message. -/
def OP_CONFIG_RELAY_SET : Nat := 0x8027

/-- Modelled from the spec: the opcode macro `OP_CONFIG_RELAY_STATUS` of `tools/mesh/config-model.h`,
which is not among the sources; the value is the one the Mesh Profile
specification assigns to this message. -/
def OP_CONFIG_RELAY_STATUS : Nat := 0x8028

/-- Modelled from the spec: the opcode macro `OP_CONFIG_MODEL_SUB_GET` of `tools/mesh/config-model.h`,
which is not among the sources; the value is the one the Mesh Profile
specification assigns to this message. -/
def OP_CONFIG_MODEL_SUB_GET : Nat := 0x8029

/-- Modelled from the spec: the opcode macro `OP_CONFIG_MODEL_SUB_LIST` of `tools/mesh/config-model.h`,
which is not among the sources; the value is the one the Mesh Profile
specification assigns to this message. -/
def OP_CONFIG_MODEL_SUB_LIST : Nat := 0x802a

/-- Modelled from the spec: the opcode macro `OP_CONFIG_VEND_MODEL_SUB_GET` of `tools/mesh/config-model.h`,
which is not among the sources; the value is the one the Mesh Profile
specification assigns to this message. -/
def OP_CONFIG_VEND_MODEL_SUB_GET : Nat := 0x802b

/-- Modelled from the spec: the opcode macro `OP_CONFIG_VEND_MODEL_SUB_LIST` of `tools/mesh/config-model.h`,
which is not among the sources; the value is the one the Mesh Profile
specification assigns to this message. -/
def OP_CONFIG_VEND_MODEL_SUB_LIST : Nat := 0x802c

/-- Modelled from the spec: the opcode macro `OP_CONFIG_POLL_TIMEOUT_LIST` of `tools/mesh/config-model.h`,
which is not among the sources; the value is the one the Mesh Profile
specification assigns to this message. -/
def OP_CONFIG_POLL_TIMEOUT_LIST : Nat := 0x802d

/-- Modelled from the spec: the opcode macro `OP_CONFIG_POLL_TIMEOUT_STATUS` of `tools/mesh/config-model.h`,
which is not among the sources; the value is the one the Mesh Profile
specification assigns to this message. -/
def OP_CONFIG_POLL_TIMEOUT_STATUS : Nat := 0x802e

/-- Modelled from the spec: the opcode macro `OP_CONFIG_HEARTBEAT_PUB_GET` of `tools/mesh/config-model.h`,
which is not among the sources; the value is the one the Mesh Profile
specification assigns to this message. -/
def OP_CONFIG_HEARTBEAT_PUB_GET : Nat := 0x8038

/-- Modelled from the spec: the opcode macro `OP_CONFIG_HEARTBEAT_PUB_SET` of `tools/mesh/config-model.h`,
which is not among the sources; the value is the one the Mesh Profile
specification assigns to this message. -/
def OP_CONFIG_HEARTBEAT_PUB_SET : Nat := 0x8039

/-- Modelled from the spec: the opcode macro `OP_CONFIG_HEARTBEAT_PUB_STATUS` of `tools/mesh/config-model.h`,
which is not among the sources; the value is the one the Mesh Profile
specification assigns to this message. -/
def OP_CONFIG_HEARTBEAT_PUB_STATUS : Nat := 0x06

/-- Modelled from the spec: the opcode macro `OP_CONFIG_HEARTBEAT_SUB_GET` of `tools/mesh/config-model.h`,
which is not among the sources; the value is the one the Mesh Profile
specification assigns to this message. -/
def OP_CONFIG_HEARTBEAT_SUB_GET : Nat := 0x803a

/-- Modelled from the spec: the opcode macro `OP_CONFIG_HEARTBEAT_SUB_SET` of `tools/mesh/config-model.h`,
which is not among the sources; the value is the one the Mesh Profile
specification assigns to this message. -/
def OP_CONFIG_HEARTBEAT_SUB_SET : Nat := 0x803b

/-- Modelled from the spec: the opcode macro `OP_CONFIG_HEARTBEAT_SUB_STATUS` of `tools/mesh/config-model.h`,
which is not among the sources; the value is the one the Mesh Profile
specification assigns to this message. -/
def OP_CONFIG_HEARTBEAT_SUB_STATUS : Nat := 0x803c

/-- Modelled from the spec: the opcode macro `OP_MODEL_APP_BIND` of `tools/mesh/config-model.h`,
which is not among the sources; the value is the one the Mesh Profile
specification assigns to this message. -/
def OP_MODEL_APP_BIND : Nat := 0x803d

/-- Modelled from the spec: the opcode macro `OP_MODEL_APP_STATUS` of `tools/mesh/config-model.h`,
which is not among the sources; the value is the one the Mesh Profile
specification assigns to this message. -/
def OP_MODEL_APP_STATUS : Nat := 0x803e

/-- Modelled from the spec: the opcode macro `OP_MODEL_APP_UNBIND` of `tools/mesh/config-model.h`,
which is not among the sources; the value is the one the Mesh Profile
specification assigns to this message. -/
def OP_MODEL_APP_UNBIND : Nat := 0x803f

/-- Modelled from the spec: the opcode macro `OP_NETKEY_ADD` of `tools/mesh/config-model.h`,
which is not among the sources; the value is the one the Mesh Profile
specification assigns to this message. -/
def OP_NETKEY_ADD : Nat := 0x8040

/-- Modelled from the spec: the opcode macro `OP_NETKEY_DELETE` of `tools/mesh/config-model.h`,
which is not among the sources; the value is the one the Mesh Profile
specification assigns to this message. -/
def OP_NETKEY_DELETE : Nat := 0x8041

/-- Modelled from the spec: the opcode macro `OP_NETKEY_GET` of `tools/mesh/config-model.h`,
which is not among the sources; the value is the one the Mesh Profile
specification assigns to this message. -/
def OP_NETKEY_GET : Nat := 0x8042

/-- Modelled from the spec: the opcode macro `OP_NETKEY_LIST` of `tools/mesh/config-model.h`,
which is not among the sources; the value is the one the Mesh Profile
specification assigns to this message. -/
def OP_NETKEY_LIST : Nat := 0x8043

/-- Modelled from the spec: the opcode macro `OP_NETKEY_STATUS` of `tools/mesh/config-model.h`,
which is not among the sources; the value is the one the Mesh Profile
specification assigns to this message. -/
def OP_NETKEY_STATUS : Nat := 0x8044

/-- Modelled from the spec: the opcode macro `OP_NETKEY_UPDATE` of `tools/mesh/config-model.h`,
which is not among the sources; the value is the one the Mesh Profile
specification assigns to this message. -/
def OP_NETKEY_UPDATE : Nat := 0x8045

/-- Modelled from the spec: the opcode macro `OP_NODE_IDENTITY_GET` of `tools/mesh/config-model.h`,
which is not among the sources; the value is the one the Mesh Profile
specification assigns to this message. -/
def OP_NODE_IDENTITY_GET : Nat := 0x8046

/-- Modelled from the spec: the opcode macro `OP_NODE_IDENTITY_SET` of `tools/mesh/config-model.h`,
which is not among the sources; the value is the one the Mesh Profile
specification assigns to this message. -/
def OP_NODE_IDENTITY_SET : Nat := 0x8047

/-- Modelled from the spec: the opcode macro `OP_NODE_IDENTITY_STATUS` of `tools/mesh/config-model.h`,
which is not among the sources; the value is the one the Mesh Profile
specification assigns to this message. -/
def OP_NODE_IDENTITY_STATUS : Nat := 0x8048

/-- Modelled from the spec: the opcode macro `OP_NODE_RESET` of `tools/mesh/config-model.h`,
which is not among the sources; the value is the one the Mesh Profile
specification assigns to this message. -/
def OP_NODE_RESET : Nat := 0x8049

/-- Modelled from the spec: the opcode macro `OP_NODE_RESET_STATUS` of `tools/mesh/config-model.h`,
which is not among the sources; the value is the one the Mesh Profile
specification assigns to this message. -/
def OP_NODE_RESET_STATUS : Nat := 0x804a

/-- Modelled from the spec: the opcode macro `OP_MODEL_APP_GET` of `tools/mesh/config-model.h`,
which is not among the sources; the value is the one the Mesh Profile
specification assigns to this message. -/
def OP_MODEL_APP_GET : Nat := 0x804b

/-- Modelled from the spec: the opcode macro `OP_MODEL_APP_LIST` of `tools/mesh/config-model.h`,
which is not among the sources; the value is the one the Mesh Profile
specification assigns to this message. -/
def OP_MODEL_APP_LIST : Nat := 0x804c

/-- Modelled from the spec: the opcode macro `OP_VEND_MODEL_APP_GET` of `tools/mesh/config-model.h`,
which is not among the sources; the value is the one the Mesh Profile
specification assigns to this message. -/
def OP_VEND_MODEL_APP_GET : Nat := 0x804d

/-- Modelled from the spec: the opcode macro `OP_VEND_MODEL_APP_LIST` of `tools/mesh/config-model.h`,
which is not among the sources; the value is the one the Mesh Profile
specification assigns to this message. -/
def OP_VEND_MODEL_APP_LIST : Nat := 0x804e

/-! ## Data model -/

/-- The record `struct cfg_cmd`. -/
structure cfg_cmd where
  opcode : Nat
  rsp : Nat
  desc : String
  deriving DecidableEq, Repr

/-- The record `struct pending_req`; its timer is the one created for it by
`add_request` and is visible in the log only. -/
structure pending_req where
  cmd : cfg_cmd
  addr : Nat
  deriving DecidableEq, Repr

/-- The file-static variables `requests`, `rsp_timeout`, `target` and
`parms` (eight words). -/
structure cfgcli where
  requests : List pending_req
  rsp_timeout : Nat
  target : Nat
  parms : List Nat
  deriving DecidableEq, Repr

/-- An argument of a `bt_shell_printf` call: an integer, a string, the
result of `mesh_status_str` for a status byte, or the command word
`argv[i]`. -/
inductive print_arg where
  | num (n : Nat)
  | str (s : String)
  | status_str (status : Nat)
  | argv (i : Nat)
  deriving DecidableEq, Repr

/-- A call to the outside: `bt_shell_printf` with its format,
`set_menu_prompt`, `bt_shell_noninteractive_quit`, the transport callback
`send_msg`, the key callback `send_key_msg`, `l_timeout_create` and
`l_timeout_remove` for the timer of a request, and the four `mesh_db`
notifications. -/
inductive effect where
  | printf (fmt : String) (args : List print_arg)
  | set_menu_prompt
  | quit (status : Nat)
  | send_msg (dst app_idx : Nat) (buf : List Nat)
  | send_key_msg (dst key_idx : Nat) (is_appkey update : Bool)
  | timeout_create (seconds : Nat) (req : pending_req)
  | timeout_remove (req : pending_req)
  | mesh_db_node_app_key_add (unicast idx : Nat)
  | mesh_db_node_app_key_del (unicast idx : Nat)
  | mesh_db_node_net_key_add (unicast idx : Nat)
  | mesh_db_node_net_key_del (unicast idx : Nat)
  deriving DecidableEq, Repr

/-- The byte helper `get_le16(data + off)` of `src/shared/util.h`. -/
def get_le16 (data : List Nat) (off : Nat) : Nat :=
  data.getD off 0 + 256 * data.getD (off + 1) 0

/-- The byte helper `put_le16(val, dst)` of `src/shared/util.h`: the two
bytes written for the 16-bit value `val`. -/
def put_le16 (val : Nat) : List Nat :=
  [val % 256, (val / 256) % 256]

/-! ## The command table and the request tracker -/

/-- The table `cmds`. -/
def cmds : List cfg_cmd :=
  [
    ⟨OP_APPKEY_ADD, OP_APPKEY_STATUS, "AppKeyAdd"⟩,
    ⟨OP_APPKEY_DELETE, OP_APPKEY_STATUS, "AppKeyDelete"⟩,
    ⟨OP_APPKEY_GET, OP_APPKEY_LIST, "AppKeyGet"⟩,
    ⟨OP_APPKEY_LIST, NO_RESPONSE, "AppKeyList"⟩,
    ⟨OP_APPKEY_STATUS, NO_RESPONSE, "AppKeyStatus"⟩,
    ⟨OP_APPKEY_UPDATE, OP_APPKEY_STATUS, "AppKeyUpdate"⟩,
    ⟨OP_DEV_COMP_GET, OP_DEV_COMP_STATUS, "DeviceCompositionGet"⟩,
    ⟨OP_DEV_COMP_STATUS, NO_RESPONSE, "DeviceCompositionStatus"⟩,
    ⟨OP_CONFIG_BEACON_GET, OP_CONFIG_BEACON_STATUS, "BeaconGet"⟩,
    ⟨OP_CONFIG_BEACON_SET, OP_CONFIG_BEACON_STATUS, "BeaconSet"⟩,
    ⟨OP_CONFIG_BEACON_STATUS, NO_RESPONSE, "BeaconStatus"⟩,
    ⟨OP_CONFIG_DEFAULT_TTL_GET, OP_CONFIG_DEFAULT_TTL_STATUS, "DefaultTTLGet"⟩,
    ⟨OP_CONFIG_DEFAULT_TTL_SET, OP_CONFIG_DEFAULT_TTL_STATUS, "DefaultTTLSet"⟩,
    ⟨OP_CONFIG_DEFAULT_TTL_STATUS, NO_RESPONSE, "DefaultTTLStatus"⟩,
    ⟨OP_CONFIG_FRIEND_GET, OP_CONFIG_FRIEND_STATUS, "FriendGet"⟩,
    ⟨OP_CONFIG_FRIEND_SET, OP_CONFIG_FRIEND_STATUS, "FrienSet"⟩,
    ⟨OP_CONFIG_FRIEND_STATUS, NO_RESPONSE, "FriendStatus"⟩,
    ⟨OP_CONFIG_PROXY_GET, OP_CONFIG_PROXY_STATUS, "ProxyGet"⟩,
    ⟨OP_CONFIG_PROXY_SET, OP_CONFIG_PROXY_STATUS, "ProxySet"⟩,
    ⟨OP_CONFIG_PROXY_STATUS, NO_RESPONSE, "ProxyStatus"⟩,
    ⟨OP_CONFIG_KEY_REFRESH_PHASE_GET, OP_CONFIG_KEY_REFRESH_PHASE_STATUS, "KeyRefreshPhaseGet"⟩,
    ⟨OP_CONFIG_KEY_REFRESH_PHASE_SET, OP_CONFIG_KEY_REFRESH_PHASE_STATUS, "KeyRefreshPhaseSet"⟩,
    ⟨OP_CONFIG_KEY_REFRESH_PHASE_STATUS, NO_RESPONSE, "KeyRefreshPhaseStatus"⟩,
    ⟨OP_CONFIG_MODEL_PUB_GET, OP_CONFIG_MODEL_PUB_STATUS, "ModelPubGet"⟩,
    ⟨OP_CONFIG_MODEL_PUB_SET, OP_CONFIG_MODEL_PUB_STATUS, "ModelPubSet"⟩,
    ⟨OP_CONFIG_MODEL_PUB_STATUS, NO_RESPONSE, "ModelPubStatus"⟩,
    ⟨OP_CONFIG_MODEL_PUB_VIRT_SET, OP_CONFIG_MODEL_PUB_STATUS, "ModelPubVirtualSet"⟩,
    ⟨OP_CONFIG_MODEL_SUB_ADD, OP_CONFIG_MODEL_SUB_STATUS, "ModelSubAdd"⟩,
    ⟨OP_CONFIG_MODEL_SUB_DELETE, OP_CONFIG_MODEL_SUB_STATUS, "ModelSubDelete"⟩,
    ⟨OP_CONFIG_MODEL_SUB_DELETE_ALL, OP_CONFIG_MODEL_SUB_STATUS, "ModelSubDeleteAll"⟩,
    ⟨OP_CONFIG_MODEL_SUB_OVERWRITE, OP_CONFIG_MODEL_SUB_STATUS, "ModelSubOverwrite"⟩,
    ⟨OP_CONFIG_MODEL_SUB_STATUS, NO_RESPONSE, "ModelSubStatus"⟩,
    ⟨OP_CONFIG_MODEL_SUB_VIRT_ADD, OP_CONFIG_MODEL_SUB_STATUS, "ModelSubVirtAdd"⟩,
    ⟨OP_CONFIG_MODEL_SUB_VIRT_DELETE, OP_CONFIG_MODEL_SUB_STATUS, "ModelSubVirtDelete"⟩,
    ⟨OP_CONFIG_MODEL_SUB_VIRT_OVERWRITE, OP_CONFIG_MODEL_SUB_STATUS, "ModelSubVirtOverwrite"⟩,
    ⟨OP_CONFIG_NETWORK_TRANSMIT_GET, OP_CONFIG_NETWORK_TRANSMIT_STATUS, "NetworkTransmitGet"⟩,
    ⟨OP_CONFIG_NETWORK_TRANSMIT_SET, OP_CONFIG_NETWORK_TRANSMIT_STATUS, "NetworkTransmitSet"⟩,
    ⟨OP_CONFIG_NETWORK_TRANSMIT_STATUS, NO_RESPONSE, "NetworkTransmitStatus"⟩,
    ⟨OP_CONFIG_RELAY_GET, OP_CONFIG_RELAY_STATUS, "RelayGet"⟩,
    ⟨OP_CONFIG_RELAY_SET, OP_CONFIG_RELAY_STATUS, "RelaySet"⟩,
    ⟨OP_CONFIG_RELAY_STATUS, NO_RESPONSE, "RelayStatus"⟩,
    ⟨OP_CONFIG_MODEL_SUB_GET, OP_CONFIG_MODEL_SUB_LIST, "ModelSubGet"⟩,
    ⟨OP_CONFIG_MODEL_SUB_LIST, NO_RESPONSE, "ModelSubList"⟩,
    ⟨OP_CONFIG_VEND_MODEL_SUB_GET, OP_CONFIG_VEND_MODEL_SUB_LIST, "VendorModelSubGet"⟩,
    ⟨OP_CONFIG_VEND_MODEL_SUB_LIST, NO_RESPONSE, "VendorModelSubList"⟩,
    ⟨OP_CONFIG_POLL_TIMEOUT_LIST, OP_CONFIG_POLL_TIMEOUT_STATUS, "PollTimeoutList"⟩,
    ⟨OP_CONFIG_POLL_TIMEOUT_STATUS, NO_RESPONSE, "PollTimeoutStatus"⟩,
    ⟨OP_CONFIG_HEARTBEAT_PUB_GET, OP_CONFIG_HEARTBEAT_PUB_STATUS, "HeartbeatPubGet"⟩,
    ⟨OP_CONFIG_HEARTBEAT_PUB_SET, OP_CONFIG_HEARTBEAT_PUB_STATUS, "HeartbeatPubSet"⟩,
    ⟨OP_CONFIG_HEARTBEAT_PUB_STATUS, NO_RESPONSE, "HeartbeatPubStatus"⟩,
    ⟨OP_CONFIG_HEARTBEAT_SUB_GET, OP_CONFIG_HEARTBEAT_SUB_GET, "HeartbeatSubGet"⟩,
    ⟨OP_CONFIG_HEARTBEAT_SUB_SET, OP_CONFIG_HEARTBEAT_SUB_GET, "HeartbeatSubSet"⟩,
    ⟨OP_CONFIG_HEARTBEAT_SUB_STATUS, NO_RESPONSE, "HeartbeatSubStatus"⟩,
    ⟨OP_MODEL_APP_BIND, OP_MODEL_APP_STATUS, "ModelAppBind"⟩,
    ⟨OP_MODEL_APP_STATUS, NO_RESPONSE, "ModelAppStatus"⟩,
    ⟨OP_MODEL_APP_UNBIND, OP_MODEL_APP_STATUS, "ModelAppUnbind"⟩,
    ⟨OP_NETKEY_ADD, OP_NETKEY_STATUS, "NetKeyAdd"⟩,
    ⟨OP_NETKEY_DELETE, OP_NETKEY_STATUS, "NetKeyDelete"⟩,
    ⟨OP_NETKEY_GET, OP_NETKEY_LIST, "NetKeyGet"⟩,
    ⟨OP_NETKEY_LIST, NO_RESPONSE, "NetKeyList"⟩,
    ⟨OP_NETKEY_STATUS, NO_RESPONSE, "NetKeyStatus"⟩,
    ⟨OP_NETKEY_UPDATE, OP_NETKEY_STATUS, "NetKeyUpdate"⟩,
    ⟨OP_NODE_IDENTITY_GET, OP_NODE_IDENTITY_STATUS, "NodeIdentityGet"⟩,
    ⟨OP_NODE_IDENTITY_SET, OP_NODE_IDENTITY_STATUS, "NodeIdentitySet"⟩,
    ⟨OP_NODE_IDENTITY_STATUS, NO_RESPONSE, "NodeIdentityStatus"⟩,
    ⟨OP_NODE_RESET, OP_NODE_RESET_STATUS, "NodeReset"⟩,
    ⟨OP_NODE_RESET_STATUS, NO_RESPONSE, "NodeResetStatus"⟩,
    ⟨OP_MODEL_APP_GET, OP_MODEL_APP_LIST, "ModelAppGet"⟩,
    ⟨OP_MODEL_APP_LIST, NO_RESPONSE, "ModelAppList"⟩,
    ⟨OP_VEND_MODEL_APP_GET, OP_VEND_MODEL_APP_LIST, "VendorModelAppGet"⟩,
    ⟨OP_VEND_MODEL_APP_LIST, NO_RESPONSE, "VendorModelAppList"⟩
  ]

/-- The function `get_cmd(opcode)`. -/
def get_cmd (opcode : Nat) : Option cfg_cmd :=
  cmds.find? (fun c => opcode == c.opcode)

/-- The function `opcode_str(opcode)`. -/
def opcode_str (opcode : Nat) : String :=
  match get_cmd opcode with
  | none => "Unknown"
  | some cmd => cmd.desc

/-- The function `free_request(a)`: the request's timer is removed (the
memory is released). -/
def free_request (req : pending_req) : List effect :=
  [effect.timeout_remove req]

/-- The test `req->addr == addr && req->cmd->rsp == rsp` of
`get_req_by_rsp`. -/
def req_matches (addr rsp : Nat) (req : pending_req) : Bool :=
  req.addr == addr && req.cmd.rsp == rsp

/-- The function `get_req_by_rsp(addr, rsp)`: the first matching request. -/
def get_req_by_rsp (requests : List pending_req) (addr rsp : Nat) : Option pending_req :=
  requests.find? (req_matches addr rsp)

/-- The timer callback `wait_rsp_timeout(timeout, user_data)` for the
request at position `i` of the queue: the shell line, then
`l_queue_remove(requests, req)` and `free_request(req)`. -/
def wait_rsp_timeout (requests : List pending_req) (i : Fin requests.length) :
    List pending_req × List effect :=
  let req := requests.get i
  (requests.eraseIdx i,
    [effect.printf "No response for \"%s\" from %4.4x\n"
        [print_arg.str req.cmd.desc, print_arg.num req.addr]] ++ free_request req)

/-- The function `add_request(opcode)`. -/
def add_request (st : cfgcli) (opcode : Nat) : cfgcli × List effect :=
  match get_cmd opcode with
  | none => (st, [])
  | some cmd =>
    let req : pending_req := ⟨cmd, st.target⟩
    ({ st with requests := l_queue_push_tail st.requests req },
      [effect.timeout_create st.rsp_timeout req])

/-- The function `read_input_parameters(argc, argv)` from word `i` on.
`args` are the command words after the command name, each with the value
`sscanf(argv[i], "%x", &parms[i])` stores, or `none` when it stores
nothing.  The result is the count and the new `parms`. -/
def read_input_parameters_from (parms : List Nat) (i : Nat) :
    List (Option Nat) → Nat × List Nat
  | [] => (i, parms)
  | none :: _ => (i, parms)
  | some v :: rest =>
    if i < 8 then read_input_parameters_from (parms.set i v) (i + 1) rest
    else (i, parms)

/-- The function `read_input_parameters(argc, argv)`. -/
def read_input_parameters (parms : List Nat) (args : List (Option Nat)) : Nat × List Nat :=
  read_input_parameters_from parms 0 args

/-- The command `cmd_timeout_set`. -/
def cmd_timeout_set (st : cfgcli) (args : List (Option Nat)) : cfgcli × List effect :=
  let r := read_input_parameters st.parms args
  if r.1 ≠ 1 then ({ st with parms := r.2 }, [effect.quit EXIT_FAILURE])
  else
    ({ st with parms := r.2, rsp_timeout := r.2.getD 0 0 },
      [effect.printf "Timeout to wait for remote node's response: %d secs\n"
        [print_arg.num (r.2.getD 0 0)], effect.quit EXIT_SUCCESS])

/-- The command `cmd_dst_set`.  `arg` is `some dst` when `strtol(argv[1],
&end, 16)` consumed exactly four characters and returned `dst`, and `none`
otherwise; `target` is a `uint16_t`. -/
def cmd_dst_set (st : cfgcli) (arg : Option Nat) : cfgcli × List effect :=
  match arg with
  | none =>
    ({ st with target := UNASSIGNED_ADDRESS },
      [effect.printf "Bad unicast address %s: expected format 4 digit hex\n"
        [print_arg.argv 1], effect.quit EXIT_FAILURE])
  | some dst =>
    ({ st with target := dst % 65536 },
      [effect.printf "Configuring node %4.4x\n" [print_arg.num dst],
        effect.set_menu_prompt, effect.quit EXIT_SUCCESS])

/-- The function `config_send(buf, len, opcode)`; `buf` holds the `len`
bytes and `send_msg` is the transport callback installed by `tx_setup`. -/
def config_send (send_msg : Nat → Nat → List Nat → Bool) (st : cfgcli) (buf : List Nat)
    (opcode : Nat) : Bool × cfgcli × List effect :=
  if st.target = UNASSIGNED_ADDRESS then
    (false, st, [effect.printf "Destination not set\n" []])
  else
    match get_cmd opcode with
    | none => (false, st, [])
    | some cmd =>
      if (get_req_by_rsp st.requests st.target cmd.rsp).isSome then
        (false, st, [effect.printf "Another command is pending\n" []])
      else
        let res := send_msg st.target APP_IDX_DEV_REMOTE buf
        let sent : List effect :=
          effect.send_msg st.target APP_IDX_DEV_REMOTE buf ::
            (if res then []
             else [effect.printf "Failed to send \"%s\"\n"
               [print_arg.str (opcode_str opcode)]])
        if cmd.rsp ≠ NO_RESPONSE then
          let r := add_request st opcode
          (res, r.1, sent ++ r.2)
        else (res, st, sent)

/-- The exit status a command reports for the result of `config_send`. -/
def quit_for (res : Bool) : List effect :=
  if res then [effect.quit EXIT_SUCCESS] else [effect.quit EXIT_FAILURE]

/-- The command `cmd_default(opcode)`; `mesh_opcode_set` gives the bytes the
external framing function writes for an opcode. -/
def cmd_default (mesh_opcode_set : Nat → List Nat) (send_msg : Nat → Nat → List Nat → Bool)
    (st : cfgcli) (opcode : Nat) : cfgcli × List effect :=
  let r := config_send send_msg st (mesh_opcode_set opcode) opcode
  (r.2.1, r.2.2 ++ quit_for r.1)

/-- The command `cmd_composition_get`. -/
def cmd_composition_get (mesh_opcode_set : Nat → List Nat)
    (send_msg : Nat → Nat → List Nat → Bool) (st : cfgcli) (args : List (Option Nat)) :
    cfgcli × List effect :=
  let p := read_input_parameters st.parms args
  let page := if p.1 = 1 then p.2.getD 0 0 % 256 else 0
  let r := config_send send_msg { st with parms := p.2 }
    (mesh_opcode_set OP_DEV_COMP_GET ++ [page]) OP_DEV_COMP_GET
  (r.2.1, r.2.2 ++ quit_for r.1)

/-- The three octets `msg[n]`, `msg[n + 1]`, `msg[n + 2]` that
`cmd_appkey_del` packs from the bound net-key index and the app-key index
(both `uint16_t`; each octet is a `uint8_t`). -/
def appkey_del_octets (net_idx app_idx : Nat) : List Nat :=
  [net_idx % 256,
   (((net_idx >>> 8) &&& 0xf) ||| ((app_idx <<< 4) &&& 0xf0)) % 256,
   (app_idx >>> 4) % 256]

/-- The command `cmd_appkey_del`. -/
def cmd_appkey_del (mesh_opcode_set : Nat → List Nat) (keys_get_bound_key : Nat → Nat)
    (send_msg : Nat → Nat → List Nat → Bool) (st : cfgcli) (args : List (Option Nat)) :
    cfgcli × List effect :=
  if st.target = UNASSIGNED_ADDRESS then
    (st, [effect.printf "Destination not set\n" [], effect.quit EXIT_FAILURE])
  else
    let p := read_input_parameters st.parms args
    if p.1 ≠ 1 then
      ({ st with parms := p.2 },
        [effect.printf "Bad arguments %s\n" [print_arg.argv 1], effect.quit EXIT_FAILURE])
    else
      let app_idx := p.2.getD 0 0 % 65536
      let net_idx := keys_get_bound_key app_idx % 65536
      let r := config_send send_msg { st with parms := p.2 }
        (mesh_opcode_set OP_APPKEY_DELETE ++ appkey_del_octets net_idx app_idx)
        OP_APPKEY_DELETE
      (r.2.1, r.2.2 ++ quit_for r.1)

/-- The command `cmd_key_add(opcode, argc, argv)`; `send_key_msg` is the
key callback, `none` for the `NULL` pointer. -/
def cmd_key_add (send_key_msg : Option (Nat → Nat → Bool → Bool → Bool)) (st : cfgcli)
    (opcode : Nat) (args : List (Option Nat)) : cfgcli × List effect :=
  if st.target = UNASSIGNED_ADDRESS then
    (st, [effect.printf "Destination not set\n" [], effect.quit EXIT_FAILURE])
  else
    match send_key_msg with
    | none => (st, [effect.printf "Send key callback not set\n" []])
    | some send =>
      let p := read_input_parameters st.parms args
      let st1 : cfgcli := { st with parms := p.2 }
      if p.1 ≠ 1 then
        (st1, [effect.printf "Bad arguments %s\n" [print_arg.argv 1],
          effect.quit EXIT_FAILURE])
      else
        match get_cmd opcode with
        | none => (st1, [effect.quit EXIT_FAILURE])
        | some cmd =>
          if (get_req_by_rsp st1.requests st1.target cmd.rsp).isSome then
            (st1, [effect.printf "Another key command is pending\n" [],
              effect.quit EXIT_FAILURE])
          else
            let key_idx := p.2.getD 0 0 % 65536
            let update := opcode == OP_NETKEY_UPDATE || opcode == OP_APPKEY_UPDATE
            let is_appkey := opcode == OP_APPKEY_ADD || opcode == OP_APPKEY_UPDATE
            let call := effect.send_key_msg st1.target key_idx is_appkey update
            if send st1.target key_idx is_appkey update = false then
              (st1, [call, effect.quit EXIT_FAILURE])
            else
              let r := add_request st1 opcode
              (r.1, [call] ++ r.2 ++ [effect.quit EXIT_SUCCESS])

/-- Modelled from the spec: the framing function `mesh_opcode_set(opcode,
buf)` of `tools/mesh/util.c`, which is not among the sources (`writeOpcode`:
the opcode takes one, two or three bytes depending on its numeric range).
The result is the bytes written; none for an illegal opcode. -/
def mesh_opcode_set (opcode : Nat) : List Nat :=
  if opcode ≤ 0x7e then [opcode]
  else if 0x8000 ≤ opcode ∧ opcode ≤ 0xbfff then [opcode / 256, opcode % 256]
  else if 0xc00000 ≤ opcode ∧ opcode ≤ 0xffffff then
    [opcode / 65536, (opcode / 256) % 256, opcode % 256]
  else []

/-- Modelled from the spec: the framing function `mesh_opcode_get(buf, sz,
&opcode, &n)` of `tools/mesh/util.c`, which is not among the sources
(`parseOpcode`: the opcode and the number of bytes it takes, or none).  The
two top bits of the first byte give the width; `0x7f` is reserved. -/
def mesh_opcode_get (buf : List Nat) : Option (Nat × Nat) :=
  if buf.length < 1 then none
  else if buf.getD 0 0 < 0x80 then
    if buf.getD 0 0 = 0x7f then none else some (buf.getD 0 0, 1)
  else if buf.getD 0 0 < 0xc0 then
    if buf.length < 2 then none else some (buf.getD 0 0 * 256 + buf.getD 1 0, 2)
  else
    if buf.length < 3 then none
    else some (buf.getD 0 0 * 65536 + (buf.getD 1 0 * 256 + buf.getD 2 0), 3)

/-! ## Receiving a message -/

/-- The function `print_mod_id(data + off, vid, offset)`: the returned
`uint32_t` model id and the shell line. -/
def print_mod_id (data : List Nat) (off : Nat) (vid : Bool) (offset : String) :
    Nat × List effect :=
  if vid = false then
    let mod_id := get_le16 data off
    (0xffff0000 ||| mod_id,
      [effect.printf "%sModel Id\t%4.4x\n" [print_arg.str offset, print_arg.num mod_id]])
  else
    let mod_id := get_le16 data (off + 2)
    (((get_le16 data off <<< 16) ||| mod_id) % 4294967296,
      [effect.printf "%sModel Id\t%4.4x %4.4x\n"
        [print_arg.str offset, print_arg.num (get_le16 data off), print_arg.num mod_id]])

/-- The loop `while (len >= 2 && m--)` of `print_composition`: the data left
and the shell lines. -/
def composition_sig_models : Nat → List Nat → List Nat × List effect
  | 0, data => (data, [])
  | m + 1, data =>
    if data.length ≥ 2 then
      let r := composition_sig_models m (data.drop 2)
      (r.1, (print_mod_id data 0 false "\t\t  ").2 ++ r.2)
    else (data, [])

/-- The loop `while (len >= 4 && v--)` of `print_composition`. -/
def composition_vendor_models : Nat → List Nat → List Nat × List effect
  | 0, data => (data, [])
  | v + 1, data =>
    if data.length ≥ 4 then
      let r := composition_vendor_models v (data.drop 4)
      (r.1, (print_mod_id data 0 true "\t\t  ").2 ++ r.2)
    else (data, [])

/-- The loop `while (len)` of `print_composition`, for element number `i`;
`data` is what is left of the payload and `len` is its length.  The body
does `len -= 2` twice before it tests `len` again: when fewer than four
bytes are left the `uint16_t` counter wraps round and the loop goes on
beyond the payload; the result is then `none`.  The first argument bounds
the number of passes (every pass takes at least four bytes). -/
def composition_elements : Nat → List Nat → Nat → Option (List effect)
  | 0, data, _ => if data.length = 0 then some [] else none
  | fuel + 1, data, i =>
    if data.length = 0 then some []
    else if data.length < 4 then none
    else
      let m := data.getD 2 0
      let v := data.getD 3 0
      let sig := composition_sig_models m (data.drop 4)
      let vend := composition_vendor_models v sig.1
      match composition_elements fuel vend.1 (i + 1) with
      | none => none
      | some rest =>
        some ([effect.printf "\t Element %d:\n" [print_arg.num i],
               effect.printf "\t\tlocation: %4.4x\n" [print_arg.num (get_le16 data 0)]] ++
              (if m ≠ 0 then [effect.printf "\t\tSIG defined models:\n" []] else []) ++
              sig.2 ++
              (if v ≠ 0 then [effect.printf "\t\t Vendor defined models:\n" []] else []) ++
              vend.2 ++ rest)

/-- The string `"yes"` or `"no"` printed for one feature bit. -/
def yes_no (features bit : Nat) : print_arg :=
  print_arg.str (if features &&& bit ≠ 0 then "yes" else "no")

/-- The function `print_composition(data, len)`; `data` holds the `len`
bytes.  The result is `none` when a length counter wraps round (see
`composition_elements`; the header takes eleven bytes). -/
def print_composition (data : List Nat) : Option (List effect) :=
  if data.length < 11 then none
  else
    let d := data.drop 1
    let features := get_le16 d 8
    match composition_elements (data.length - 11) (d.drop 10) 0 with
    | none => none
    | some elements =>
      some ([effect.printf "Received composion:\n" [],
             effect.printf "\tCID: %4.4x" [print_arg.num (get_le16 d 0)],
             effect.printf "\tPID: %4.4x" [print_arg.num (get_le16 d 2)],
             effect.printf "\tVID: %4.4x" [print_arg.num (get_le16 d 4)],
             effect.printf "\tCRPL: %4.4x" [print_arg.num (get_le16 d 6)],
             effect.printf "\tFeature support:\n" [],
             effect.printf "\t\trelay: %s\n" [yes_no features (FEATURE_BITS.getD 0 0)],
             effect.printf "\t\tproxy: %s\n" [yes_no features (FEATURE_BITS.getD 1 0)],
             effect.printf "\t\tfriend: %s\n" [yes_no features (FEATURE_BITS.getD 2 0)],
             effect.printf "\t\tlpn: %s\n" [yes_no features (FEATURE_BITS.getD 3 0)]] ++
            elements)

/-- The function `print_pub(ele_addr, mod_id, pub)`, with the fields
`u.addr16`, `app_idx` and `ttl` of `pub`. -/
def print_pub (ele_addr mod_id addr16 app_idx ttl : Nat) : List effect :=
  [effect.printf "\tElement: %4.4x\n" [print_arg.num ele_addr],
   effect.printf "\tPub Addr: %4.4x\n" [print_arg.num addr16],
   (if mod_id > 0xffff0000 then effect.printf "\tModel: %8.8x\n" [print_arg.num mod_id]
    else effect.printf "\tModel: %4.4x\n" [print_arg.num ((mod_id &&& 0xffff) % 65536)]),
   effect.printf "\tApp Key Idx: %4.4x\n" [print_arg.num app_idx],
   effect.printf "\tTTL: %2.2x\n" [print_arg.num ttl]]

/-- The loop `for (i = 5; i < len; i += 2)` of the two list cases of
`msg_recvd`, from index `i` on; the first argument bounds the number of
passes. -/
def recv_list_entries (fmt : String) (data : List Nat) : Nat → Nat → List effect
  | 0, _ => []
  | fuel + 1, i =>
    if i < data.length then
      effect.printf fmt [print_arg.num (get_le16 data i)] ::
        recv_list_entries fmt data fuel (i + 2)
    else []

/-- The opcode with the unreliable bit cleared, `opcode & ~OP_UNRELIABLE`
on `uint32_t`. -/
def clear_unreliable (opcode : Nat) : Nat :=
  opcode &&& (0xFFFFFFFF - OP_UNRELIABLE)

/-- The lines `req = get_req_by_rsp(src, rsp); if (req) ... else cmd = NULL`
of `msg_recvd`: the command of the resolved request (`none` for `NULL`), the
new queue and the log.  `l_queue_remove(requests, req)` unlinks the entry
that holds `req`, which is the first entry `get_req_by_rsp` accepts. -/
def resolve_request (requests : List pending_req) (src rsp : Nat) :
    Option cfg_cmd × List pending_req × List effect :=
  match get_req_by_rsp requests src rsp with
  | some req => (some req.cmd, requests.eraseP (req_matches src rsp), free_request req)
  | none => (none, requests, [])

/-- The net-key index `get_le16(data + 1) & 0xfff` of the AppKey and NetKey
status cases. -/
def status_net_idx (data : List Nat) : Nat :=
  get_le16 data 1 &&& 0xfff

/-- The app-key index `get_le16(data + 2) >> 4` of the AppKey status case. -/
def status_app_idx (data : List Nat) : Nat :=
  get_le16 data 2 >>> 4

/-- The case `OP_APPKEY_STATUS` of `msg_recvd`. -/
def recv_appkey_status (nodes : Registry) (src : Nat) (cmd : Option cfg_cmd)
    (data : List Nat) : Bool × Registry × List effect :=
  if data.length ≠ 4 then (true, nodes, [])
  else
    let net_idx := status_net_idx data
    let app_idx := status_app_idx data
    let log : List effect :=
      [effect.printf "Node %4.4x AppKey status %s\n"
         [print_arg.num src, print_arg.status_str (data.getD 0 0)],
       effect.printf "NetKey\t%3.3x\n" [print_arg.num net_idx],
       effect.printf "AppKey\t%3.3x\n" [print_arg.num app_idx]]
    if data.getD 0 0 ≠ MESH_STATUS_SUCCESS then (true, nodes, log)
    else
      match cmd with
      | none => (true, nodes, log)
      | some cmd =>
        if cmd.opcode = OP_APPKEY_ADD then
          let r := remote_add_app_key nodes src app_idx
          (true, r.2,
            log ++ (if r.1 then [effect.mesh_db_node_app_key_add src app_idx] else []))
        else if cmd.opcode = OP_APPKEY_DELETE then
          let r := remote_del_app_key nodes src app_idx
          (true, r.2,
            log ++ (if r.1 then [effect.mesh_db_node_app_key_del src app_idx] else []))
        else (true, nodes, log)

/-- The case `OP_NETKEY_STATUS` of `msg_recvd`; `none` when
`remote_del_net_key` has no defined result. -/
def recv_netkey_status (keys_get_bound_key : Nat → Nat) (nodes : Registry) (src : Nat)
    (cmd : Option cfg_cmd) (data : List Nat) : Option (Bool × Registry × List effect) :=
  if data.length ≠ 3 then some (true, nodes, [])
  else
    let net_idx := status_net_idx data
    let log : List effect :=
      [effect.printf "Node %4.4x NetKey status %s\n"
         [print_arg.num src, print_arg.status_str (data.getD 0 0)],
       effect.printf "\tNetKey %3.3x\n" [print_arg.num net_idx]]
    if data.getD 0 0 ≠ MESH_STATUS_SUCCESS then some (true, nodes, log)
    else
      match cmd with
      | none => some (true, nodes, log)
      | some cmd =>
        if cmd.opcode = OP_NETKEY_ADD then
          let r := remote_add_net_key nodes src net_idx
          some (true, r.2,
            log ++ (if r.1 then [effect.mesh_db_node_net_key_add src net_idx] else []))
        else if cmd.opcode = OP_NETKEY_DELETE then
          match remote_del_net_key keys_get_bound_key nodes src net_idx with
          | none => none
          | some r =>
            some (true, r.2.1,
              log ++ r.2.2.map (fun c => effect.mesh_db_node_app_key_del c.1 c.2) ++
                (if r.1 then [effect.mesh_db_node_net_key_del src net_idx] else []))
        else some (true, nodes, log)

/-- The case `OP_CONFIG_MODEL_PUB_STATUS` of `msg_recvd`. -/
def recv_model_pub_status (src : Nat) (data : List Nat) : List effect :=
  if data.length ≠ 12 ∧ data.length ≠ 14 then []
  else
    let head : List effect :=
      [effect.printf "\nNode %4.4x Publication status %s\n"
        [print_arg.num src, print_arg.status_str (data.getD 0 0)]]
    if data.getD 0 0 ≠ MESH_STATUS_SUCCESS then head
    else
      let ele_addr := get_le16 data 1
      let mod := print_mod_id data 10 (data.length == 14) ""
      let n := data.getD 8 0 &&& 0x3f
      let resolution := data.getD 8 0 >>> 6
      head ++ mod.2 ++
        print_pub ele_addr mod.1 (get_le16 data 3) (get_le16 data 5) (data.getD 7 0) ++
        (if resolution = 0 then [effect.printf "Period\t\t%d ms\n" [print_arg.num (n * 100)]]
         else if resolution = 2 then
           [effect.printf "Period\t\t%d sec\n" [print_arg.num (n * 10)]]
         else if resolution = 1 then [effect.printf "Period\t\t%d sec\n" [print_arg.num n]]
         else if resolution = 3 then
           [effect.printf "Period\t\t%d min\n" [print_arg.num (n * 10)]]
         else []) ++
        [effect.printf "Rexmit count\t%d\n" [print_arg.num (data.getD 9 0 >>> 5)],
         effect.printf "Rexmit steps\t%d\n" [print_arg.num (data.getD 9 0 &&& 0x1f)]]

/-- The cases of `msg_recvd` that only print: the shell lines for the opcode
`op` (unreliable bit cleared) and the payload `data`, `none` when `op` is
not one of these cases. -/
def recv_print_only (src op : Nat) (data : List Nat) : Option (List effect) :=
  if op = OP_MODEL_APP_STATUS then
    if data.length ≠ 7 ∧ data.length ≠ 9 then some []
    else
      some ([effect.printf "Node %4.4x: Model App status %s\n"
               [print_arg.num src, print_arg.status_str (data.getD 0 0)],
             effect.printf "Element Addr\t%4.4x\n" [print_arg.num (get_le16 data 1)]] ++
            (print_mod_id data 5 (data.length == 9) "").2 ++
            [effect.printf "AppIdx\t\t%3.3x\n " [print_arg.num (get_le16 data 3)]])
  else if op = OP_NODE_IDENTITY_STATUS then
    if data.length ≠ 4 then some []
    else
      some [effect.printf "NetIdx %4.4x, NodeIdState 0x%02x, status %s\n"
        [print_arg.num (get_le16 data 1), print_arg.num (data.getD 3 0),
         print_arg.status_str (data.getD 0 0)]]
  else if op = OP_CONFIG_BEACON_STATUS then
    if data.length ≠ 1 then some []
    else
      some [effect.printf "Node %4.4x: Config Beacon Status 0x%02x\n"
        [print_arg.num src, print_arg.num (data.getD 0 0)]]
  else if op = OP_CONFIG_RELAY_STATUS then
    if data.length ≠ 2 then some []
    else
      some [effect.printf "Node %4.4x: Relay 0x%02x, cnt %d, steps %d\n"
        [print_arg.num src, print_arg.num (data.getD 0 0),
         print_arg.num (data.getD 1 0 >>> 5), print_arg.num (data.getD 1 0 &&& 0x1f)]]
  else if op = OP_CONFIG_PROXY_STATUS then
    if data.length ≠ 1 then some []
    else
      some [effect.printf "Node %4.4x Proxy state 0x%02x\n"
        [print_arg.num src, print_arg.num (data.getD 0 0)]]
  else if op = OP_CONFIG_DEFAULT_TTL_STATUS then
    if data.length ≠ 1 then some []
    else
      some [effect.printf "Node %4.4x Default TTL %d\n"
        [print_arg.num src, print_arg.num (data.getD 0 0)]]
  else if op = OP_CONFIG_MODEL_PUB_STATUS then
    some (recv_model_pub_status src data)
  else if op = OP_CONFIG_MODEL_SUB_STATUS then
    let head : List effect :=
      [effect.printf "\nNode %4.4x Subscription status %s\n"
        [print_arg.num src, print_arg.status_str (data.getD 0 0)]]
    if data.getD 0 0 ≠ MESH_STATUS_SUCCESS then some head
    else
      some (head ++
        [effect.printf "Element Addr\t%4.4x\n" [print_arg.num (get_le16 data 1)]] ++
        (print_mod_id data 5 (data.length == 9) "").2 ++
        [effect.printf "Subscr Addr\t%4.4x\n" [print_arg.num (get_le16 data 3)]])
  else if op = OP_CONFIG_MODEL_SUB_LIST then
    let head : List effect :=
      [effect.printf "\nNode %4.4x Subscription List status %s\n"
        [print_arg.num src, print_arg.status_str (data.getD 0 0)]]
    if data.getD 0 0 ≠ MESH_STATUS_SUCCESS then some head
    else
      some (head ++
        [effect.printf "Element Addr\t%4.4x\n" [print_arg.num (get_le16 data 1)],
         effect.printf "Model ID\t%4.4x\n" [print_arg.num (get_le16 data 3)]] ++
        recv_list_entries "Subscr Addr\t%4.4x\n" data data.length 5)
  else if op = OP_MODEL_APP_LIST then
    let head : List effect :=
      [effect.printf "\nNode %4.4x Model AppIdx status %s\n"
        [print_arg.num src, print_arg.status_str (data.getD 0 0)]]
    if data.getD 0 0 ≠ MESH_STATUS_SUCCESS then some head
    else
      some (head ++
        [effect.printf "Element Addr\t%4.4x\n" [print_arg.num (get_le16 data 1)],
         effect.printf "Model ID\t%4.4x\n" [print_arg.num (get_le16 data 3)]] ++
        recv_list_entries "Model AppIdx\t%4.4x\n" data data.length 5)
  else if op = OP_CONFIG_HEARTBEAT_PUB_STATUS then
    let head : List effect :=
      [effect.printf "\nNode %4.4x Heartbeat publish status %s\n"
        [print_arg.num src, print_arg.status_str (data.getD 0 0)]]
    if data.getD 0 0 ≠ MESH_STATUS_SUCCESS then some head
    else
      some (head ++
        [effect.printf "Destination\t%4.4x\n" [print_arg.num (get_le16 data 1)],
         effect.printf "Count\t\t%2.2x\n" [print_arg.num (data.getD 3 0)],
         effect.printf "Period\t\t%2.2x\n" [print_arg.num (data.getD 4 0)],
         effect.printf "TTL\t\t%2.2x\n" [print_arg.num (data.getD 5 0)],
         effect.printf "Features\t%4.4x\n" [print_arg.num (get_le16 data 6)],
         effect.printf "Net_Idx\t%4.4x\n" [print_arg.num (get_le16 data 8)]])
  else if op = OP_CONFIG_HEARTBEAT_SUB_STATUS then
    let head : List effect :=
      [effect.printf "\nNode %4.4x Heartbeat subscribe status %s\n"
        [print_arg.num src, print_arg.status_str (data.getD 0 0)]]
    if data.getD 0 0 ≠ MESH_STATUS_SUCCESS then some head
    else
      some (head ++
        [effect.printf "Source\t\t%4.4x\n" [print_arg.num (get_le16 data 1)],
         effect.printf "Destination\t%4.4x\n" [print_arg.num (get_le16 data 3)],
         effect.printf "Period\t\t%2.2x\n" [print_arg.num (data.getD 5 0)],
         effect.printf "Count\t\t%2.2x\n" [print_arg.num (data.getD 6 0)],
         effect.printf "Min Hops\t%2.2x\n" [print_arg.num (data.getD 7 0)],
         effect.printf "Max Hops\t%2.2x\n" [print_arg.num (data.getD 8 0)]])
  else if op = OP_NODE_RESET_STATUS then
    some [effect.printf "Node %4.4x reset status %s\n"
      [print_arg.num src, print_arg.status_str (data.getD 0 0)]]
  else none

/-- The statement `switch (opcode & ~OP_UNRELIABLE)` of `msg_recvd`: the
return value, the new registry and the log; `none` when the behaviour is
undefined (`print_composition`, `remote_del_net_key`). -/
def recv_dispatch (keys_get_bound_key : Nat → Nat) (nodes : Registry) (src : Nat)
    (cmd : Option cfg_cmd) (op : Nat) (data : List Nat) :
    Option (Bool × Registry × List effect) :=
  if op = OP_DEV_COMP_STATUS then
    if data.length < MIN_COMPOSITION_LEN then some (true, nodes, [])
    else
      match print_composition data with
      | none => none
      | some log => some (true, nodes, log)
  else if op = OP_APPKEY_STATUS then
    some (recv_appkey_status nodes src cmd data)
  else if op = OP_NETKEY_STATUS then
    recv_netkey_status keys_get_bound_key nodes src cmd data
  else
    match recv_print_only src op data with
    | some log => some (true, nodes, log)
    | none => some (false, nodes, [])

/-- The function `msg_recvd(src, idx, data, len)`; `data` holds the `len`
bytes.  `mesh_opcode_get` is the external framing function: for a buffer it
gives the opcode and the number `n` of bytes the opcode takes (at most the
length of the buffer), or `none` when it returns `false`.  The result is the
return value, the new session state, the new registry and the log. -/
def msg_recvd (mesh_opcode_get : List Nat → Option (Nat × Nat))
    (keys_get_bound_key : Nat → Nat) (st : cfgcli) (nodes : Registry) (src _idx : Nat)
    (data : List Nat) : Option (Bool × cfgcli × Registry × List effect) :=
  match mesh_opcode_get data with
  | none => some (false, st, nodes, [])
  | some (opcode, n) =>
    let payload := data.drop n
    let resolved := resolve_request st.requests src (clear_unreliable opcode)
    match recv_dispatch keys_get_bound_key nodes src resolved.1
        (clear_unreliable opcode) payload with
    | none => none
    | some r =>
      some (r.1, { st with requests := resolved.2.1 }, r.2.1,
        [effect.printf "Received %s\n" [print_arg.str (opcode_str opcode)]] ++
          resolved.2.2 ++ r.2.2)

/-- The session states the program can reach from a state without pending
requests: the target and timeout commands, `config_send` (through which
every other command sends), `cmd_key_add`, a received message, the expiry of
a request's timer, and the overwriting of the scratch words `parms` by a
command that reads its arguments. -/
inductive ReachableSession : cfgcli → Prop
  | init (st : cfgcli) : st.requests = [] → ReachableSession st
  | dst_set {st : cfgcli} (arg : Option Nat) :
      ReachableSession st → ReachableSession (cmd_dst_set st arg).1
  | timeout_set {st : cfgcli} (args : List (Option Nat)) :
      ReachableSession st → ReachableSession (cmd_timeout_set st args).1
  | parms_set {st : cfgcli} (parms : List Nat) :
      ReachableSession st → ReachableSession { st with parms := parms }
  | send {st : cfgcli} (send_msg : Nat → Nat → List Nat → Bool) (buf : List Nat)
      (opcode : Nat) :
      ReachableSession st → ReachableSession (config_send send_msg st buf opcode).2.1
  | key_add {st : cfgcli} (send_key_msg : Option (Nat → Nat → Bool → Bool → Bool))
      (opcode : Nat) (args : List (Option Nat)) :
      ReachableSession st → ReachableSession (cmd_key_add send_key_msg st opcode args).1
  | recvd {st : cfgcli} (mesh_opcode_get : List Nat → Option (Nat × Nat))
      (keys_get_bound_key : Nat → Nat) (nodes : Registry) (src idx : Nat) (data : List Nat)
      (res : Bool × cfgcli × Registry × List effect) :
      ReachableSession st →
      msg_recvd mesh_opcode_get keys_get_bound_key st nodes src idx data = some res →
      ReachableSession res.2.1
  | timer {st : cfgcli} (i : Fin st.requests.length) :
      ReachableSession st →
      ReachableSession { st with requests := (wait_rsp_timeout st.requests i).1 }

/-- No two pending requests have the same destination address and the same
expected-response opcode. -/
def one_request_per_response (requests : List pending_req) : Prop :=
  requests.Pairwise (fun a b => ¬ (a.addr = b.addr ∧ a.cmd.rsp = b.cmd.rsp))

/-- The log holds a call of the transport callback `send_msg`. -/
def calls_send_msg (log : List effect) : Prop :=
  ∃ dst app_idx buf, effect.send_msg dst app_idx buf ∈ log

/-- The log holds a call of the key callback `send_key_msg`. -/
def calls_send_key_msg (log : List effect) : Prop :=
  ∃ dst key_idx is_appkey update, effect.send_key_msg dst key_idx is_appkey update ∈ log

/-! ## Further commands -/

/-- Modelled from the spec: the macro `DEFAULT_TTL` of `mesh/mesh-defs.h`,
which is not among the sources (the fixed default TTL that `cmd_pub_set`
writes into a publication). -/
def DEFAULT_TTL : Nat := 0xff

/-- The bytes `cmd_bind` writes behind the opcode, for the count
`parm_cnt` (3 or 4) and the words `parms`. -/
def bind_params (parm_cnt : Nat) (parms : List Nat) : List Nat :=
  put_le16 (parms.getD 0 0) ++ put_le16 (parms.getD 1 0) ++
    (if parm_cnt = 4 then put_le16 (parms.getD 3 0) ++ put_le16 (parms.getD 2 0)
     else put_le16 (parms.getD 2 0))

/-- The command `cmd_bind`. -/
def cmd_bind (mesh_opcode_set : Nat → List Nat) (send_msg : Nat → Nat → List Nat → Bool)
    (st : cfgcli) (args : List (Option Nat)) : cfgcli × List effect :=
  let p := read_input_parameters st.parms args
  if p.1 ≠ 3 ∧ p.1 ≠ 4 then
    ({ st with parms := p.2 },
      [effect.printf "Bad arguments\n" [], effect.quit EXIT_FAILURE])
  else
    let r := config_send send_msg { st with parms := p.2 }
      (mesh_opcode_set OP_MODEL_APP_BIND ++ bind_params p.1 p.2) OP_MODEL_APP_BIND
    (r.2.1, r.2.2 ++ quit_for r.1)

/-- The bytes `cmd_pub_set` writes behind the opcode, for the count
`parm_cnt` (6 or 7) and the words `parms`. -/
def pub_set_params (parm_cnt : Nat) (parms : List Nat) : List Nat :=
  put_le16 (parms.getD 0 0) ++ put_le16 (parms.getD 1 0) ++ put_le16 (parms.getD 2 0) ++
    [DEFAULT_TTL % 256, parms.getD 3 0 % 256, parms.getD 4 0 % 256] ++
    (if parm_cnt = 7 then put_le16 (parms.getD 6 0) ++ put_le16 (parms.getD 5 0)
     else put_le16 (parms.getD 5 0))

/-- The command `cmd_pub_set`. -/
def cmd_pub_set (mesh_opcode_set : Nat → List Nat) (send_msg : Nat → Nat → List Nat → Bool)
    (st : cfgcli) (args : List (Option Nat)) : cfgcli × List effect :=
  let p := read_input_parameters st.parms args
  if p.1 ≠ 6 ∧ p.1 ≠ 7 then
    ({ st with parms := p.2 },
      [effect.printf "Bad arguments\n" [], effect.quit EXIT_FAILURE])
  else
    let r := config_send send_msg { st with parms := p.2 }
      (mesh_opcode_set OP_CONFIG_MODEL_PUB_SET ++ pub_set_params p.1 p.2)
      OP_CONFIG_MODEL_PUB_SET
    (r.2.1, r.2.2 ++ quit_for r.1)

/-- The command `cmd_hb_sub_set`. -/
def cmd_hb_sub_set (mesh_opcode_set : Nat → List Nat)
    (send_msg : Nat → Nat → List Nat → Bool) (st : cfgcli) (args : List (Option Nat)) :
    cfgcli × List effect :=
  let p := read_input_parameters st.parms args
  if p.1 ≠ 3 then
    ({ st with parms := p.2 },
      [effect.printf "Bad arguments: %s\n" [print_arg.argv 1], effect.quit EXIT_FAILURE])
  else
    let r := config_send send_msg { st with parms := p.2 }
      (mesh_opcode_set OP_CONFIG_HEARTBEAT_SUB_SET ++
        put_le16 (p.2.getD 0 0) ++ put_le16 (p.2.getD 1 0) ++ [p.2.getD 2 0 % 256])
      OP_CONFIG_HEARTBEAT_SUB_SET
    (r.2.1, r.2.2 ++ quit_for r.1)

/-- The command `cmd_hb_sub_get`. -/
def cmd_hb_sub_get (mesh_opcode_set : Nat → List Nat)
    (send_msg : Nat → Nat → List Nat → Bool) (st : cfgcli) : cfgcli × List effect :=
  cmd_default mesh_opcode_set send_msg st OP_CONFIG_HEARTBEAT_SUB_GET

/-! ## Notifications, length tests and the bytes a case reads -/

/-- The effect is one of the four `mesh_db` notifications. -/
def is_mesh_db : effect → Bool
  | effect.mesh_db_node_app_key_add _ _ => true
  | effect.mesh_db_node_app_key_del _ _ => true
  | effect.mesh_db_node_net_key_add _ _ => true
  | effect.mesh_db_node_net_key_del _ _ => true
  | _ => false

/-- The `mesh_db` notifications of a log, in order. -/
def mesh_db_calls (log : List effect) : List effect :=
  log.filter is_mesh_db

/-- The length test at the head of the case of `msg_recvd` for the opcode
`op` (unreliable bit cleared): `true` when a payload of `len` bytes gets past
it.  The cases without a length test, and the opcodes without a case,
accept every length. -/
def size_accepted (op len : Nat) : Bool :=
  if op = OP_DEV_COMP_STATUS then decide (MIN_COMPOSITION_LEN ≤ len)
  else if op = OP_APPKEY_STATUS then len == 4
  else if op = OP_NETKEY_STATUS then len == 3
  else if op = OP_MODEL_APP_STATUS then len == 7 || len == 9
  else if op = OP_NODE_IDENTITY_STATUS then len == 4
  else if op = OP_CONFIG_BEACON_STATUS then len == 1
  else if op = OP_CONFIG_RELAY_STATUS then len == 2
  else if op = OP_CONFIG_PROXY_STATUS then len == 1
  else if op = OP_CONFIG_DEFAULT_TTL_STATUS then len == 1
  else if op = OP_CONFIG_MODEL_PUB_STATUS then len == 12 || len == 14
  else true

/-- The opcodes (unreliable bit cleared) that have a case in the `switch` of
`msg_recvd`. -/
def handled_opcodes : List Nat :=
  [OP_DEV_COMP_STATUS, OP_APPKEY_STATUS, OP_NETKEY_STATUS, OP_MODEL_APP_STATUS,
   OP_NODE_IDENTITY_STATUS, OP_CONFIG_BEACON_STATUS, OP_CONFIG_RELAY_STATUS,
   OP_CONFIG_PROXY_STATUS, OP_CONFIG_DEFAULT_TTL_STATUS, OP_CONFIG_MODEL_PUB_STATUS,
   OP_CONFIG_MODEL_SUB_STATUS, OP_CONFIG_MODEL_SUB_LIST, OP_MODEL_APP_LIST,
   OP_CONFIG_HEARTBEAT_PUB_STATUS, OP_CONFIG_HEARTBEAT_SUB_STATUS, OP_NODE_RESET_STATUS]

/-- The offsets `get_le16(data + off)` reads. -/
def le16_reads (off : Nat) : List Nat :=
  [off, off + 1]

/-- The offsets `print_mod_id(data + off, vid, offset)` reads. -/
def mod_id_reads (off : Nat) (vid : Bool) : List Nat :=
  if vid = false then le16_reads off
  else le16_reads (off + 2) ++ le16_reads off ++ le16_reads off

/-- The offsets the loop `for (i = 5; i < len; i += 2)` reads, from index
`i` on, for a payload of `len` bytes; the first argument bounds the number of
passes. -/
def list_entries_reads (len : Nat) : Nat → Nat → List Nat
  | 0, _ => []
  | fuel + 1, i =>
    if i < len then le16_reads i ++ list_entries_reads len fuel (i + 2) else []

/-- The payload offsets `data[..]` that the case of `msg_recvd` for the
opcode `op` (unreliable bit cleared) reads for the payload `data`, in the
order of the source; `none` for the composition case, whose reads are those
of `print_composition`, and for an opcode without a case. -/
def recv_reads (op : Nat) (data : List Nat) : Option (List Nat) :=
  if op = OP_APPKEY_STATUS then
    if data.length ≠ 4 then some []
    else some ([0] ++ le16_reads 1 ++ le16_reads 2 ++ [0])
  else if op = OP_NETKEY_STATUS then
    if data.length ≠ 3 then some []
    else some ([0] ++ le16_reads 1 ++ [0])
  else if op = OP_MODEL_APP_STATUS then
    if data.length ≠ 7 ∧ data.length ≠ 9 then some []
    else some ([0] ++ le16_reads 1 ++ le16_reads 3 ++ mod_id_reads 5 (data.length == 9))
  else if op = OP_NODE_IDENTITY_STATUS then
    if data.length ≠ 4 then some [] else some (le16_reads 1 ++ [3, 0])
  else if op = OP_CONFIG_BEACON_STATUS then
    if data.length ≠ 1 then some [] else some [0]
  else if op = OP_CONFIG_RELAY_STATUS then
    if data.length ≠ 2 then some [] else some [0, 1, 1]
  else if op = OP_CONFIG_PROXY_STATUS then
    if data.length ≠ 1 then some [] else some [0]
  else if op = OP_CONFIG_DEFAULT_TTL_STATUS then
    if data.length ≠ 1 then some [] else some [0]
  else if op = OP_CONFIG_MODEL_PUB_STATUS then
    if data.length ≠ 12 ∧ data.length ≠ 14 then some []
    else if data.getD 0 0 ≠ MESH_STATUS_SUCCESS then some [0, 0]
    else
      some ([0, 0] ++ le16_reads 1 ++ mod_id_reads 10 (data.length == 14) ++ le16_reads 3 ++
        le16_reads 5 ++ [7, 8, 8, 8, 9, 9])
  else if op = OP_CONFIG_MODEL_SUB_STATUS then
    if data.getD 0 0 ≠ MESH_STATUS_SUCCESS then some [0, 0]
    else
      some ([0, 0] ++ le16_reads 1 ++ le16_reads 3 ++ mod_id_reads 5 (data.length == 9))
  else if op = OP_CONFIG_MODEL_SUB_LIST ∨ op = OP_MODEL_APP_LIST then
    if data.getD 0 0 ≠ MESH_STATUS_SUCCESS then some [0, 0]
    else
      some ([0, 0] ++ le16_reads 1 ++ le16_reads 3 ++
        list_entries_reads data.length data.length 5)
  else if op = OP_CONFIG_HEARTBEAT_PUB_STATUS then
    if data.getD 0 0 ≠ MESH_STATUS_SUCCESS then some [0, 0]
    else some ([0, 0] ++ le16_reads 1 ++ [3, 4, 5] ++ le16_reads 6 ++ le16_reads 8)
  else if op = OP_CONFIG_HEARTBEAT_SUB_STATUS then
    if data.getD 0 0 ≠ MESH_STATUS_SUCCESS then some [0, 0]
    else some ([0, 0] ++ le16_reads 1 ++ le16_reads 3 ++ [5, 6, 7, 8])
  else if op = OP_NODE_RESET_STATUS then some [0]
  else none

end Cfgcli

namespace Remote

/-! ## Auxiliary facts about the queue primitives -/

theorem match_node_addr_iff (rmt : remote_node) (addr : Nat) :
    match_node_addr rmt addr = true ↔ in_range rmt.unicast rmt.num_ele addr := by
  simp [match_node_addr, in_range]

theorem l_queue_find_node_some {nodes : Registry} {f : remote_node → Bool} {rmt : remote_node}
    (h : l_queue_find nodes f = some rmt) : rmt ∈ node_list nodes ∧ f rmt = true := by
  cases nodes with
  | none => simp [l_queue_find] at h
  | some es =>
    simp only [l_queue_find] at h
    exact ⟨List.mem_of_find?_eq_some h, List.find?_some h⟩

theorem l_queue_find_node_none {nodes : Registry} {f : remote_node → Bool}
    (h : l_queue_find nodes f = none) : ∀ n ∈ node_list nodes, f n = false := by
  cases nodes with
  | none => simp [node_list]
  | some es =>
    simp only [l_queue_find, List.find?_eq_none] at h
    intro n hn
    simpa using h n hn

theorem l_queue_find_node_of_mem {nodes : Registry} {f : remote_node → Bool} {n : remote_node}
    (hn : n ∈ node_list nodes) (hf : f n = true) : ∃ rmt, l_queue_find nodes f = some rmt := by
  cases h : l_queue_find nodes f with
  | some rmt => exact ⟨rmt, rfl⟩
  | none =>
    have := l_queue_find_node_none h n hn
    simp [hf] at this

theorem store_node_self (es : List remote_node) (addr : Nat) (rmt : remote_node)
    (h : es.find? (fun e => match_node_addr e addr) = some rmt) :
    store_node es addr rmt = es := by
  induction es with
  | nil => rfl
  | cons e rest ih =>
    simp only [store_node]
    by_cases hm : match_node_addr e addr = true
    · simp only [List.find?_cons, hm] at h
      simp only [hm, if_true]
      cases h
      rfl
    · simp only [Bool.not_eq_true] at hm
      simp only [List.find?_cons, hm] at h
      simp [hm, ih h]

theorem store_node_unicast (es : List remote_node) (addr : Nat) (rmt new : remote_node)
    (h : es.find? (fun e => match_node_addr e addr) = some rmt)
    (hu : new.unicast = rmt.unicast) :
    (store_node es addr new).map remote_node.unicast = es.map remote_node.unicast := by
  induction es with
  | nil => rfl
  | cons e rest ih =>
    simp only [store_node]
    by_cases hm : match_node_addr e addr = true
    · simp only [List.find?_cons, hm] at h
      cases h
      simp [hm, hu]
    · simp only [Bool.not_eq_true] at hm
      simp only [List.find?_cons, hm] at h
      simp [hm, ih h]

theorem l_queue_insert_split {α : Type} (queue : List α) (data : α) (function : α → α → Int) :
    ∃ before after, queue = before ++ after ∧
      l_queue_insert queue data function = before ++ data :: after := by
  induction queue with
  | nil => exact ⟨[], [], rfl, rfl⟩
  | cons cur rest ih =>
    simp only [l_queue_insert]
    by_cases hc : function data cur ≥ 0
    · obtain ⟨before, after, h1, h2⟩ := ih
      refine ⟨cur :: before, after, ?_, ?_⟩
      · simp [h1]
      · simp [hc, h2]
    · exact ⟨[], cur :: rest, rfl, by simp [hc]⟩

theorem l_queue_insert_sorted (queue : List remote_node) (rmt : remote_node)
    (h : (queue.map remote_node.unicast).Pairwise (fun a b => a ≤ b)) :
    ((l_queue_insert queue rmt compare_unicast).map remote_node.unicast).Pairwise
      (fun a b => a ≤ b) := by
  induction queue with
  | nil => simp [l_queue_insert]
  | cons cur rest ih =>
    simp only [List.map_cons, List.pairwise_cons] at h
    simp only [l_queue_insert]
    by_cases hc : compare_unicast rmt cur ≥ 0
    · simp only [hc, if_true, List.map_cons, List.pairwise_cons]
      refine ⟨?_, ih h.2⟩
      intro b hb
      obtain ⟨before, after, h1, h2⟩ := l_queue_insert_split rest rmt compare_unicast
      rw [h2] at hb
      simp only [List.map_append, List.map_cons, List.mem_append, List.mem_cons] at hb
      have hle : cur.unicast ≤ rmt.unicast := by
        unfold compare_unicast at hc
        split_ifs at hc with h3 h4
        · omega
        · omega
        · omega
      rcases hb with hb | hb | hb
      · exact h.1 b (by rw [h1]; simp [hb])
      · omega
      · exact h.1 b (by rw [h1]; simp [hb])
    · have hlt : rmt.unicast < cur.unicast := by
        unfold compare_unicast at hc
        split_ifs at hc with h3 h4
        · exact h3
        · omega
        · omega
      simp only [hc, if_false, List.map_cons, List.pairwise_cons]
      refine ⟨?_, h.1, h.2⟩
      intro b hb
      simp only [List.mem_cons] at hb
      rcases hb with hb | hb
      · omega
      · have := h.1 b hb
        omega

/-! ## The key operations keep the order and the addresses of the nodes -/

theorem store_found_unicast (nodes : Registry) (addr : Nat) (rmt new : remote_node)
    (h : l_queue_find nodes (fun r => match_node_addr r addr) = some rmt)
    (hu : new.unicast = rmt.unicast) :
    (store_node (node_list nodes) addr new).map remote_node.unicast =
      (node_list nodes).map remote_node.unicast := by
  cases nodes with
  | none => simp [l_queue_find] at h
  | some es => exact store_node_unicast es addr rmt new h hu

theorem store_found_self (nodes : Registry) (addr : Nat) (rmt : remote_node)
    (h : l_queue_find nodes (fun r => match_node_addr r addr) = some rmt) :
    some (store_node (node_list nodes) addr rmt) = nodes := by
  cases nodes with
  | none => simp [l_queue_find] at h
  | some es => simp [node_list, store_node_self es addr rmt h]

theorem remote_add_net_key_unicast (nodes : Registry) (addr net_idx : Nat) :
    (node_list (remote_add_net_key nodes addr net_idx).2).map remote_node.unicast =
      (node_list nodes).map remote_node.unicast := by
  unfold remote_add_net_key
  cases h : l_queue_find nodes (fun r => match_node_addr r addr) with
  | none => rfl
  | some rmt =>
    simp only
    split_ifs
    · rfl
    · exact store_found_unicast nodes addr rmt _ h rfl

theorem remote_add_app_key_unicast (nodes : Registry) (addr app_idx : Nat) :
    (node_list (remote_add_app_key nodes addr app_idx).2).map remote_node.unicast =
      (node_list nodes).map remote_node.unicast := by
  unfold remote_add_app_key
  cases h : l_queue_find nodes (fun r => match_node_addr r addr) with
  | none => rfl
  | some rmt =>
    simp only
    split_ifs
    · exact store_found_unicast nodes addr rmt _ h rfl
    · exact store_found_unicast nodes addr rmt _ h rfl

theorem remote_del_app_key_unicast (nodes : Registry) (addr app_idx : Nat) :
    (node_list (remote_del_app_key nodes addr app_idx).2).map remote_node.unicast =
      (node_list nodes).map remote_node.unicast := by
  unfold remote_del_app_key
  cases h : l_queue_find nodes (fun r => match_node_addr r addr) with
  | none => rfl
  | some rmt =>
    simp only
    cases hq : rmt.app_keys with
    | none => rfl
    | some q => exact store_found_unicast nodes addr rmt _ h rfl

theorem remote_del_net_key_unicast (keys_get_bound_key : Nat → Nat) (nodes : Registry)
    (addr net_idx : Nat) (res : Bool × Registry × List (Nat × Nat))
    (hres : remote_del_net_key keys_get_bound_key nodes addr net_idx = some res) :
    (node_list res.2.1).map remote_node.unicast = (node_list nodes).map remote_node.unicast := by
  unfold remote_del_net_key at hres
  cases h : l_queue_find nodes (fun r => match_node_addr r addr) with
  | none =>
    simp only [h, Option.some.injEq] at hres
    subst hres
    rfl
  | some rmt =>
    simp only [h] at hres
    split_ifs at hres with hr
    · simp only [Option.some.injEq] at hres
      subst hres
      rfl
    · cases hq : rmt.app_keys with
      | none =>
        simp only [hq, Option.some.injEq] at hres
        subst hres
        exact store_found_unicast nodes addr rmt _ h rfl
      | some q =>
        simp only [hq] at hres
        cases hl : del_net_key_loop keys_get_bound_key rmt.unicast net_idx [] q [] with
        | none => simp [hl] at hres
        | some pr =>
          obtain ⟨app_keys, calls⟩ := pr
          simp only [hl, Option.some.injEq] at hres
          subst hres
          exact store_found_unicast nodes addr rmt _ h rfl

theorem remote_add_node_sorted (nodes : Registry) (uuid : List Nat)
    (unicast ele_cnt net_idx : Nat) (h : sorted_by_unicast nodes) :
    sorted_by_unicast (remote_add_node nodes uuid unicast ele_cnt net_idx).2 := by
  unfold remote_add_node
  cases hf : l_queue_find nodes (fun r => match_node_addr r unicast) with
  | some rmt => exact h
  | none => exact l_queue_insert_sorted (node_list nodes) _ h

/-! ## C1 - C3: `remote_add_node` and the order of the node list -/

/-- C1, refuted as stated: `remote_add_node` looks up only the new primary
address.  With the node `0x0100` (one element) in the registry, the call for
unicast `0x00ff` with two elements has a range that holds `0x0100`, yet it
returns `true` and inserts the node; the registry reached this way holds two
nodes with overlapping ranges. -/
theorem remote_add_node_accepts_overlapping_range :
    remote_add_node none (List.replicate 16 1) 0x0100 1 0 =
      (true, some [⟨0x0100, [0], none, List.replicate 16 1, 1⟩]) ∧
    1 ≤ 2 ∧ ranges_intersect 0x00ff 2 0x0100 1 ∧
    remote_add_node (some [⟨0x0100, [0], none, List.replicate 16 1, 1⟩])
        (List.replicate 16 2) 0x00ff 2 0 =
      (true, some [⟨0x00ff, [0], none, List.replicate 16 2, 2⟩,
                   ⟨0x0100, [0], none, List.replicate 16 1, 1⟩]) ∧
    Reachable (some [⟨0x00ff, [0], none, List.replicate 16 2, 2⟩,
                     ⟨0x0100, [0], none, List.replicate 16 1, 1⟩]) ∧
    ¬ non_overlapping (some [⟨0x00ff, [0], none, List.replicate 16 2, 2⟩,
                             ⟨0x0100, [0], none, List.replicate 16 1, 1⟩]) := by
  have hx : ranges_intersect 0x00ff 2 0x0100 1 :=
    ⟨0x0100, ⟨by decide, by decide⟩, ⟨by decide, by decide⟩⟩
  refine ⟨by decide, by decide, hx, by decide, ?_, ?_⟩
  · have h := Reachable.add_node (List.replicate 16 2) 0x00ff 2 0
      (Reachable.add_node (List.replicate 16 1) 0x0100 1 0 Reachable.init)
    have e : (remote_add_node (remote_add_node none (List.replicate 16 1) 0x0100 1 0).2
        (List.replicate 16 2) 0x00ff 2 0).2 =
        some [⟨0x00ff, [0], none, List.replicate 16 2, 2⟩,
              ⟨0x0100, [0], none, List.replicate 16 1, 1⟩] := by decide
    rw [e] at h
    exact h
  · intro h
    simp only [non_overlapping, node_list, List.pairwise_cons, List.mem_singleton] at h
    exact h.1 _ rfl hx

/-- C1, amended: when the new primary address `unicast` lies in the range of
a node already in the registry, `remote_add_node` returns `false` and the
registry (node list and key queues) is unchanged. -/
theorem remote_add_node_rejects_owned_unicast (nodes : Registry) (uuid : List Nat)
    (unicast ele_cnt net_idx : Nat)
    (h : ∃ n ∈ node_list nodes, in_range n.unicast n.num_ele unicast) :
    remote_add_node nodes uuid unicast ele_cnt net_idx = (false, nodes) := by
  obtain ⟨n, hn, hr⟩ := h
  obtain ⟨rmt, hf⟩ := l_queue_find_node_of_mem (f := fun r => match_node_addr r unicast) hn
    ((match_node_addr_iff n unicast).2 hr)
  simp [remote_add_node, hf]

/-- Witness of the amended C1: the node `0x0100` with two elements owns
`0x0101`, so adding a node at `0x0101` fails and changes nothing. -/
theorem remote_add_node_rejects_owned_unicast_witness :
    (∃ n ∈ node_list (some [⟨0x0100, [0], none, List.replicate 16 1, 2⟩]),
      in_range n.unicast n.num_ele 0x0101) ∧
    remote_add_node (some [⟨0x0100, [0], none, List.replicate 16 1, 2⟩])
        (List.replicate 16 2) 0x0101 3 0 =
      (false, some [⟨0x0100, [0], none, List.replicate 16 1, 2⟩]) :=
  have hw : ∃ n ∈ node_list (some [⟨0x0100, [0], none, List.replicate 16 1, 2⟩]),
      in_range n.unicast n.num_ele 0x0101 :=
    ⟨⟨0x0100, [0], none, List.replicate 16 1, 2⟩, by simp [node_list],
      ⟨by decide, by decide⟩⟩
  ⟨hw, remote_add_node_rejects_owned_unicast _ (List.replicate 16 2) 0x0101 3 0 hw⟩

/-- C2, refuted as stated: a call with `ele_cnt = 0` has the empty range
`[0x0101, 0x0100]`, which intersects no node, but `0x0101` is owned by the
node `0x0100` (two elements), so the call returns `false` and adds nothing. -/
theorem remote_add_node_empty_range_rejected :
    (∀ n ∈ node_list (some [⟨0x0100, [0], none, List.replicate 16 1, 2⟩]),
      ¬ ranges_intersect 0x0101 0 n.unicast n.num_ele) ∧
    remote_add_node (some [⟨0x0100, [0], none, List.replicate 16 1, 2⟩])
        (List.replicate 16 2) 0x0101 0 0 =
      (false, some [⟨0x0100, [0], none, List.replicate 16 1, 2⟩]) := by
  refine ⟨?_, by decide⟩
  intro n _ hx
  obtain ⟨a, ⟨h1, h2⟩, _⟩ := hx
  omega

/-- C2, amended with `ele_cnt >= 1`: when the range
`[unicast, unicast + ele_cnt - 1]` intersects no node's range, the call
returns `true` and the new node list is the old one, entries unchanged and in
the same order, with one new node linked in: it has the given uuid, unicast
and element count, the net-key queue `[net_idx]` and no app-key queue. -/
theorem remote_add_node_inserts_new_node (nodes : Registry) (uuid : List Nat)
    (unicast ele_cnt net_idx : Nat) (hele : 1 ≤ ele_cnt)
    (h : ∀ n ∈ node_list nodes, ¬ ranges_intersect unicast ele_cnt n.unicast n.num_ele) :
    ∃ before after, node_list nodes = before ++ after ∧
      remote_add_node nodes uuid unicast ele_cnt net_idx =
        (true, some (before ++ ⟨unicast, [net_idx], none, uuid, ele_cnt⟩ :: after)) := by
  have hnone : l_queue_find nodes (fun r => match_node_addr r unicast) = none := by
    cases hf : l_queue_find nodes (fun r => match_node_addr r unicast) with
    | none => rfl
    | some rmt =>
      exfalso
      obtain ⟨hm, hr⟩ := l_queue_find_node_some hf
      have hin := (match_node_addr_iff rmt unicast).1 hr
      refine h rmt hm ⟨unicast, ⟨le_refl _, ?_⟩, hin⟩
      omega
  obtain ⟨before, after, h1, h2⟩ := l_queue_insert_split (node_list nodes)
    (⟨unicast, [net_idx], none, uuid, ele_cnt⟩ : remote_node) compare_unicast
  refine ⟨before, after, h1, ?_⟩
  simp only [remote_add_node, hnone, l_queue_push_tail, List.nil_append]
  rw [h2]

/-- Witness of the amended C2: next to the node `0x0100` (two elements) the
range `[0x0102, 0x0103]` is free, and the node is added behind it. -/
theorem remote_add_node_inserts_new_node_witness :
    ∃ before after,
      node_list (some [⟨0x0100, [0], none, List.replicate 16 1, 2⟩]) = before ++ after ∧
      remote_add_node (some [⟨0x0100, [0], none, List.replicate 16 1, 2⟩])
          (List.replicate 16 2) 0x0102 2 7 =
        (true, some (before ++ ⟨0x0102, [7], none, List.replicate 16 2, 2⟩ :: after)) :=
  remote_add_node_inserts_new_node (some [⟨0x0100, [0], none, List.replicate 16 1, 2⟩])
    (List.replicate 16 2) 0x0102 2 7 (by decide) (by
      intro n hn hx
      simp only [node_list, List.mem_singleton] at hn
      subst hn
      obtain ⟨a, ⟨h1, h2⟩, ⟨h3, h4⟩⟩ := hx
      simp only at h3 h4
      omega)

/-- C3: every registry reachable from the empty one is sorted by ascending
unicast: `remote_add_node` links the new node in at its sorted place, and
the four key operations leave the sequence of unicast addresses of the node
list as it is (no node is moved, none changes its unicast). -/
theorem reachable_sorted_by_unicast (nodes : Registry) (h : Reachable nodes) :
    sorted_by_unicast nodes ∧
    (∀ uuid unicast ele_cnt net_idx,
      sorted_by_unicast (remote_add_node nodes uuid unicast ele_cnt net_idx).2) ∧
    (∀ addr net_idx,
      (node_list (remote_add_net_key nodes addr net_idx).2).map remote_node.unicast =
        (node_list nodes).map remote_node.unicast) ∧
    (∀ keys_get_bound_key addr net_idx res,
      remote_del_net_key keys_get_bound_key nodes addr net_idx = some res →
      (node_list res.2.1).map remote_node.unicast =
        (node_list nodes).map remote_node.unicast) ∧
    (∀ addr app_idx,
      (node_list (remote_add_app_key nodes addr app_idx).2).map remote_node.unicast =
        (node_list nodes).map remote_node.unicast) ∧
    (∀ addr app_idx,
      (node_list (remote_del_app_key nodes addr app_idx).2).map remote_node.unicast =
        (node_list nodes).map remote_node.unicast) := by
  have hs : sorted_by_unicast nodes := by
    induction h with
    | init => simp [sorted_by_unicast, node_list]
    | add_node uuid unicast ele_cnt net_idx _ ih =>
      exact remote_add_node_sorted _ uuid unicast ele_cnt net_idx ih
    | add_net_key addr net_idx _ ih =>
      unfold sorted_by_unicast at ih ⊢
      rw [remote_add_net_key_unicast]
      exact ih
    | del_net_key keys_get_bound_key addr net_idx res _ hres ih =>
      unfold sorted_by_unicast at ih ⊢
      rw [remote_del_net_key_unicast keys_get_bound_key _ addr net_idx res hres]
      exact ih
    | add_app_key addr app_idx _ ih =>
      unfold sorted_by_unicast at ih ⊢
      rw [remote_add_app_key_unicast]
      exact ih
    | del_app_key addr app_idx _ ih =>
      unfold sorted_by_unicast at ih ⊢
      rw [remote_del_app_key_unicast]
      exact ih
  exact ⟨hs, fun uuid unicast ele_cnt net_idx =>
      remote_add_node_sorted nodes uuid unicast ele_cnt net_idx hs,
    remote_add_net_key_unicast nodes,
    fun keys_get_bound_key => remote_del_net_key_unicast keys_get_bound_key nodes,
    remote_add_app_key_unicast nodes,
    remote_del_app_key_unicast nodes⟩

/-- Witness of C3: the registry reached by adding the nodes `0x0200` and
then `0x0100` lists `0x0100` first. -/
theorem reachable_sorted_by_unicast_witness :
    Reachable (some [⟨0x0100, [0], none, List.replicate 16 2, 1⟩,
                     ⟨0x0200, [0], none, List.replicate 16 1, 3⟩]) ∧
    sorted_by_unicast (some [⟨0x0100, [0], none, List.replicate 16 2, 1⟩,
                             ⟨0x0200, [0], none, List.replicate 16 1, 3⟩]) :=
  have hr : Reachable (some [⟨0x0100, [0], none, List.replicate 16 2, 1⟩,
                             ⟨0x0200, [0], none, List.replicate 16 1, 3⟩]) := by
    have h := Reachable.add_node (List.replicate 16 2) 0x0100 1 0
      (Reachable.add_node (List.replicate 16 1) 0x0200 3 0 Reachable.init)
    have e : (remote_add_node (remote_add_node none (List.replicate 16 1) 0x0200 3 0).2
        (List.replicate 16 2) 0x0100 1 0).2 =
        some [⟨0x0100, [0], none, List.replicate 16 2, 1⟩,
              ⟨0x0200, [0], none, List.replicate 16 1, 3⟩] := by decide
    rw [e] at h
    exact h
  ⟨hr, (reachable_sorted_by_unicast _ hr).1⟩

/-! ## C4 - C6: `remote_get_next_unicast` -/

theorem not_ranges_intersect_of_apart {a c u e : Nat} (h : u + e ≤ a ∨ a + c ≤ u) :
    ¬ ranges_intersect a c u e := by
  rintro ⟨x, ⟨h1, h2⟩, ⟨h3, h4⟩⟩
  omega

theorem apart_of_not_ranges_intersect {a c u e : Nat} (hc : 1 ≤ c) (he : 1 ≤ e)
    (h : ¬ ranges_intersect a c u e) : u + e ≤ a ∨ a + c ≤ u := by
  by_contra hcon
  apply h
  by_cases hau : a ≤ u
  · exact ⟨u, ⟨hau, by omega⟩, ⟨le_refl _, by omega⟩⟩
  · exact ⟨a, ⟨le_refl _, by omega⟩, ⟨by omega, by omega⟩⟩

theorem node_end_le (nodes : Registry) (ht : well_typed nodes)
    (hb : ranges_below_0x10000 nodes) :
    ∀ n ∈ node_list nodes, n.unicast + n.num_ele ≤ 65536 ∧ n.num_ele < 256 := by
  intro n hn
  obtain ⟨h1, h2, _⟩ := ht n hn
  refine ⟨?_, h2⟩
  by_cases h0 : n.num_ele = 0
  · omega
  · have := hb n hn (n.unicast + n.num_ele - 1) ⟨by omega, by omega⟩
    omega

theorem next_unicast_scan_zero (high ele_cnt : Nat) (l : List remote_node)
    (h : ∀ n ∈ l, ele_cnt ≤ n.unicast) : next_unicast_scan high ele_cnt l 0 = 0 := by
  cases l with
  | nil => simp [next_unicast_scan]
  | cons rmt rest =>
    have := h rmt (List.mem_cons_self _ _)
    simp only [next_unicast_scan]
    rw [if_pos (by omega)]

theorem next_unicast_scan_clear (high ele_cnt : Nat) (hele : ele_cnt < 256) :
    ∀ (l : List remote_node) (addr a : Nat),
      (l.map remote_node.unicast).Pairwise (fun x y => x ≤ y) →
      (∀ n ∈ l, n.unicast + n.num_ele ≤ 65536 ∧ n.num_ele < 256) →
      next_unicast_scan high ele_cnt l addr = a → a ≠ 0 →
      addr ≤ a ∧ ∀ n ∈ l, n.unicast + n.num_ele ≤ a ∨ a + ele_cnt ≤ n.unicast := by
  intro l
  induction l with
  | nil =>
    intro addr a _ _ hscan hnz
    simp only [next_unicast_scan] at hscan
    split_ifs at hscan
    · subst hscan
      simp
    · exact absurd hscan.symm hnz
  | cons rmt rest ih =>
    intro addr a hs hb hscan hnz
    simp only [List.map_cons, List.pairwise_cons] at hs
    have hrest : ∀ n ∈ rest, rmt.unicast ≤ n.unicast := fun n hn =>
      hs.1 _ (List.mem_map_of_mem _ hn)
    have hbr : ∀ n ∈ rest, n.unicast + n.num_ele ≤ 65536 ∧ n.num_ele < 256 := fun n hn =>
      hb n (List.mem_cons_of_mem _ hn)
    have hb0 := hb rmt (List.mem_cons_self _ _)
    simp only [next_unicast_scan] at hscan
    split_ifs at hscan with h1 h2
    · subst hscan
      refine ⟨le_refl _, ?_⟩
      intro n hn
      rcases List.mem_cons.1 hn with rfl | hn
      · right; omega
      · have := hrest n hn
        right; omega
    · by_cases hw : rmt.unicast + rmt.num_ele = 65536
      · rw [hw] at hscan
        have hz : next_unicast_scan high ele_cnt rest 0 = 0 :=
          next_unicast_scan_zero high ele_cnt rest (fun n hn => by
            have := hrest n hn
            omega)
        simp only [Nat.mod_self] at hscan
        rw [hz] at hscan
        exact absurd hscan.symm hnz
      · have hmod : (rmt.unicast + rmt.num_ele) % 65536 = rmt.unicast + rmt.num_ele :=
          Nat.mod_eq_of_lt (by omega)
        rw [hmod] at hscan
        obtain ⟨ha, hr⟩ := ih _ a hs.2 hbr hscan hnz
        refine ⟨by omega, ?_⟩
        intro n hn
        rcases List.mem_cons.1 hn with rfl | hn
        · left; exact ha
        · exact hr n hn
    · obtain ⟨ha, hr⟩ := ih _ a hs.2 hbr hscan hnz
      refine ⟨ha, ?_⟩
      intro n hn
      rcases List.mem_cons.1 hn with rfl | hn
      · left; omega
      · exact hr n hn

/-- C4: in a registry sorted by ascending unicast whose node ranges stay
below `0x10000`, a non-zero result `a` of
`remote_get_next_unicast(low, high, ele_cnt)` starts a range
`[a, a + ele_cnt - 1]` that intersects the range of no node.  (`well_typed`
and `ele_cnt < 256` are the C types of the fields and of the argument.) -/
theorem remote_get_next_unicast_no_collision (nodes : Registry) (low high ele_cnt : Nat)
    (ht : well_typed nodes) (hs : sorted_by_unicast nodes)
    (hb : ranges_below_0x10000 nodes) (_hlow : 1 ≤ low) (_hele : 1 ≤ ele_cnt)
    (hele8 : ele_cnt < 256)
    (hnz : remote_get_next_unicast nodes low high ele_cnt ≠ 0) :
    ∀ n ∈ node_list nodes,
      ¬ ranges_intersect (remote_get_next_unicast nodes low high ele_cnt) ele_cnt
        n.unicast n.num_ele := by
  intro n hn
  have hend := node_end_le nodes ht hb
  cases nodes with
  | none => simp [node_list] at hn
  | some es =>
    simp only [node_list] at hn hend
    by_cases h1 : (ele_cnt : Int) > (high : Int) - (low : Int) + 1
    · simp [remote_get_next_unicast, h1] at hnz
    · by_cases h2 : es.isEmpty = true
      · rw [List.isEmpty_iff] at h2
        subst h2
        simp at hn
      · have e : remote_get_next_unicast (some es) low high ele_cnt =
            next_unicast_scan high ele_cnt es low := by
          simp only [remote_get_next_unicast, if_neg h1, if_neg h2]
        rw [e] at hnz ⊢
        obtain ⟨_, hr⟩ := next_unicast_scan_clear high ele_cnt hele8 es low _ hs hend rfl hnz
        exact not_ranges_intersect_of_apart (hr n hn)

/-- Witness of C4: with the nodes `0x0100` (two elements) and `0x0200` (one
element), the search in `[0x0100, 0x01ff]` for two addresses yields `0x0102`,
and `[0x0102, 0x0103]` meets neither node. -/
theorem remote_get_next_unicast_no_collision_witness :
    remote_get_next_unicast (some [⟨0x0100, [0], none, List.replicate 16 1, 2⟩,
        ⟨0x0200, [0], none, List.replicate 16 2, 1⟩]) 0x0100 0x01ff 2 = 0x0102 ∧
    ∀ n ∈ node_list (some [⟨0x0100, [0], none, List.replicate 16 1, 2⟩,
        ⟨0x0200, [0], none, List.replicate 16 2, 1⟩]),
      ¬ ranges_intersect (remote_get_next_unicast (some [⟨0x0100, [0], none,
          List.replicate 16 1, 2⟩, ⟨0x0200, [0], none, List.replicate 16 2, 1⟩])
          0x0100 0x01ff 2) 2 n.unicast n.num_ele :=
  ⟨by decide,
   remote_get_next_unicast_no_collision
    (some [⟨0x0100, [0], none, List.replicate 16 1, 2⟩,
           ⟨0x0200, [0], none, List.replicate 16 2, 1⟩]) 0x0100 0x01ff 2
    (by simp [well_typed, node_list])
    (by simp [sorted_by_unicast, node_list])
    (by
      intro n hn a ha
      simp only [node_list, List.mem_cons, List.mem_singleton, List.not_mem_nil,
        or_false] at hn
      rcases hn with rfl | rfl <;>
      · obtain ⟨h1, h2⟩ := ha
        simp only at h1 h2
        omega)
    (by decide) (by decide) (by decide) (by decide)⟩

/-- C5, evaluated at its failing input: registry `0x0100` (two elements),
`0x0200` (one element), sorted and non-overlapping, and the window
`[0x0100, 0x0101]` with `ele_cnt = 2`.  No address of the window is free, yet
the loop's early `return addr` hands out `0x0102`, whose range
`[0x0102, 0x0103]` lies above `high`. -/
theorem remote_get_next_unicast_exceeds_high :
    Reachable (some [⟨0x0100, [0], none, List.replicate 16 1, 2⟩,
                     ⟨0x0200, [0], none, List.replicate 16 2, 1⟩]) ∧
    sorted_by_unicast (some [⟨0x0100, [0], none, List.replicate 16 1, 2⟩,
                             ⟨0x0200, [0], none, List.replicate 16 2, 1⟩]) ∧
    non_overlapping (some [⟨0x0100, [0], none, List.replicate 16 1, 2⟩,
                           ⟨0x0200, [0], none, List.replicate 16 2, 1⟩]) ∧
    remote_get_next_unicast (some [⟨0x0100, [0], none, List.replicate 16 1, 2⟩,
        ⟨0x0200, [0], none, List.replicate 16 2, 1⟩]) 0x0100 0x0101 2 = 0x0102 ∧
    ¬ ((0x0102 : Int) + 2 - 1 ≤ 0x0101) ∧
    ∀ a, ¬ free_start (some [⟨0x0100, [0], none, List.replicate 16 1, 2⟩,
        ⟨0x0200, [0], none, List.replicate 16 2, 1⟩]) 0x0100 0x0101 2 a := by
  refine ⟨?_, by simp [sorted_by_unicast, node_list], ?_, by decide, by decide, ?_⟩
  · have h := Reachable.add_node (List.replicate 16 2) 0x0200 1 0
      (Reachable.add_node (List.replicate 16 1) 0x0100 2 0 Reachable.init)
    have e : (remote_add_node (remote_add_node none (List.replicate 16 1) 0x0100 2 0).2
        (List.replicate 16 2) 0x0200 1 0).2 =
        some [⟨0x0100, [0], none, List.replicate 16 1, 2⟩,
              ⟨0x0200, [0], none, List.replicate 16 2, 1⟩] := by decide
    rw [e] at h
    exact h
  · simp only [non_overlapping, node_list, List.pairwise_cons, List.mem_singleton,
      List.not_mem_nil, false_implies, implies_true, List.Pairwise.nil, and_true,
      forall_eq]
    exact not_ranges_intersect_of_apart (Or.inr (by decide))
  · rintro a ⟨h1, h2, h3, h4⟩
    refine h4 ⟨0x0100, [0], none, List.replicate 16 1, 2⟩ (by simp [node_list])
      ⟨a, ⟨le_refl _, by omega⟩, ⟨h1, ?_⟩⟩
    simp only
    omega

theorem next_unicast_scan_lowest (high ele_cnt : Nat) (hele : 1 ≤ ele_cnt) :
    ∀ (l : List remote_node) (addr c : Nat),
      (l.map remote_node.unicast).Pairwise (fun x y => x ≤ y) →
      (∀ n ∈ l, 1 ≤ n.num_ele) →
      addr ≤ c → (c : Int) + (ele_cnt : Int) - 1 ≤ (high : Int) → c < 65536 →
      (∀ n ∈ l, ¬ ranges_intersect c ele_cnt n.unicast n.num_ele) →
      addr ≤ next_unicast_scan high ele_cnt l addr ∧
      next_unicast_scan high ele_cnt l addr ≤ c ∧
      ∀ n ∈ l, n.unicast + n.num_ele ≤ next_unicast_scan high ele_cnt l addr ∨
        next_unicast_scan high ele_cnt l addr + ele_cnt ≤ n.unicast := by
  intro l
  induction l with
  | nil =>
    intro addr c _ _ hac hfit _ _
    simp only [next_unicast_scan]
    rw [if_pos (by omega)]
    simp [hac]
  | cons rmt rest ih =>
    intro addr c hs hpos hac hfit hc hfree
    simp only [List.map_cons, List.pairwise_cons] at hs
    have hrest : ∀ n ∈ rest, rmt.unicast ≤ n.unicast := fun n hn =>
      hs.1 _ (List.mem_map_of_mem _ hn)
    have hposr : ∀ n ∈ rest, 1 ≤ n.num_ele := fun n hn => hpos n (List.mem_cons_of_mem _ hn)
    have hfreer : ∀ n ∈ rest, ¬ ranges_intersect c ele_cnt n.unicast n.num_ele :=
      fun n hn => hfree n (List.mem_cons_of_mem _ hn)
    have hap := apart_of_not_ranges_intersect hele (hpos rmt (List.mem_cons_self _ _))
      (hfree rmt (List.mem_cons_self _ _))
    simp only [next_unicast_scan]
    split_ifs with h1 h2
    · refine ⟨le_refl _, hac, ?_⟩
      intro n hn
      rcases List.mem_cons.1 hn with rfl | hn
      · right; omega
      · have := hrest n hn
        right; omega
    · have hend : rmt.unicast + rmt.num_ele ≤ c := by omega
      have hmod : (rmt.unicast + rmt.num_ele) % 65536 = rmt.unicast + rmt.num_ele :=
        Nat.mod_eq_of_lt (by omega)
      rw [hmod]
      obtain ⟨ha, hb, hr⟩ := ih (rmt.unicast + rmt.num_ele) c hs.2 hposr hend hfit hc hfreer
      refine ⟨by omega, hb, ?_⟩
      intro n hn
      rcases List.mem_cons.1 hn with rfl | hn
      · left; exact ha
      · exact hr n hn
    · obtain ⟨ha, hb, hr⟩ := ih addr c hs.2 hposr hac hfit hc hfreer
      refine ⟨ha, hb, ?_⟩
      intro n hn
      rcases List.mem_cons.1 hn with rfl | hn
      · left; omega
      · exact hr n hn

/-- C6, refuted as stated: a node with `num_ele = 0` has the empty range
`[0x0105, 0x0104]`.  The registry that holds only this node is reachable,
sorted and non-overlapping, and `0x0100` starts a free range of ten addresses
inside `[0x0100, 0x01ff]`; the loop nevertheless moves `addr` up to the node's
unicast and the function returns `0x0105`, not the lowest free start. -/
theorem remote_get_next_unicast_skips_free_start :
    Reachable (some [⟨0x0105, [0], none, List.replicate 16 1, 0⟩]) ∧
    well_typed (some [⟨0x0105, [0], none, List.replicate 16 1, 0⟩]) ∧
    sorted_by_unicast (some [⟨0x0105, [0], none, List.replicate 16 1, 0⟩]) ∧
    non_overlapping (some [⟨0x0105, [0], none, List.replicate 16 1, 0⟩]) ∧
    ranges_below_0x10000 (some [⟨0x0105, [0], none, List.replicate 16 1, 0⟩]) ∧
    1 ≤ 0x0100 ∧ 1 ≤ 10 ∧
    free_start (some [⟨0x0105, [0], none, List.replicate 16 1, 0⟩]) 0x0100 0x01ff 10 0x0100 ∧
    remote_get_next_unicast (some [⟨0x0105, [0], none, List.replicate 16 1, 0⟩])
      0x0100 0x01ff 10 = 0x0105 ∧
    0x0100 < 0x0105 := by
  refine ⟨?_, by simp [well_typed, node_list], by simp [sorted_by_unicast, node_list],
    by simp [non_overlapping, node_list], ?_, by decide, by decide, ?_, by decide, by decide⟩
  · have h := Reachable.add_node (List.replicate 16 1) 0x0105 0 0 Reachable.init
    have e : (remote_add_node none (List.replicate 16 1) 0x0105 0 0).2 =
        some [⟨0x0105, [0], none, List.replicate 16 1, 0⟩] := by decide
    rw [e] at h
    exact h
  · intro n hn a ha
    simp only [node_list, List.mem_singleton] at hn
    subst hn
    obtain ⟨h1, h2⟩ := ha
    simp only at h1 h2
    omega
  · refine ⟨le_refl _, by decide, by decide, ?_⟩
    intro n hn hx
    simp only [node_list, List.mem_singleton] at hn
    subst hn
    obtain ⟨a, _, ⟨h1, h2⟩⟩ := hx
    simp only at h1 h2
    omega

/-- C6, amended with "every node has at least one element": in a registry
sorted by ascending unicast whose nodes all have `num_ele >= 1`, if some
address of `[low, high]` starts a free range of `ele_cnt >= 1` addresses
inside `[low, high]`, then `remote_get_next_unicast(low, high, ele_cnt)`
returns such an address and no free start is lower; on the empty or absent
registry it returns `low`.  (`high < 65536` is the C type of `high`; the
proof needs neither `low >= 1` nor the non-overlap of the nodes.) -/
theorem remote_get_next_unicast_lowest (nodes : Registry) (low high ele_cnt : Nat)
    (hs : sorted_by_unicast nodes) (hpos : ∀ n ∈ node_list nodes, 1 ≤ n.num_ele)
    (hhigh : high < 65536) (hele : 1 ≤ ele_cnt)
    (hex : ∃ c, free_start nodes low high ele_cnt c) :
    free_start nodes low high ele_cnt (remote_get_next_unicast nodes low high ele_cnt) ∧
    (∀ c, free_start nodes low high ele_cnt c →
      remote_get_next_unicast nodes low high ele_cnt ≤ c) ∧
    (node_list nodes = [] → remote_get_next_unicast nodes low high ele_cnt = low) := by
  obtain ⟨c0, hc0⟩ := hex
  have h1 : ¬ ((ele_cnt : Int) > (high : Int) - (low : Int) + 1) := by
    obtain ⟨ha, _, hc, _⟩ := hc0
    omega
  have hlowfit : (low : Int) + (ele_cnt : Int) - 1 ≤ (high : Int) := by
    obtain ⟨ha, _, hc, _⟩ := hc0
    omega
  have hempty : node_list nodes = [] → remote_get_next_unicast nodes low high ele_cnt = low := by
    intro he
    cases nodes with
    | none => simp only [remote_get_next_unicast, if_neg h1]
    | some es =>
      simp only [node_list] at he
      subst he
      simp only [remote_get_next_unicast, if_neg h1, List.isEmpty_nil, if_true]
  by_cases he : node_list nodes = []
  · rw [hempty he]
    refine ⟨⟨le_refl _, by omega, hlowfit, ?_⟩, fun c hc => hc.1, fun _ => rfl⟩
    intro n hn
    rw [he] at hn
    simp at hn
  · cases nodes with
    | none => exact absurd rfl he
    | some es =>
      simp only [node_list] at he hpos
      have h2 : ¬ (es.isEmpty = true) := by
        rw [List.isEmpty_iff]
        exact he
      have e : remote_get_next_unicast (some es) low high ele_cnt =
          next_unicast_scan high ele_cnt es low := by
        simp only [remote_get_next_unicast, if_neg h1, if_neg h2]
      rw [e]
      have key : ∀ c, free_start (some es) low high ele_cnt c →
          low ≤ next_unicast_scan high ele_cnt es low ∧
          next_unicast_scan high ele_cnt es low ≤ c ∧
          ∀ n ∈ es, n.unicast + n.num_ele ≤ next_unicast_scan high ele_cnt es low ∨
            next_unicast_scan high ele_cnt es low + ele_cnt ≤ n.unicast := by
        rintro c ⟨hc1, hc2, hc3, hc4⟩
        exact next_unicast_scan_lowest high ele_cnt hele es low c hs hpos hc1 hc3
          (by omega) hc4
      obtain ⟨k1, k2, k3⟩ := key c0 hc0
      refine ⟨⟨k1, ?_, ?_, ?_⟩, fun c hc => (key c hc).2.1, fun h => absurd h he⟩
      · have := hc0.2.1
        omega
      · have := hc0.2.2.1
        omega
      · intro n hn
        exact not_ranges_intersect_of_apart (k3 n hn)

/-- Witness of the amended C6: with the nodes `0x0100` (two elements) and
`0x0200` (one element), `0x0102` is a free start in `[0x0100, 0x01ff]` for two
addresses, and the function returns it. -/
theorem remote_get_next_unicast_lowest_witness :
    free_start (some [⟨0x0100, [0], none, List.replicate 16 1, 2⟩,
        ⟨0x0200, [0], none, List.replicate 16 2, 1⟩]) 0x0100 0x01ff 2 0x0102 ∧
    remote_get_next_unicast (some [⟨0x0100, [0], none, List.replicate 16 1, 2⟩,
        ⟨0x0200, [0], none, List.replicate 16 2, 1⟩]) 0x0100 0x01ff 2 = 0x0102 ∧
    ∀ c, free_start (some [⟨0x0100, [0], none, List.replicate 16 1, 2⟩,
        ⟨0x0200, [0], none, List.replicate 16 2, 1⟩]) 0x0100 0x01ff 2 c →
      remote_get_next_unicast (some [⟨0x0100, [0], none, List.replicate 16 1, 2⟩,
        ⟨0x0200, [0], none, List.replicate 16 2, 1⟩]) 0x0100 0x01ff 2 ≤ c :=
  have hfree : free_start (some [⟨0x0100, [0], none, List.replicate 16 1, 2⟩,
      ⟨0x0200, [0], none, List.replicate 16 2, 1⟩]) 0x0100 0x01ff 2 0x0102 := by
    refine ⟨by decide, by decide, by decide, ?_⟩
    intro n hn
    simp only [node_list, List.mem_cons, List.mem_singleton, List.not_mem_nil,
      or_false] at hn
    rcases hn with rfl | rfl
    · exact not_ranges_intersect_of_apart (Or.inl (by decide))
    · exact not_ranges_intersect_of_apart (Or.inr (by decide))
  ⟨hfree, by decide,
   (remote_get_next_unicast_lowest
    (some [⟨0x0100, [0], none, List.replicate 16 1, 2⟩,
           ⟨0x0200, [0], none, List.replicate 16 2, 1⟩]) 0x0100 0x01ff 2
    (by simp [sorted_by_unicast, node_list])
    (by simp [node_list])
    (by decide) (by decide) ⟨0x0102, hfree⟩).2.1⟩

/-! ## C7: `remote_get_subnet_idx` -/

theorem ranges_intersect_symm {u1 c1 u2 c2 : Nat} (h : ranges_intersect u1 c1 u2 c2) :
    ranges_intersect u2 c2 u1 c1 := by
  obtain ⟨a, h1, h2⟩ := h
  exact ⟨a, h2, h1⟩

theorem found_node_unique (nodes : Registry) (addr : Nat) (hno : non_overlapping nodes)
    (n : remote_node) (hn : n ∈ node_list nodes) (hin : in_range n.unicast n.num_ele addr) :
    l_queue_find nodes (fun r => match_node_addr r addr) = some n := by
  obtain ⟨rmt, hf⟩ := l_queue_find_node_of_mem (f := fun r => match_node_addr r addr) hn
    ((match_node_addr_iff n addr).2 hin)
  obtain ⟨hm, hr⟩ := l_queue_find_node_some hf
  have hrin := (match_node_addr_iff rmt addr).1 hr
  by_cases he : rmt = n
  · rw [hf, he]
  · exfalso
    have hsym : Symmetric (fun m n : remote_node =>
        ¬ ranges_intersect m.unicast m.num_ele n.unicast n.num_ele) :=
      fun _ _ h1 h2 => h1 (ranges_intersect_symm h2)
    exact List.Pairwise.forall hsym hno hm hn he ⟨addr, hrin, hin⟩

/-- C7: in a registry with non-overlapping node ranges, for the node `n`
whose range `[n.unicast, n.unicast + n.num_ele - 1]` holds `addr` (any
element address, not only the primary one), `remote_get_subnet_idx(addr)` is
the head of `n`'s net-key queue, and `NET_IDX_INVALID` when that queue is
empty; when no node's range holds `addr` it is `NET_IDX_INVALID`.
(`well_typed` is the C typing of the stored fields.) -/
theorem remote_get_subnet_idx_head (nodes : Registry) (addr : Nat)
    (ht : well_typed nodes) (hno : non_overlapping nodes) :
    (∀ n ∈ node_list nodes, in_range n.unicast n.num_ele addr →
      (n.net_keys = [] → remote_get_subnet_idx nodes addr = NET_IDX_INVALID) ∧
      (∀ head rest, n.net_keys = head :: rest → remote_get_subnet_idx nodes addr = head)) ∧
    ((∀ n ∈ node_list nodes, ¬ in_range n.unicast n.num_ele addr) →
      remote_get_subnet_idx nodes addr = NET_IDX_INVALID) := by
  constructor
  · intro n hn hin
    have hf := found_node_unique nodes addr hno n hn hin
    constructor
    · intro hk
      simp only [remote_get_subnet_idx, hf, hk]
    · intro head rest hk
      have hlt : head < 65536 := (ht n hn).2.2.1 head (by rw [hk]; exact List.mem_cons_self _ _)
      simp only [remote_get_subnet_idx, hf, hk]
      exact Nat.mod_eq_of_lt hlt
  · intro hnone
    cases hf : l_queue_find nodes (fun r => match_node_addr r addr) with
    | none => simp only [remote_get_subnet_idx, hf]
    | some rmt =>
      obtain ⟨hm, hr⟩ := l_queue_find_node_some hf
      exact absurd ((match_node_addr_iff rmt addr).1 hr) (hnone rmt hm)

/-- Witness of C7: the node `0x0100` has two elements and the net keys
`[3, 1]`; the lookup by its second element address `0x0101` yields `3`. -/
theorem remote_get_subnet_idx_head_witness :
    remote_get_subnet_idx (some [⟨0x0100, [3, 1], none, List.replicate 16 1, 2⟩,
      ⟨0x0200, [], none, List.replicate 16 2, 1⟩]) 0x0101 = 3 :=
  ((remote_get_subnet_idx_head
    (some [⟨0x0100, [3, 1], none, List.replicate 16 1, 2⟩,
           ⟨0x0200, [], none, List.replicate 16 2, 1⟩]) 0x0101
    (by simp [well_typed, node_list])
    (by
      simp only [non_overlapping, node_list, List.pairwise_cons, List.mem_singleton,
        List.not_mem_nil, false_implies, implies_true, List.Pairwise.nil, and_true,
        forall_eq]
      exact not_ranges_intersect_of_apart (Or.inr (by decide)))).1
    ⟨0x0100, [3, 1], none, List.replicate 16 1, 2⟩ (by simp [node_list])
    ⟨by decide, by decide⟩).2 3 [1] rfl

/-! ## C8 - C10: the key operations -/

theorem del_net_key_loop_unbound (keys_get_bound_key : Nat → Nat) (unicast net_idx : Nat) :
    ∀ (q visited : List Nat) (calls : List (Nat × Nat)),
      (∀ k ∈ q, net_idx ≠ keys_get_bound_key k) →
      del_net_key_loop keys_get_bound_key unicast net_idx visited q calls =
        some (visited ++ q, calls) := by
  intro q
  induction q with
  | nil => intro visited calls _; simp [del_net_key_loop]
  | cons k rest ih =>
    intro visited calls h
    have hk := h k (List.mem_cons_self _ _)
    simp only [del_net_key_loop, if_neg hk]
    rw [ih _ _ (fun x hx => h x (List.mem_cons_of_mem _ hx))]
    simp

theorem del_net_key_loop_bound (keys_get_bound_key : Nat → Nat) (unicast net_idx : Nat) :
    ∀ (q visited : List Nat) (calls : List (Nat × Nat)),
      (∀ k ∈ visited, net_idx ≠ keys_get_bound_key k) →
      (∃ k ∈ q, net_idx = keys_get_bound_key k) →
      del_net_key_loop keys_get_bound_key unicast net_idx visited q calls = none := by
  intro q
  induction q with
  | nil => intro visited calls _ h; simp at h
  | cons k rest ih =>
    intro visited calls hv h
    by_cases hk : net_idx = keys_get_bound_key k
    · have hnot : k ∉ visited := fun hmem => hv k hmem hk
      simp only [del_net_key_loop, if_pos hk, if_neg hnot]
    · simp only [del_net_key_loop, if_neg hk]
      apply ih
      · intro x hx
        rcases List.mem_append.1 hx with hx | hx
        · exact hv x hx
        · simp only [List.mem_singleton] at hx
          rw [hx]
          exact hk
      · obtain ⟨x, hx, hb⟩ := h
        rcases List.mem_cons.1 hx with rfl | hx
        · exact absurd hb hk
        · exact ⟨x, hx, hb⟩

theorem remote_del_net_key_eq_none_iff (keys_get_bound_key : Nat → Nat) (nodes : Registry)
    (addr net_idx : Nat) :
    remote_del_net_key keys_get_bound_key nodes addr net_idx = none ↔
      ∃ rmt q, l_queue_find nodes (fun r => match_node_addr r addr) = some rmt ∧
        net_idx ∈ rmt.net_keys ∧ rmt.app_keys = some q ∧
        ∃ k ∈ q, net_idx = keys_get_bound_key k := by
  unfold remote_del_net_key
  cases hf : l_queue_find nodes (fun r => match_node_addr r addr) with
  | none => simp
  | some rmt =>
    simp only [Option.some.injEq, exists_and_left, exists_eq_left']
    by_cases hmem : net_idx ∈ rmt.net_keys
    · simp only [l_queue_remove, hmem, if_true, Bool.true_eq_false, if_false, true_and]
      cases hq : rmt.app_keys with
      | none => simp
      | some q =>
        simp only [Option.some.injEq, exists_eq_left']
        by_cases hb : ∃ k ∈ q, net_idx = keys_get_bound_key k
        · have hl := del_net_key_loop_bound keys_get_bound_key rmt.unicast net_idx q [] []
            (by simp) hb
          simp only [hl, true_iff]
          exact hb
        · have hl := del_net_key_loop_unbound keys_get_bound_key rmt.unicast net_idx q [] []
            (fun k hk hkb => hb ⟨k, hk, hkb⟩)
          simp only [hl, reduceCtorEq, false_iff]
          exact hb
    · simp [l_queue_remove, hmem]

theorem ptr_nonnull_find_iff (q : List Nat) (idx : Nat) :
    ptr_nonnull (l_queue_find (some q) (fun d => simple_match d idx)) = true ↔
      idx ∈ q ∧ idx ≠ 0 := by
  simp only [l_queue_find]
  cases h : q.find? (fun d => simple_match d idx) with
  | none =>
    simp only [ptr_nonnull, Bool.false_eq_true, false_iff, not_and]
    intro hmem
    rw [List.find?_eq_none] at h
    have := h idx hmem
    simp [simple_match] at this
  | some d =>
    have hd : d = idx := by
      have := List.find?_some h
      simpa [simple_match] using this
    have hmem : d ∈ q := List.mem_of_find?_eq_some h
    subst hd
    simp [ptr_nonnull, hmem]

/-- C8, evaluated at its failing input.  The registry is the one reached by
`remote_add_node(uuid, 0x0100, 1, 0)`; its node holds net key `0`.  The
duplicate test reads the pointer returned by `l_queue_find`, which for the
entry `L_UINT_TO_PTR(0)` is `NULL`, so `remote_add_net_key(0x0100, 0)`
returns `true` and queues `0` a second time.  A duplicate of a non-zero
index (here `1`) is rejected with the registry unchanged. -/
theorem remote_add_net_key_duplicate_zero :
    Reachable (some [⟨0x0100, [0], none, List.replicate 16 1, 1⟩]) ∧
    remote_add_net_key (some [⟨0x0100, [0], none, List.replicate 16 1, 1⟩]) 0x0100 0 =
      (true, some [⟨0x0100, [0, 0], none, List.replicate 16 1, 1⟩]) ∧
    remote_add_net_key (some [⟨0x0100, [1], none, List.replicate 16 1, 1⟩]) 0x0100 1 =
      (false, some [⟨0x0100, [1], none, List.replicate 16 1, 1⟩]) := by
  refine ⟨?_, by decide, by decide⟩
  have h := Reachable.add_node (List.replicate 16 1) 0x0100 1 0 Reachable.init
  have e : (remote_add_node none (List.replicate 16 1) 0x0100 1 0).2 =
      some [⟨0x0100, [0], none, List.replicate 16 1, 1⟩] := by decide
  rw [e] at h
  exact h

/-- C9, evaluated at its failing input.  The node `0x0100` holds the net
keys `[0, 1]` and the app key `5`, which `keys_get_bound_key` binds to net
key `1`.  `remote_del_net_key(0x0100, 1)` removes the net key, and in the
loop `l_queue_remove` frees the very entry `l` the loop stands on before
`l = l->next` is read: the call has no defined result.  With no bound app
key the call is defined; on the net-key queue `[0, 0]` (reached through the
duplicate of index `0`) it returns `true` and the queue still holds `0`. -/
theorem remote_del_net_key_cascade_reads_freed_entry :
    Reachable (some [⟨0x0100, [0, 1], some [5], List.replicate 16 1, 1⟩]) ∧
    remote_del_net_key (fun _ => 1)
      (some [⟨0x0100, [0, 1], some [5], List.replicate 16 1, 1⟩]) 0x0100 1 = none ∧
    remote_del_net_key (fun _ => 1)
      (some [⟨0x0100, [0, 0], none, List.replicate 16 1, 1⟩]) 0x0100 0 =
      some (true, some [⟨0x0100, [0], none, List.replicate 16 1, 1⟩], []) := by
  refine ⟨?_, by decide, by decide⟩
  have h := Reachable.add_app_key 0x0100 5 (Reachable.add_net_key 0x0100 1
    (Reachable.add_node (List.replicate 16 1) 0x0100 1 0 Reachable.init))
  have e : (remote_add_app_key (remote_add_net_key
      (remote_add_node none (List.replicate 16 1) 0x0100 1 0).2 0x0100 1).2 0x0100 5).2 =
      some [⟨0x0100, [0, 1], some [5], List.replicate 16 1, 1⟩] := by decide
  rw [e] at h
  exact h

/-- C10, evaluated at its failing input.  The node `0x0100` already holds
app key `0`; the duplicate test of `remote_add_app_key` reads the `NULL`
pointer `L_UINT_TO_PTR(0)` returned by `l_queue_find` as "not found", so
`remote_add_app_key(0x0100, 0)` returns `true` and queues `0` again.  A
duplicate of a non-zero index (here `5`) is rejected. -/
theorem remote_add_app_key_duplicate_zero :
    Reachable (some [⟨0x0100, [0], some [0], List.replicate 16 1, 1⟩]) ∧
    remote_add_app_key (some [⟨0x0100, [0], some [0], List.replicate 16 1, 1⟩]) 0x0100 0 =
      (true, some [⟨0x0100, [0], some [0, 0], List.replicate 16 1, 1⟩]) ∧
    remote_add_app_key (some [⟨0x0100, [0], some [5], List.replicate 16 1, 1⟩]) 0x0100 5 =
      (false, some [⟨0x0100, [0], some [5], List.replicate 16 1, 1⟩]) := by
  refine ⟨?_, by decide, by decide⟩
  have h := Reachable.add_app_key 0x0100 0
    (Reachable.add_node (List.replicate 16 1) 0x0100 1 0 Reachable.init)
  have e : (remote_add_app_key
      (remote_add_node none (List.replicate 16 1) 0x0100 1 0).2 0x0100 0).2 =
      some [⟨0x0100, [0], some [0], List.replicate 16 1, 1⟩] := by decide
  rw [e] at h
  exact h

/-! ## C11 - C12: adding and then removing a net key -/

theorem find_store_node (es : List remote_node) (addr : Nat) (rmt new : remote_node)
    (h : es.find? (fun e => match_node_addr e addr) = some rmt)
    (hn : match_node_addr new addr = true) :
    (store_node es addr new).find? (fun e => match_node_addr e addr) = some new := by
  induction es with
  | nil => simp at h
  | cons e rest ih =>
    simp only [store_node]
    by_cases hm : match_node_addr e addr = true
    · simp [hm, hn]
    · simp only [Bool.not_eq_true] at hm
      simp only [List.find?_cons, hm] at h
      simp [hm, ih h]

theorem store_node_store_node (es : List remote_node) (addr : Nat) (x y : remote_node)
    (hx : match_node_addr x addr = true) :
    store_node (store_node es addr x) addr y = store_node es addr y := by
  induction es with
  | nil => rfl
  | cons e rest ih =>
    simp only [store_node]
    by_cases hm : match_node_addr e addr = true
    · simp [hm, store_node, hx]
    · simp only [Bool.not_eq_true] at hm
      simp [hm, store_node, ih]

theorem match_node_addr_congr (a b : remote_node) (addr : Nat) (hu : a.unicast = b.unicast)
    (he : a.num_ele = b.num_ele) : match_node_addr a addr = match_node_addr b addr := by
  simp [match_node_addr, hu, he]

/-- C11, refuted as stated.  First input: the node `0x0100` holds the net
key `0` and the app key `5`, and `keys_get_bound_key` binds `5` to net key
`1`.  `remote_add_net_key(0x0100, 1)` returns `true`, and the following
`remote_del_net_key(0x0100, 1)` runs the cascade over app key `5` (the
removal the function is written to do, which here ends in the read of the
freed entry): it does not return `true` with the app keys as before.  Second
input: the net keys are `[0, 1]`; adding `0` returns `true` and the removal
leaves `[1, 0]`, not `[0, 1]`. -/
theorem remote_add_del_net_key_not_restored :
    remote_add_net_key (some [⟨0x0100, [0], some [5], List.replicate 16 1, 1⟩]) 0x0100 1 =
      (true, some [⟨0x0100, [0, 1], some [5], List.replicate 16 1, 1⟩]) ∧
    remote_del_net_key (fun _ => 1)
      (remote_add_net_key (some [⟨0x0100, [0], some [5], List.replicate 16 1, 1⟩])
        0x0100 1).2 0x0100 1 = none ∧
    remote_add_net_key (some [⟨0x0100, [0, 1], none, List.replicate 16 1, 1⟩]) 0x0100 0 =
      (true, some [⟨0x0100, [0, 1, 0], none, List.replicate 16 1, 1⟩]) ∧
    remote_del_net_key (fun _ => 1)
      (remote_add_net_key (some [⟨0x0100, [0, 1], none, List.replicate 16 1, 1⟩])
        0x0100 0).2 0x0100 0 =
      some (true, some [⟨0x0100, [1, 0], none, List.replicate 16 1, 1⟩], []) := by
  refine ⟨by decide, by decide, by decide, by decide⟩

/-- C11, amended: if `remote_add_net_key(addr, net_idx)` returns `true`,
`net_idx` was not yet in the net-key queue of the node that owns `addr`, and
no app key of that node is bound by `keys_get_bound_key` to `net_idx`, then
the following `remote_del_net_key(addr, net_idx)` returns `true`, makes no
call of `mesh_db_node_app_key_del`, and the registry - hence the node's
net-key list and app-key set - is what it was before the add. -/
theorem remote_add_del_net_key_restores (keys_get_bound_key : Nat → Nat) (nodes : Registry)
    (addr net_idx : Nat)
    (hadd : (remote_add_net_key nodes addr net_idx).1 = true)
    (hfresh : ∀ rmt, l_queue_find nodes (fun r => match_node_addr r addr) = some rmt →
      net_idx ∉ rmt.net_keys)
    (hunbound : ∀ rmt q, l_queue_find nodes (fun r => match_node_addr r addr) = some rmt →
      rmt.app_keys = some q → ∀ k ∈ q, net_idx ≠ keys_get_bound_key k) :
    remote_del_net_key keys_get_bound_key (remote_add_net_key nodes addr net_idx).2
      addr net_idx = some (true, nodes, []) := by
  cases hf : l_queue_find nodes (fun r => match_node_addr r addr) with
  | none => simp [remote_add_net_key, hf] at hadd
  | some rmt =>
    have hnot := hfresh rmt hf
    have hmatch := (l_queue_find_node_some hf).2
    cases nodes with
    | none => simp [l_queue_find] at hf
    | some es =>
      have hub := hunbound rmt
      simp only [l_queue_find] at hf
      obtain ⟨u, nk, ak, id, ne⟩ := rmt
      simp only at hnot
      have hptr : ptr_nonnull (List.find? (fun d => simple_match d net_idx) nk) = false := by
        cases hp : ptr_nonnull (List.find? (fun d => simple_match d net_idx) nk) with
        | false => rfl
        | true =>
          have := (ptr_nonnull_find_iff nk net_idx).1 (by simpa [l_queue_find] using hp)
          exact absurd this.1 hnot
      have hadd_eq : remote_add_net_key (some es) addr net_idx =
          (true, some (store_node es addr ⟨u, nk ++ [net_idx], ak, id, ne⟩)) := by
        simp [remote_add_net_key, l_queue_find, hf, hptr, node_list, l_queue_push_tail]
      rw [hadd_eq]
      have hm2 : match_node_addr ⟨u, nk ++ [net_idx], ak, id, ne⟩ addr = true :=
        (match_node_addr_congr _ ⟨u, nk, ak, id, ne⟩ addr rfl rfl).trans hmatch
      have hfind2 := find_store_node es addr _ _ hf hm2
      have herase : (nk ++ [net_idx]).erase net_idx = nk := by
        rw [List.erase_append_right _ hnot]
        simp
      have hback : store_node (store_node es addr ⟨u, nk ++ [net_idx], ak, id, ne⟩) addr
          ⟨u, nk, ak, id, ne⟩ = es := by
        rw [store_node_store_node _ _ _ _ hm2, store_node_self es addr _ hf]
      cases ak with
      | none =>
        simp only [remote_del_net_key, l_queue_find, hfind2, l_queue_remove, node_list,
          List.mem_append, List.mem_singleton, or_true, if_true, herase,
          Bool.true_eq_false, if_false, hback]
      | some q =>
        have hl := del_net_key_loop_unbound keys_get_bound_key u net_idx q [] []
          (hub q (by simp [l_queue_find, hf]) rfl)
        simp only [remote_del_net_key, l_queue_find, hfind2, l_queue_remove, node_list,
          List.mem_append, List.mem_singleton, or_true, if_true, herase,
          Bool.true_eq_false, if_false, hl, List.nil_append, hback]

/-- Witness of the amended C11: on the node `0x0100` with net keys `[0]` and
app key `5` bound to net key `0`, adding net key `1` and removing it again
gives back the registry. -/
theorem remote_add_del_net_key_restores_witness :
    remote_del_net_key (fun _ => 0)
      (remote_add_net_key (some [⟨0x0100, [0], some [5], List.replicate 16 1, 2⟩])
        0x0101 1).2 0x0101 1 =
      some (true, some [⟨0x0100, [0], some [5], List.replicate 16 1, 2⟩], []) :=
  remote_add_del_net_key_restores (fun _ => 0)
    (some [⟨0x0100, [0], some [5], List.replicate 16 1, 2⟩]) 0x0101 1 (by decide)
    (by
      intro rmt h
      have e : l_queue_find (some [(⟨0x0100, [0], some [5], List.replicate 16 1, 2⟩ :
          remote_node)]) (fun r => match_node_addr r 0x0101) =
          some ⟨0x0100, [0], some [5], List.replicate 16 1, 2⟩ := by decide
      rw [e] at h
      cases h
      decide)
    (by
      intro rmt q h hq k hk
      have e : l_queue_find (some [(⟨0x0100, [0], some [5], List.replicate 16 1, 2⟩ :
          remote_node)]) (fun r => match_node_addr r 0x0101) =
          some ⟨0x0100, [0], some [5], List.replicate 16 1, 2⟩ := by decide
      rw [e] at h
      cases h
      simp)

/-- C12: from the empty registry, `remote_add_node(X, 0x0100, 2, 0x000)`
returns `true`; `remote_get_next_unicast(0x0100, 0x01ff, 2)` is then
`0x0102`; `remote_add_net_key(0x0101, 0x001)` returns `true`;
`remote_del_net_key(0x0100, 0x000)` returns `true` without a notification and
leaves the single node with the net-key list `[0x001]`, so that
`remote_get_subnet_idx(0x0100)` is `0x001`.  This holds for every uuid `X`
and every key binding. -/
theorem registry_scenario (X : List Nat) (keys_get_bound_key : Nat → Nat) :
    remote_add_node none X 0x0100 2 0x000 =
      (true, some [⟨0x0100, [0x000], none, X, 2⟩]) ∧
    remote_get_next_unicast (some [⟨0x0100, [0x000], none, X, 2⟩]) 0x0100 0x01ff 2 = 0x0102 ∧
    remote_add_net_key (some [⟨0x0100, [0x000], none, X, 2⟩]) 0x0101 0x001 =
      (true, some [⟨0x0100, [0x000, 0x001], none, X, 2⟩]) ∧
    remote_del_net_key keys_get_bound_key
        (some [⟨0x0100, [0x000, 0x001], none, X, 2⟩]) 0x0100 0x000 =
      some (true, some [⟨0x0100, [0x001], none, X, 2⟩], []) ∧
    remote_get_subnet_idx (some [⟨0x0100, [0x001], none, X, 2⟩]) 0x0100 = 0x001 := by
  refine ⟨rfl, ?_, ?_, ?_, ?_⟩
  · simp [remote_get_next_unicast, next_unicast_scan]
  · rfl
  · rfl
  · rfl

end Remote

namespace Cfgcli

open Remote

/-! ## Auxiliary facts about the request tracker -/

theorem get_req_by_rsp_none {requests : List pending_req} {addr rsp : Nat}
    (h : get_req_by_rsp requests addr rsp = none) :
    ∀ r ∈ requests, ¬ (r.addr = addr ∧ r.cmd.rsp = rsp) := by
  intro r hr hm
  simp only [get_req_by_rsp, List.find?_eq_none] at h
  exact h r hr (by simp [req_matches, hm.1, hm.2])

theorem get_req_by_rsp_of_mem {requests : List pending_req} {addr rsp : Nat}
    (h : ∃ r ∈ requests, r.addr = addr ∧ r.cmd.rsp = rsp) :
    (get_req_by_rsp requests addr rsp).isSome = true := by
  cases hg : get_req_by_rsp requests addr rsp with
  | some r => rfl
  | none =>
    obtain ⟨r, hr, hm⟩ := h
    exact absurd hm (get_req_by_rsp_none hg r hr)

theorem one_request_push (requests : List pending_req) (cmd : cfg_cmd) (addr : Nat)
    (h : one_request_per_response requests)
    (hnone : get_req_by_rsp requests addr cmd.rsp = none) :
    one_request_per_response (l_queue_push_tail requests ⟨cmd, addr⟩) := by
  unfold one_request_per_response l_queue_push_tail
  rw [List.pairwise_append]
  refine ⟨h, by simp, ?_⟩
  intro a ha b hb
  simp only [List.mem_singleton] at hb
  subst hb
  exact get_req_by_rsp_none hnone a ha

theorem add_request_requests (st : cfgcli) (opcode : Nat) (cmd : cfg_cmd)
    (h : get_cmd opcode = some cmd) :
    add_request st opcode =
      ({ st with requests := l_queue_push_tail st.requests ⟨cmd, st.target⟩ },
        [effect.timeout_create st.rsp_timeout ⟨cmd, st.target⟩]) := by
  simp [add_request, h]

theorem config_send_state (send_msg : Nat → Nat → List Nat → Bool) (st : cfgcli)
    (buf : List Nat) (opcode : Nat) :
    (config_send send_msg st buf opcode).2.1 = st ∨
    ∃ cmd, get_cmd opcode = some cmd ∧ st.target ≠ UNASSIGNED_ADDRESS ∧
      get_req_by_rsp st.requests st.target cmd.rsp = none ∧ cmd.rsp ≠ NO_RESPONSE ∧
      (config_send send_msg st buf opcode).2.1 =
        { st with requests := l_queue_push_tail st.requests ⟨cmd, st.target⟩ } := by
  by_cases h1 : st.target = UNASSIGNED_ADDRESS
  · left
    simp only [config_send, if_pos h1]
  · cases hc : get_cmd opcode with
    | none =>
      left
      simp only [config_send, if_neg h1, hc]
    | some cmd =>
      cases hg : get_req_by_rsp st.requests st.target cmd.rsp with
      | some r =>
        left
        simp [config_send, h1, hc, hg]
      | none =>
        by_cases h3 : cmd.rsp = NO_RESPONSE
        · left
          rw [h3] at hg
          simp only [config_send, if_neg h1, hc, hg, Option.isSome_none, Bool.false_eq_true,
            if_false, ne_eq, h3, not_true_eq_false]
        · right
          refine ⟨cmd, rfl, h1, hg, h3, ?_⟩
          simp only [config_send, if_neg h1, hc, hg, Option.isSome_none, Bool.false_eq_true,
            if_false, ne_eq, h3, not_false_eq_true, if_true,
            add_request_requests st opcode cmd hc]

theorem config_send_keeps_invariant (send_msg : Nat → Nat → List Nat → Bool) (st : cfgcli)
    (buf : List Nat) (opcode : Nat) (h : one_request_per_response st.requests) :
    one_request_per_response (config_send send_msg st buf opcode).2.1.requests := by
  rcases config_send_state send_msg st buf opcode with he | ⟨cmd, _, _, hg, _, he⟩
  · rw [he]
    exact h
  · rw [he]
    exact one_request_push st.requests cmd st.target h hg

theorem cmd_key_add_state (send_key_msg : Option (Nat → Nat → Bool → Bool → Bool))
    (st : cfgcli) (opcode : Nat) (args : List (Option Nat)) :
    (cmd_key_add send_key_msg st opcode args).1.requests = st.requests ∨
    ∃ cmd, get_cmd opcode = some cmd ∧ st.target ≠ UNASSIGNED_ADDRESS ∧
      get_req_by_rsp st.requests st.target cmd.rsp = none ∧
      (cmd_key_add send_key_msg st opcode args).1.requests =
        l_queue_push_tail st.requests ⟨cmd, st.target⟩ := by
  by_cases h1 : st.target = UNASSIGNED_ADDRESS
  · left
    simp only [cmd_key_add, if_pos h1]
  · cases send_key_msg with
    | none =>
      left
      simp only [cmd_key_add, if_neg h1]
    | some send =>
      by_cases h2 : (read_input_parameters st.parms args).1 = 1
      · cases hc : get_cmd opcode with
        | none =>
          left
          simp [cmd_key_add, h1, h2, hc]
        | some cmd =>
          cases hg : get_req_by_rsp st.requests st.target cmd.rsp with
          | some r =>
            left
            simp [cmd_key_add, h1, h2, hc, hg]
          | none =>
            by_cases h4 : send st.target ((read_input_parameters st.parms args).2.getD 0 0
                % 65536) (opcode == OP_APPKEY_ADD || opcode == OP_APPKEY_UPDATE)
                (opcode == OP_NETKEY_UPDATE || opcode == OP_APPKEY_UPDATE) = false
            · left
              simp only [cmd_key_add, if_neg h1, h2, ne_eq, not_true_eq_false, if_false, hc,
                hg, Option.isSome_none, Bool.false_eq_true, h4, if_true]
            · right
              refine ⟨cmd, rfl, h1, hg, ?_⟩
              simp only [cmd_key_add, if_neg h1, h2, ne_eq, not_true_eq_false, if_false, hc,
                hg, Option.isSome_none, Bool.false_eq_true, h4, Bool.true_eq_false,
                add_request_requests _ opcode cmd hc]
      · left
        simp [cmd_key_add, h1, h2]

theorem cmd_key_add_keeps_invariant (send_key_msg : Option (Nat → Nat → Bool → Bool → Bool))
    (st : cfgcli) (opcode : Nat) (args : List (Option Nat))
    (h : one_request_per_response st.requests) :
    one_request_per_response (cmd_key_add send_key_msg st opcode args).1.requests := by
  rcases cmd_key_add_state send_key_msg st opcode args with he | ⟨cmd, _, _, hg, he⟩
  · rw [he]
    exact h
  · rw [he]
    exact one_request_push st.requests cmd st.target h hg

theorem resolve_request_requests (requests : List pending_req) (src rsp : Nat) :
    (resolve_request requests src rsp).2.1 = requests.eraseP (req_matches src rsp) := by
  unfold resolve_request
  cases hg : get_req_by_rsp requests src rsp with
  | some req => rfl
  | none =>
    simp only
    rw [List.eraseP_of_forall_not]
    intro a ha
    simp only [get_req_by_rsp, List.find?_eq_none] at hg
    exact hg a ha

theorem msg_recvd_state (mesh_opcode_get : List Nat → Option (Nat × Nat))
    (keys_get_bound_key : Nat → Nat) (st : cfgcli) (nodes : Registry) (src idx : Nat)
    (data : List Nat) (opcode n : Nat) (hparse : mesh_opcode_get data = some (opcode, n))
    (res : Bool × cfgcli × Registry × List effect)
    (hres : msg_recvd mesh_opcode_get keys_get_bound_key st nodes src idx data = some res) :
    res.2.1 = { st with requests :=
      st.requests.eraseP (req_matches src (clear_unreliable opcode)) } := by
  simp only [msg_recvd, hparse] at hres
  cases hd : recv_dispatch keys_get_bound_key nodes src
      (resolve_request st.requests src (clear_unreliable opcode)).1
      (clear_unreliable opcode) (data.drop n) with
  | none => simp [hd] at hres
  | some r =>
    simp only [hd, Option.some.injEq] at hres
    subst hres
    simp only [resolve_request_requests]

/-! ## C13 - C18: the request tracker -/

/-- C13: in every session state reachable from a state without pending
requests - by target changes, `config_send`, `cmd_key_add`, received
messages and timer expiries in any order - the queue `requests` holds at
most one request for each pair of destination address and expected-response
opcode. -/
theorem reachable_one_request_per_response (st : cfgcli) (h : ReachableSession st) :
    one_request_per_response st.requests := by
  induction h with
  | init st h0 =>
    rw [one_request_per_response, h0]
    exact List.Pairwise.nil
  | dst_set arg _ ih =>
    cases arg with
    | none => exact ih
    | some dst => exact ih
  | timeout_set args _ ih =>
    simp only [cmd_timeout_set]
    split_ifs
    · exact ih
    · exact ih
  | parms_set parms _ ih => exact ih
  | send send_msg buf opcode _ ih => exact config_send_keeps_invariant send_msg _ buf opcode ih
  | key_add send_key_msg opcode args _ ih =>
    exact cmd_key_add_keeps_invariant send_key_msg _ opcode args ih
  | @recvd st0 mesh_opcode_get keys_get_bound_key nodes src idx data res _ hres ih =>
    cases hp : mesh_opcode_get data with
    | none =>
      simp only [msg_recvd, hp, Option.some.injEq] at hres
      subst hres
      exact ih
    | some pr =>
      obtain ⟨opcode, n⟩ := pr
      rw [msg_recvd_state mesh_opcode_get keys_get_bound_key st0 nodes src idx data opcode n
        hp res hres]
      exact List.Pairwise.sublist (List.eraseP_sublist _) ih
  | timer i _ ih =>
    exact List.Pairwise.sublist (List.eraseIdx_sublist _ _) ih

/-- Witness of C13: the state reached from the empty tracker by setting the
target `0x0100` and sending a Device-Composition-Get holds one request. -/
theorem reachable_one_request_per_response_witness :
    ReachableSession ⟨[⟨⟨OP_DEV_COMP_GET, OP_DEV_COMP_STATUS, "DeviceCompositionGet"⟩,
        0x0100⟩], 2, 0x0100, List.replicate 8 0⟩ ∧
    one_request_per_response [⟨⟨OP_DEV_COMP_GET, OP_DEV_COMP_STATUS,
        "DeviceCompositionGet"⟩, 0x0100⟩] :=
  have hr : ReachableSession ⟨[⟨⟨OP_DEV_COMP_GET, OP_DEV_COMP_STATUS,
      "DeviceCompositionGet"⟩, 0x0100⟩], 2, 0x0100, List.replicate 8 0⟩ := by
    have h := ReachableSession.send (fun _ _ _ => true) [0x80, 0x08, 0] OP_DEV_COMP_GET
      (ReachableSession.dst_set (some 0x0100)
        (ReachableSession.init ⟨[], 2, 0, List.replicate 8 0⟩ rfl))
    have e : (config_send (fun _ _ _ => true)
        (cmd_dst_set ⟨[], 2, 0, List.replicate 8 0⟩ (some 0x0100)).1 [0x80, 0x08, 0]
        OP_DEV_COMP_GET).2.1 =
        ⟨[⟨⟨OP_DEV_COMP_GET, OP_DEV_COMP_STATUS, "DeviceCompositionGet"⟩, 0x0100⟩], 2,
          0x0100, List.replicate 8 0⟩ := by decide
    rw [e] at h
    exact h
  ⟨hr, reachable_one_request_per_response _ hr⟩

/-- C14: when `requests` already holds a request whose destination is the
current target and whose command expects the same response as the table
entry of `opcode`, `config_send` returns `false`, leaves the session state as
it is and does not call the transport; `cmd_key_add` (with the key callback
set, as `cfgcli_init` leaves it) quits with `EXIT_FAILURE`, leaves `requests`
as it is, calls neither the key callback nor `l_timeout_create`. -/
theorem pending_collision_rejected (send_msg : Nat → Nat → List Nat → Bool)
    (send_key_msg : Nat → Nat → Bool → Bool → Bool) (st : cfgcli) (buf : List Nat)
    (opcode : Nat) (args : List (Option Nat)) (cmd : cfg_cmd)
    (hcmd : get_cmd opcode = some cmd)
    (hpend : ∃ r ∈ st.requests, r.addr = st.target ∧ r.cmd.rsp = cmd.rsp) :
    (config_send send_msg st buf opcode).1 = false ∧
    (config_send send_msg st buf opcode).2.1 = st ∧
    ¬ calls_send_msg (config_send send_msg st buf opcode).2.2 ∧
    (cmd_key_add (some send_key_msg) st opcode args).1.requests = st.requests ∧
    effect.quit EXIT_FAILURE ∈ (cmd_key_add (some send_key_msg) st opcode args).2 ∧
    effect.quit EXIT_SUCCESS ∉ (cmd_key_add (some send_key_msg) st opcode args).2 ∧
    ¬ calls_send_key_msg (cmd_key_add (some send_key_msg) st opcode args).2 ∧
    (∀ s r, effect.timeout_create s r ∉ (cmd_key_add (some send_key_msg) st opcode args).2) := by
  have hsome := get_req_by_rsp_of_mem hpend
  have hcs : config_send send_msg st buf opcode =
      (false, st, [effect.printf "Destination not set\n" []]) ∨
      config_send send_msg st buf opcode =
      (false, st, [effect.printf "Another command is pending\n" []]) := by
    by_cases h1 : st.target = UNASSIGNED_ADDRESS
    · left
      simp only [config_send, if_pos h1]
    · right
      simp only [config_send, if_neg h1, hcmd, hsome, if_true]
  have hka : cmd_key_add (some send_key_msg) st opcode args =
      (st, [effect.printf "Destination not set\n" [], effect.quit EXIT_FAILURE]) ∨
      cmd_key_add (some send_key_msg) st opcode args =
      ({ st with parms := (read_input_parameters st.parms args).2 },
        [effect.printf "Bad arguments %s\n" [print_arg.argv 1], effect.quit EXIT_FAILURE]) ∨
      cmd_key_add (some send_key_msg) st opcode args =
      ({ st with parms := (read_input_parameters st.parms args).2 },
        [effect.printf "Another key command is pending\n" [],
          effect.quit EXIT_FAILURE]) := by
    by_cases h1 : st.target = UNASSIGNED_ADDRESS
    · left
      simp only [cmd_key_add, if_pos h1]
    · right
      by_cases h2 : (read_input_parameters st.parms args).1 = 1
      · right
        simp only [cmd_key_add, if_neg h1, h2, ne_eq, not_true_eq_false, if_false, hcmd,
          hsome, if_true]
      · left
        simp only [cmd_key_add, if_neg h1, ne_eq, h2, not_false_eq_true, if_true]
  refine ⟨?_, ?_, ?_, ?_, ?_, ?_, ?_, ?_⟩
  · rcases hcs with e | e <;> rw [e]
  · rcases hcs with e | e <;> rw [e]
  · rintro ⟨d, a, b, hm⟩
    rcases hcs with e | e <;> · rw [e] at hm; simp at hm
  · rcases hka with e | e | e <;> rw [e]
  · rcases hka with e | e | e <;> · rw [e]; simp
  · rcases hka with e | e | e <;> · rw [e]; simp [EXIT_SUCCESS, EXIT_FAILURE]
  · rintro ⟨d, k, a, u, hm⟩
    rcases hka with e | e | e <;> · rw [e] at hm; simp at hm
  · intro s r hm
    rcases hka with e | e | e <;> · rw [e] at hm; simp at hm

/-- Witness of C14: with a pending AppKeyAdd to the target `0x0100`, the
opcode `OP_APPKEY_DELETE` (which expects the same AppKeyStatus) is rejected
by `config_send`. -/
theorem pending_collision_rejected_witness :
    (config_send (fun _ _ _ => true)
      ⟨[⟨⟨OP_APPKEY_ADD, OP_APPKEY_STATUS, "AppKeyAdd"⟩, 0x0100⟩], 2, 0x0100,
        List.replicate 8 0⟩ [0x80, 0x00, 0x23, 0x61, 0x45] OP_APPKEY_DELETE).1 = false :=
  (pending_collision_rejected (fun _ _ _ => true) (fun _ _ _ _ => true)
    ⟨[⟨⟨OP_APPKEY_ADD, OP_APPKEY_STATUS, "AppKeyAdd"⟩, 0x0100⟩], 2, 0x0100,
      List.replicate 8 0⟩ [0x80, 0x00, 0x23, 0x61, 0x45] OP_APPKEY_DELETE [some 0x456]
    ⟨OP_APPKEY_DELETE, OP_APPKEY_STATUS, "AppKeyDelete"⟩ (by decide)
    ⟨⟨⟨OP_APPKEY_ADD, OP_APPKEY_STATUS, "AppKeyAdd"⟩, 0x0100⟩, by simp, rfl, rfl⟩).1

/-- C15: when `target` is the unassigned address, `config_send` returns
`false`, and `cmd_key_add` quits with `EXIT_FAILURE`; each only prints
"Destination not set": the session state, hence `requests`, is unchanged and
neither the transport nor the key callback is called. -/
theorem unassigned_target_rejected (send_msg : Nat → Nat → List Nat → Bool)
    (send_key_msg : Option (Nat → Nat → Bool → Bool → Bool)) (st : cfgcli) (buf : List Nat)
    (opcode : Nat) (args : List (Option Nat)) (h : st.target = UNASSIGNED_ADDRESS) :
    config_send send_msg st buf opcode =
      (false, st, [effect.printf "Destination not set\n" []]) ∧
    ¬ calls_send_msg (config_send send_msg st buf opcode).2.2 ∧
    cmd_key_add send_key_msg st opcode args =
      (st, [effect.printf "Destination not set\n" [], effect.quit EXIT_FAILURE]) ∧
    ¬ calls_send_key_msg (cmd_key_add send_key_msg st opcode args).2 := by
  have e1 : config_send send_msg st buf opcode =
      (false, st, [effect.printf "Destination not set\n" []]) := by
    simp only [config_send, if_pos h]
  have e2 : cmd_key_add send_key_msg st opcode args =
      (st, [effect.printf "Destination not set\n" [], effect.quit EXIT_FAILURE]) := by
    simp only [cmd_key_add, if_pos h]
  refine ⟨e1, ?_, e2, ?_⟩
  · rintro ⟨d, a, b, hm⟩
    rw [e1] at hm
    simp at hm
  · rintro ⟨d, k, a, u, hm⟩
    rw [e2] at hm
    simp at hm

/-- Witness of C15: in the initial session (no target set) a NetKeyAdd
command is refused. -/
theorem unassigned_target_rejected_witness :
    cmd_key_add (some (fun _ _ _ _ => true))
      ⟨[], DEFAULT_TIMEOUT, UNASSIGNED_ADDRESS, List.replicate 8 0⟩ OP_NETKEY_ADD [some 1] =
      (⟨[], DEFAULT_TIMEOUT, UNASSIGNED_ADDRESS, List.replicate 8 0⟩,
        [effect.printf "Destination not set\n" [], effect.quit EXIT_FAILURE]) :=
  (unassigned_target_rejected (fun _ _ _ => true) (some (fun _ _ _ _ => true))
    ⟨[], DEFAULT_TIMEOUT, UNASSIGNED_ADDRESS, List.replicate 8 0⟩ [] OP_NETKEY_ADD [some 1]
    rfl).2.2.1

/-- C16: with an assigned target `T`, a transport that reports success, a
Device-Composition-Get to `T` still pending and no request to `T` that waits
for an AppKeyStatus, `config_send` with `OP_APPKEY_DELETE` calls the
transport, returns `true` and appends the request (`T`, AppKeyStatus); the
queue then holds it next to the request (`T`, DeviceCompositionStatus). -/
theorem appkey_delete_while_composition_pending (send_msg : Nat → Nat → List Nat → Bool)
    (st : cfgcli) (buf : List Nat) (hT : st.target ≠ UNASSIGNED_ADDRESS)
    (hsend : ∀ dst app_idx b, send_msg dst app_idx b = true)
    (hdev : (⟨⟨OP_DEV_COMP_GET, OP_DEV_COMP_STATUS, "DeviceCompositionGet"⟩, st.target⟩ :
      pending_req) ∈ st.requests)
    (hno : get_req_by_rsp st.requests st.target OP_APPKEY_STATUS = none) :
    config_send send_msg st buf OP_APPKEY_DELETE =
      (true,
       { st with requests := st.requests ++
          [⟨⟨OP_APPKEY_DELETE, OP_APPKEY_STATUS, "AppKeyDelete"⟩, st.target⟩] },
       [effect.send_msg st.target APP_IDX_DEV_REMOTE buf,
        effect.timeout_create st.rsp_timeout
          ⟨⟨OP_APPKEY_DELETE, OP_APPKEY_STATUS, "AppKeyDelete"⟩, st.target⟩]) ∧
    (⟨⟨OP_DEV_COMP_GET, OP_DEV_COMP_STATUS, "DeviceCompositionGet"⟩, st.target⟩ :
      pending_req) ∈ (config_send send_msg st buf OP_APPKEY_DELETE).2.1.requests ∧
    (⟨⟨OP_APPKEY_DELETE, OP_APPKEY_STATUS, "AppKeyDelete"⟩, st.target⟩ :
      pending_req) ∈ (config_send send_msg st buf OP_APPKEY_DELETE).2.1.requests := by
  have hc : get_cmd OP_APPKEY_DELETE =
      some ⟨OP_APPKEY_DELETE, OP_APPKEY_STATUS, "AppKeyDelete"⟩ := by decide
  have hne : (⟨OP_APPKEY_DELETE, OP_APPKEY_STATUS, "AppKeyDelete"⟩ : cfg_cmd).rsp ≠
      NO_RESPONSE := by decide
  have e : config_send send_msg st buf OP_APPKEY_DELETE =
      (true,
       { st with requests := st.requests ++
          [⟨⟨OP_APPKEY_DELETE, OP_APPKEY_STATUS, "AppKeyDelete"⟩, st.target⟩] },
       [effect.send_msg st.target APP_IDX_DEV_REMOTE buf,
        effect.timeout_create st.rsp_timeout
          ⟨⟨OP_APPKEY_DELETE, OP_APPKEY_STATUS, "AppKeyDelete"⟩, st.target⟩]) := by
    simp only [config_send, if_neg hT, hc, hno, Option.isSome_none, Bool.false_eq_true,
      if_false, hsend, if_true, ne_eq, hne, not_false_eq_true,
      add_request_requests st OP_APPKEY_DELETE _ hc, l_queue_push_tail,
      List.singleton_append]
  refine ⟨e, ?_, ?_⟩
  · rw [e]
    exact List.mem_append_left _ hdev
  · rw [e]
    simp

/-- Witness of C16: from the empty tracker with target `0x0100`,
`cmd_composition_get` leaves the Device-Composition-Get pending, and the
following `config_send` of an AppKeyDelete message returns `true`. -/
theorem appkey_delete_while_composition_pending_witness :
    (cmd_composition_get (fun op => [op / 256, op % 256]) (fun _ _ _ => true)
      ⟨[], DEFAULT_TIMEOUT, 0x0100, List.replicate 8 0⟩ []).1 =
      ⟨[⟨⟨OP_DEV_COMP_GET, OP_DEV_COMP_STATUS, "DeviceCompositionGet"⟩, 0x0100⟩],
        DEFAULT_TIMEOUT, 0x0100, List.replicate 8 0⟩ ∧
    (config_send (fun _ _ _ => true)
      ⟨[⟨⟨OP_DEV_COMP_GET, OP_DEV_COMP_STATUS, "DeviceCompositionGet"⟩, 0x0100⟩],
        DEFAULT_TIMEOUT, 0x0100, List.replicate 8 0⟩
      [0x80, 0x00, 0x23, 0x61, 0x45] OP_APPKEY_DELETE).1 = true :=
  ⟨by decide,
   congrArg Prod.fst (appkey_delete_while_composition_pending (fun _ _ _ => true)
    ⟨[⟨⟨OP_DEV_COMP_GET, OP_DEV_COMP_STATUS, "DeviceCompositionGet"⟩, 0x0100⟩],
      DEFAULT_TIMEOUT, 0x0100, List.replicate 8 0⟩ [0x80, 0x00, 0x23, 0x61, 0x45]
    (by decide) (fun _ _ _ => rfl) (by simp) (by decide)).1⟩

/-- C17: the timer callback `wait_rsp_timeout` for the request `r` at
position `i` of the queue prints one line, "No response" with `r`'s command
label and destination, and removes `r`'s timer; the new queue is the old one
without the entry at position `i` (the entries before and behind it are
kept, in order); no timer is created, so no request is made anew. -/
theorem wait_rsp_timeout_removes_request (requests : List pending_req)
    (i : Fin requests.length) :
    (wait_rsp_timeout requests i).2 =
      [effect.printf "No response for \"%s\" from %4.4x\n"
        [print_arg.str (requests.get i).cmd.desc, print_arg.num (requests.get i).addr],
       effect.timeout_remove (requests.get i)] ∧
    (wait_rsp_timeout requests i).1 = requests.take i ++ requests.drop (i + 1) ∧
    (wait_rsp_timeout requests i).1.length + 1 = requests.length ∧
    (∀ s r, effect.timeout_create s r ∉ (wait_rsp_timeout requests i).2) := by
  refine ⟨rfl, ?_, ?_, ?_⟩
  · simp only [wait_rsp_timeout]
    exact List.eraseIdx_eq_take_drop_succ _ _
  · simp only [wait_rsp_timeout]
    rw [List.length_eraseIdx]
    have := i.isLt
    simp only [this, if_true]
    omega
  · intro s r hm
    simp [wait_rsp_timeout, free_request] at hm

/-- The lines of `msg_recvd` in front of the `switch`, for a message whose
opcode `mesh_opcode_get` parses: whenever `msg_recvd` has a defined result,
the session state is the old one with the first request that matches (source
address, opcode with the unreliable bit cleared) taken out of `requests`,
the entries in front of it and behind it being kept; when no request
matches, the state is unchanged and the payload is decoded all the same,
with `cmd == NULL`.  The result is undefined only where the decoding itself
is: in `print_composition`, or in `remote_del_net_key` for a resolved
NetKeyDelete. -/
theorem msg_recvd_resolves_request (mesh_opcode_get : List Nat → Option (Nat × Nat))
    (keys_get_bound_key : Nat → Nat) (st : cfgcli) (nodes : Registry) (src idx : Nat)
    (data : List Nat) (opcode n : Nat) (hparse : mesh_opcode_get data = some (opcode, n)) :
    (∀ res, msg_recvd mesh_opcode_get keys_get_bound_key st nodes src idx data = some res →
      res.2.1 = { st with requests :=
        st.requests.eraseP (req_matches src (clear_unreliable opcode)) }) ∧
    (∀ req, get_req_by_rsp st.requests src (clear_unreliable opcode) = some req →
      ∃ before after, st.requests = before ++ req :: after ∧
        (∀ r ∈ before, ¬ (r.addr = src ∧ r.cmd.rsp = clear_unreliable opcode)) ∧
        req.addr = src ∧ req.cmd.rsp = clear_unreliable opcode ∧
        st.requests.eraseP (req_matches src (clear_unreliable opcode)) = before ++ after) ∧
    (get_req_by_rsp st.requests src (clear_unreliable opcode) = none →
      st.requests.eraseP (req_matches src (clear_unreliable opcode)) = st.requests ∧
      msg_recvd mesh_opcode_get keys_get_bound_key st nodes src idx data =
        match recv_dispatch keys_get_bound_key nodes src none (clear_unreliable opcode)
            (data.drop n) with
        | none => none
        | some r =>
          some (r.1, st, r.2.1,
            effect.printf "Received %s\n" [print_arg.str (opcode_str opcode)] :: r.2.2)) ∧
    (msg_recvd mesh_opcode_get keys_get_bound_key st nodes src idx data = none →
      (clear_unreliable opcode = OP_DEV_COMP_STATUS ∧
        print_composition (data.drop n) = none) ∨
      (clear_unreliable opcode = OP_NETKEY_STATUS ∧
        ∃ req, get_req_by_rsp st.requests src (clear_unreliable opcode) = some req ∧
          req.cmd.opcode = OP_NETKEY_DELETE ∧
          remote_del_net_key keys_get_bound_key nodes src
            (status_net_idx (data.drop n)) = none)) := by
  refine ⟨?_, ?_, ?_, ?_⟩
  · intro res hres
    exact msg_recvd_state mesh_opcode_get keys_get_bound_key st nodes src idx data opcode n
      hparse res hres
  · intro req hreq
    simp only [get_req_by_rsp] at hreq
    have hp := List.find?_some hreq
    obtain ⟨_, pre, post, hsplit, hpre⟩ := List.find?_eq_some.1 hreq
    have hm : req.addr = src ∧ req.cmd.rsp = clear_unreliable opcode := by
      simpa [req_matches] using hp
    refine ⟨pre, post, hsplit, ?_, hm.1, hm.2, ?_⟩
    · intro r hr hrm
      have := hpre r hr
      simp [req_matches, hrm.1, hrm.2] at this
    · rw [hsplit, List.eraseP_append_right _ (fun b hb => by simpa using hpre b hb)]
      simp [List.eraseP_cons, hp]
  · intro hnone
    constructor
    · rw [List.eraseP_of_forall_not]
      intro a ha
      simp only [get_req_by_rsp, List.find?_eq_none] at hnone
      exact hnone a ha
    · simp only [msg_recvd, hparse, resolve_request, hnone]
      cases recv_dispatch keys_get_bound_key nodes src none (clear_unreliable opcode)
          (data.drop n) with
      | none => rfl
      | some r => cases st; simp
  · intro hnone
    simp only [msg_recvd, hparse] at hnone
    cases hd : recv_dispatch keys_get_bound_key nodes src
        (resolve_request st.requests src (clear_unreliable opcode)).1
        (clear_unreliable opcode) (data.drop n) with
    | some r => simp [hd] at hnone
    | none =>
      unfold recv_dispatch at hd
      split_ifs at hd with h1 h2 h3 h4
      · left
        refine ⟨h1, ?_⟩
        cases hpc : print_composition (data.drop n) with
        | none => rfl
        | some log => simp [hpc] at hd
      · right
        refine ⟨h4, ?_⟩
        unfold recv_netkey_status at hd
        split_ifs at hd with h5 h6
        cases hg : get_req_by_rsp st.requests src (clear_unreliable opcode) with
        | none => simp [resolve_request, hg] at hd
        | some req =>
          simp only [resolve_request, hg] at hd
          split_ifs at hd with h7 h8
          refine ⟨req, rfl, h8, ?_⟩
          cases hdel : remote_del_net_key keys_get_bound_key nodes src
              (status_net_idx (data.drop n)) with
          | none => rfl
          | some r => simp [hdel] at hd
      · cases hpo : recv_print_only src (clear_unreliable opcode) (data.drop n) with
        | none => simp [hpo] at hd
        | some log => simp [hpo] at hd

/-- An AppKeyStatus from `0x0100` resolves the pending AppKeyDelete to
`0x0100` and leaves the request to `0x0200` in the queue. -/
theorem msg_recvd_resolves_request_witness :
    (msg_recvd mesh_opcode_get (fun _ => 0x123)
      ⟨[⟨⟨OP_APPKEY_DELETE, OP_APPKEY_STATUS, "AppKeyDelete"⟩, 0x0200⟩,
        ⟨⟨OP_APPKEY_DELETE, OP_APPKEY_STATUS, "AppKeyDelete"⟩, 0x0100⟩], 2, 0x0100,
        List.replicate 8 0⟩ none 0x0100 0 [0x80, 0x03, 0x00, 0x23, 0x61, 0x45]).isSome
      = true ∧
    ∀ res, msg_recvd mesh_opcode_get (fun _ => 0x123)
      ⟨[⟨⟨OP_APPKEY_DELETE, OP_APPKEY_STATUS, "AppKeyDelete"⟩, 0x0200⟩,
        ⟨⟨OP_APPKEY_DELETE, OP_APPKEY_STATUS, "AppKeyDelete"⟩, 0x0100⟩], 2, 0x0100,
        List.replicate 8 0⟩ none 0x0100 0 [0x80, 0x03, 0x00, 0x23, 0x61, 0x45] = some res →
      res.2.1 = ⟨[⟨⟨OP_APPKEY_DELETE, OP_APPKEY_STATUS, "AppKeyDelete"⟩, 0x0200⟩], 2,
        0x0100, List.replicate 8 0⟩ :=
  ⟨by decide,
   (msg_recvd_resolves_request mesh_opcode_get (fun _ => 0x123)
    ⟨[⟨⟨OP_APPKEY_DELETE, OP_APPKEY_STATUS, "AppKeyDelete"⟩, 0x0200⟩,
      ⟨⟨OP_APPKEY_DELETE, OP_APPKEY_STATUS, "AppKeyDelete"⟩, 0x0100⟩], 2, 0x0100,
      List.replicate 8 0⟩ none 0x0100 0 [0x80, 0x03, 0x00, 0x23, 0x61, 0x45] 0x8003 2
    (by decide)).1⟩

/-- The expression `opcode & ~OP_UNRELIABLE`: the bit `0x0100` of the result
is clear, and for a 32-bit opcode every other bit is the one of `opcode`. -/
theorem clear_unreliable_bit (opcode : Nat) :
    clear_unreliable opcode &&& OP_UNRELIABLE = 0 ∧
    (opcode < 4294967296 →
      clear_unreliable opcode ||| (opcode &&& OP_UNRELIABLE) = opcode) := by
  constructor
  · unfold clear_unreliable
    rw [Nat.and_assoc]
    have h : (0xFFFFFFFF - OP_UNRELIABLE) &&& OP_UNRELIABLE = 0 := by decide
    rw [h]
    exact Nat.and_zero opcode
  · intro hlt
    unfold clear_unreliable
    rw [← Nat.and_or_distrib_left]
    have h : (0xFFFFFFFF - OP_UNRELIABLE) ||| OP_UNRELIABLE = 2 ^ 32 - 1 := by decide
    rw [h, Nat.and_pow_two_sub_one_eq_mod]
    exact Nat.mod_eq_of_lt hlt

/-- The opcode `0x8103` is AppKeyStatus with the unreliable bit set: the
message `81 03 00 23 61 45` from `0x0100` resolves the pending request that
expects `OP_APPKEY_STATUS`. -/
theorem msg_recvd_unreliable_opcode :
    clear_unreliable 0x8103 = OP_APPKEY_STATUS ∧
    mesh_opcode_get [0x81, 0x03, 0x00, 0x23, 0x61, 0x45] = some (0x8103, 2) ∧
    (msg_recvd mesh_opcode_get (fun _ => 0x123)
      ⟨[⟨⟨OP_APPKEY_DELETE, OP_APPKEY_STATUS, "AppKeyDelete"⟩, 0x0200⟩,
        ⟨⟨OP_APPKEY_DELETE, OP_APPKEY_STATUS, "AppKeyDelete"⟩, 0x0100⟩], 2, 0x0100,
        List.replicate 8 0⟩ none 0x0100 0 [0x81, 0x03, 0x00, 0x23, 0x61, 0x45]).map
        (fun r => (r.1, r.2.1)) =
      some (true,
        ⟨[⟨⟨OP_APPKEY_DELETE, OP_APPKEY_STATUS, "AppKeyDelete"⟩, 0x0200⟩], 2, 0x0100,
          List.replicate 8 0⟩) := by
  refine ⟨by decide, by decide, by decide⟩

/-- C18: `cmd_composition_get` to target `0x0100` leaves a
DeviceCompositionGet pending.  The Device-Composition-Status
`02 00 0f 00 34 12 01 00 20 00 01 00 00 01 00 00 02` from `0x0100` parses
(opcode `0x02`, 16-byte payload) and the pending request matches it, yet
`msg_recvd` has no defined result: after the request has been taken out of
the queue, `print_composition` is left with one byte behind the first
element, reads beyond the buffer and its length counter wraps round.  The
pending-request set after the call is not determined. -/
theorem msg_recvd_composition_reply_undefined :
    (cmd_composition_get mesh_opcode_set (fun _ _ _ => true)
      ⟨[], DEFAULT_TIMEOUT, 0x0100, List.replicate 8 0⟩ []).1 =
      ⟨[⟨⟨OP_DEV_COMP_GET, OP_DEV_COMP_STATUS, "DeviceCompositionGet"⟩, 0x0100⟩],
        DEFAULT_TIMEOUT, 0x0100, List.replicate 8 0⟩ ∧
    mesh_opcode_get
      [0x02, 0x00, 0x0f, 0x00, 0x34, 0x12, 0x01, 0x00, 0x20, 0x00, 0x01, 0x00,
       0x00, 0x01, 0x00, 0x00, 0x02] = some (OP_DEV_COMP_STATUS, 1) ∧
    get_req_by_rsp
      [⟨⟨OP_DEV_COMP_GET, OP_DEV_COMP_STATUS, "DeviceCompositionGet"⟩, 0x0100⟩]
      0x0100 (clear_unreliable OP_DEV_COMP_STATUS) =
      some ⟨⟨OP_DEV_COMP_GET, OP_DEV_COMP_STATUS, "DeviceCompositionGet"⟩, 0x0100⟩ ∧
    msg_recvd mesh_opcode_get (fun _ => 0)
      ⟨[⟨⟨OP_DEV_COMP_GET, OP_DEV_COMP_STATUS, "DeviceCompositionGet"⟩, 0x0100⟩],
        DEFAULT_TIMEOUT, 0x0100, List.replicate 8 0⟩
      none 0x0100 0
      [0x02, 0x00, 0x0f, 0x00, 0x34, 0x12, 0x01, 0x00, 0x20, 0x00, 0x01, 0x00,
       0x00, 0x01, 0x00, 0x00, 0x02] = none := by
  refine ⟨by decide, by decide, by decide, by decide⟩

/-! ## C19 - C20: the packed key indices -/

theorem and_0xf (x : Nat) : x &&& 0xf = x % 16 :=
  Nat.and_pow_two_sub_one_eq_mod x 4

theorem and_0xfff (x : Nat) : x &&& 0xfff = x % 4096 :=
  Nat.and_pow_two_sub_one_eq_mod x 12

theorem and_0xff (x : Nat) : x &&& 0xff = x % 256 :=
  Nat.and_pow_two_sub_one_eq_mod x 8

theorem shl4_and_0xf0 (x : Nat) : (x <<< 4) &&& 0xf0 = 16 * (x % 16) := by
  have h1 : (0xf0 : Nat) = 0xff &&& 0xf0 := by decide
  have h2 : ∀ c < 16, (16 * c) &&& 0xf0 = 16 * c := by decide
  rw [h1, ← Nat.and_assoc, and_0xff, Nat.shiftLeft_eq]
  have h3 : x * 2 ^ 4 % 256 = 16 * (x % 16) := by omega
  rw [h3]
  exact h2 (x % 16) (Nat.mod_lt _ (by decide))

theorem nibbles_or (a c : Nat) (ha : a < 16) (hc : c < 16) : a ||| 16 * c = a + 16 * c := by
  have h : ∀ x < 16, ∀ y < 16, x ||| 16 * y = x + 16 * y := by decide
  exact h a ha c hc

theorem appkey_del_octets_eq (net_idx app_idx : Nat) :
    appkey_del_octets net_idx app_idx =
      [net_idx % 256, (net_idx / 256) % 16 + 16 * (app_idx % 16), (app_idx / 16) % 256] := by
  have h8 : net_idx >>> 8 = net_idx / 256 := Nat.shiftRight_eq_div_pow net_idx 8
  have h4 : app_idx >>> 4 = app_idx / 16 := Nat.shiftRight_eq_div_pow app_idx 4
  simp only [appkey_del_octets, and_0xf, shl4_and_0xf0, h8, h4]
  rw [nibbles_or _ _ (Nat.mod_lt _ (by decide)) (Nat.mod_lt _ (by decide))]
  have : (net_idx / 256 % 16 + 16 * (app_idx % 16)) % 256 =
      net_idx / 256 % 16 + 16 * (app_idx % 16) := by omega
  rw [this]

/-- C19: when `cmd_appkey_del` gets past its checks (target assigned, one
argument read), with `app_idx = (uint16_t) parms[0]` and `net_idx =
keys_get_bound_key(app_idx)`, the message it hands to `config_send` is the
opcode bytes followed by the three bytes `net_idx mod 256`,
`((net_idx >> 8) mod 16) + 16 * (app_idx mod 16)` and `(app_idx >> 4) mod
256`; its length is the opcode length plus 3. -/
theorem cmd_appkey_del_message (mesh_opcode_set : Nat → List Nat)
    (keys_get_bound_key : Nat → Nat) (send_msg : Nat → Nat → List Nat → Bool) (st : cfgcli)
    (args : List (Option Nat)) (app_idx net_idx : Nat)
    (hT : st.target ≠ UNASSIGNED_ADDRESS)
    (hcnt : (read_input_parameters st.parms args).1 = 1)
    (happ : app_idx = (read_input_parameters st.parms args).2.getD 0 0 % 65536)
    (hnet : net_idx = keys_get_bound_key app_idx % 65536) :
    cmd_appkey_del mesh_opcode_set keys_get_bound_key send_msg st args =
      ((config_send send_msg { st with parms := (read_input_parameters st.parms args).2 }
          (mesh_opcode_set OP_APPKEY_DELETE ++
            [net_idx % 256, (net_idx >>> 8) % 16 + 16 * (app_idx % 16),
             (app_idx >>> 4) % 256]) OP_APPKEY_DELETE).2.1,
       (config_send send_msg { st with parms := (read_input_parameters st.parms args).2 }
          (mesh_opcode_set OP_APPKEY_DELETE ++
            [net_idx % 256, (net_idx >>> 8) % 16 + 16 * (app_idx % 16),
             (app_idx >>> 4) % 256]) OP_APPKEY_DELETE).2.2 ++
        quit_for (config_send send_msg
          { st with parms := (read_input_parameters st.parms args).2 }
          (mesh_opcode_set OP_APPKEY_DELETE ++
            [net_idx % 256, (net_idx >>> 8) % 16 + 16 * (app_idx % 16),
             (app_idx >>> 4) % 256]) OP_APPKEY_DELETE).1) ∧
    (mesh_opcode_set OP_APPKEY_DELETE ++
      [net_idx % 256, (net_idx >>> 8) % 16 + 16 * (app_idx % 16),
       (app_idx >>> 4) % 256]).length = (mesh_opcode_set OP_APPKEY_DELETE).length + 3 := by
  have h8 : net_idx >>> 8 = net_idx / 256 := Nat.shiftRight_eq_div_pow net_idx 8
  have h4 : app_idx >>> 4 = app_idx / 16 := Nat.shiftRight_eq_div_pow app_idx 4
  constructor
  · simp only [cmd_appkey_del, if_neg hT, hcnt, ne_eq, not_true_eq_false, if_false,
      ← happ, ← hnet, appkey_del_octets_eq, h8, h4]
  · simp

/-- Witness of C19: target `0x0100`, argument `456` (hex) bound to net key
`0x123`: the bytes after the opcode `80 00` are `23 61 45`. -/
theorem cmd_appkey_del_message_witness :
    (cmd_appkey_del mesh_opcode_set (fun _ => 0x123) (fun _ _ _ => true)
      ⟨[], DEFAULT_TIMEOUT, 0x0100, List.replicate 8 0⟩ [some 0x456]).2.head? =
      some (effect.send_msg 0x0100 APP_IDX_DEV_REMOTE [0x80, 0x00, 0x23, 0x61, 0x45]) ∧
    (mesh_opcode_set OP_APPKEY_DELETE ++
      [0x123 % 256, (0x123 >>> 8) % 16 + 16 * (0x456 % 16), (0x456 >>> 4) % 256]).length =
      (mesh_opcode_set OP_APPKEY_DELETE).length + 3 :=
  ⟨by decide,
   (cmd_appkey_del_message mesh_opcode_set (fun _ => 0x123) (fun _ _ _ => true)
    ⟨[], DEFAULT_TIMEOUT, 0x0100, List.replicate 8 0⟩ [some 0x456] 0x456 0x123
    (by decide) (by decide) (by decide) (by decide)).2⟩

/-- C20: for `net_idx < 0x1000` and `app_idx < 0x1000`, the three bytes
`cmd_appkey_del` packs, behind one status byte, form a 4-byte payload from
which the AppKey-Status case of `msg_recvd` reads back
`get_le16(data + 1) & 0xfff = net_idx` and `get_le16(data + 2) >> 4 =
app_idx`; these are the two indices the case prints. -/
theorem appkey_status_roundtrip (net_idx app_idx status src : Nat) (nodes : Registry)
    (hn : net_idx < 0x1000) (ha : app_idx < 0x1000) :
    (status :: appkey_del_octets net_idx app_idx).length = 4 ∧
    status_net_idx (status :: appkey_del_octets net_idx app_idx) = net_idx ∧
    status_app_idx (status :: appkey_del_octets net_idx app_idx) = app_idx ∧
    recv_appkey_status nodes src none (status :: appkey_del_octets net_idx app_idx) =
      (true, nodes,
        [effect.printf "Node %4.4x AppKey status %s\n"
           [print_arg.num src, print_arg.status_str status],
         effect.printf "NetKey\t%3.3x\n" [print_arg.num net_idx],
         effect.printf "AppKey\t%3.3x\n" [print_arg.num app_idx]]) := by
  have hnet : status_net_idx (status :: appkey_del_octets net_idx app_idx) = net_idx := by
    rw [appkey_del_octets_eq]
    simp only [status_net_idx, get_le16, and_0xfff, List.getD_eq_getElem?_getD,
      List.getElem?_cons_succ, List.getElem?_cons_zero, Option.getD_some]
    omega
  have happ : status_app_idx (status :: appkey_del_octets net_idx app_idx) = app_idx := by
    rw [appkey_del_octets_eq]
    simp only [status_app_idx, get_le16, Nat.shiftRight_eq_div_pow,
      List.getD_eq_getElem?_getD, List.getElem?_cons_succ, List.getElem?_cons_zero,
      Option.getD_some]
    omega
  have hlen : (status :: appkey_del_octets net_idx app_idx).length = 4 := by
    simp [appkey_del_octets]
  refine ⟨hlen, hnet, happ, ?_⟩
  simp only [recv_appkey_status, hlen, ne_eq, not_true_eq_false, if_false, hnet, happ]
  split_ifs <;> simp

/-- Witness of C20: net key `0x123` and app key `0x456` pack to `23 61 45`
and are read back from the payload `00 23 61 45`. -/
theorem appkey_status_roundtrip_witness :
    appkey_del_octets 0x123 0x456 = [0x23, 0x61, 0x45] ∧
    status_net_idx (0 :: appkey_del_octets 0x123 0x456) = 0x123 ∧
    status_app_idx (0 :: appkey_del_octets 0x123 0x456) = 0x456 :=
  ⟨by decide,
   (appkey_status_roundtrip 0x123 0x456 0 0x0100 none (by decide) (by decide)).2.1,
   (appkey_status_roundtrip 0x123 0x456 0 0x0100 none (by decide) (by decide)).2.2.1⟩

/-! ## C21 - C22: key status messages and the registry -/

/-- The notifications of a concatenated log. -/
theorem mesh_db_calls_append (a b : List effect) :
    mesh_db_calls (a ++ b) = mesh_db_calls a ++ mesh_db_calls b := by
  simp [mesh_db_calls]

theorem mesh_db_calls_resolve (requests : List pending_req) (src rsp : Nat) :
    mesh_db_calls (resolve_request requests src rsp).2.2 = [] := by
  unfold resolve_request
  cases get_req_by_rsp requests src rsp <;> simp [mesh_db_calls, free_request, is_mesh_db]

/-- The result of `msg_recvd` when the opcode parses and the `switch` has
the defined result `r`. -/
theorem msg_recvd_of_dispatch (mesh_opcode_get : List Nat → Option (Nat × Nat))
    (keys_get_bound_key : Nat → Nat) (st : cfgcli) (nodes : Registry) (src idx : Nat)
    (data : List Nat) (opcode n : Nat) (hparse : mesh_opcode_get data = some (opcode, n))
    (r : Bool × Registry × List effect)
    (hd : recv_dispatch keys_get_bound_key nodes src
      (resolve_request st.requests src (clear_unreliable opcode)).1
      (clear_unreliable opcode) (data.drop n) = some r) :
    msg_recvd mesh_opcode_get keys_get_bound_key st nodes src idx data =
      some (r.1,
        { st with requests :=
          st.requests.eraseP (req_matches src (clear_unreliable opcode)) },
        r.2.1,
        effect.printf "Received %s\n" [print_arg.str (opcode_str opcode)] ::
          ((resolve_request st.requests src (clear_unreliable opcode)).2.2 ++ r.2.2)) := by
  simp only [msg_recvd, hparse, hd, resolve_request_requests]
  rfl

/-- The result `msg_recvd` is undefined when the `switch` is. -/
theorem msg_recvd_of_dispatch_none (mesh_opcode_get : List Nat → Option (Nat × Nat))
    (keys_get_bound_key : Nat → Nat) (st : cfgcli) (nodes : Registry) (src idx : Nat)
    (data : List Nat) (opcode n : Nat) (hparse : mesh_opcode_get data = some (opcode, n))
    (hd : recv_dispatch keys_get_bound_key nodes src
      (resolve_request st.requests src (clear_unreliable opcode)).1
      (clear_unreliable opcode) (data.drop n) = none) :
    msg_recvd mesh_opcode_get keys_get_bound_key st nodes src idx data = none := by
  simp only [msg_recvd, hparse, hd]

theorem recv_dispatch_appkey (keys_get_bound_key : Nat → Nat) (nodes : Registry) (src : Nat)
    (cmd : Option cfg_cmd) (data : List Nat) :
    recv_dispatch keys_get_bound_key nodes src cmd OP_APPKEY_STATUS data =
      some (recv_appkey_status nodes src cmd data) := by
  unfold recv_dispatch
  rw [if_neg (by decide), if_pos rfl]

theorem recv_dispatch_netkey (keys_get_bound_key : Nat → Nat) (nodes : Registry) (src : Nat)
    (cmd : Option cfg_cmd) (data : List Nat) :
    recv_dispatch keys_get_bound_key nodes src cmd OP_NETKEY_STATUS data =
      recv_netkey_status keys_get_bound_key nodes src cmd data := by
  unfold recv_dispatch
  rw [if_neg (by decide), if_neg (by decide), if_pos rfl]

theorem resolve_request_cmd {requests : List pending_req} {src rsp : Nat} {req : pending_req}
    (h : get_req_by_rsp requests src rsp = some req) :
    (resolve_request requests src rsp).1 = some req.cmd := by
  simp only [resolve_request, h]

theorem resolve_request_cmd_none {requests : List pending_req} {src rsp : Nat}
    (h : get_req_by_rsp requests src rsp = none) :
    (resolve_request requests src rsp).1 = none := by
  simp only [resolve_request, h]

/-- The notifications of a log made of the `Received` line, the resolution
of the request, shell lines and a tail of notifications. -/
theorem mesh_db_calls_received (opcode : Nat) (requests : List pending_req) (src rsp : Nat)
    (plog tail : List effect) (hp : mesh_db_calls plog = [])
    (ht : mesh_db_calls tail = tail) :
    mesh_db_calls (effect.printf "Received %s\n" [print_arg.str (opcode_str opcode)] ::
      ((resolve_request requests src rsp).2.2 ++ (plog ++ tail))) = tail := by
  have h : mesh_db_calls (effect.printf "Received %s\n" [print_arg.str (opcode_str opcode)] ::
      ((resolve_request requests src rsp).2.2 ++ (plog ++ tail))) =
      mesh_db_calls ((resolve_request requests src rsp).2.2 ++ (plog ++ tail)) := rfl
  rw [h, mesh_db_calls_append, mesh_db_calls_append, mesh_db_calls_resolve, hp, ht]
  rfl

/-- The two key-status cases of `msg_recvd` for a message from `src` whose
expected request is pending (`get_req_by_rsp` finds `req`), with status byte
`MESH_STATUS_SUCCESS`.  For a 4-byte AppKey-Status payload `msg_recvd`
returns `true` and the registry becomes that of
`remote_add_app_key(src, app_idx)` when `req` is an AppKeyAdd, that of
`remote_del_app_key(src, app_idx)` when it is an AppKeyDelete, and stays as
it was for any other command; for a 3-byte NetKey-Status payload the same
holds with `remote_add_net_key` and `remote_del_net_key` (for the delete:
whenever that call has a defined result, and `msg_recvd` is undefined when
it has none).  In each case the `mesh_db` notifications of the log are
exactly: the matching `mesh_db_node_*_key_add` / `_del` when the registry
call returned `true` and none when it returned `false` (after the
notifications of the app keys that `remote_del_net_key` itself removed),
and none at all for another command. -/
theorem key_status_updates_registry (mesh_opcode_get : List Nat → Option (Nat × Nat))
    (keys_get_bound_key : Nat → Nat) (st : cfgcli) (nodes : Registry) (src idx : Nat)
    (data : List Nat) (opcode n : Nat) (req : pending_req)
    (hparse : mesh_opcode_get data = some (opcode, n))
    (hreq : get_req_by_rsp st.requests src (clear_unreliable opcode) = some req)
    (hok : (data.drop n).getD 0 0 = MESH_STATUS_SUCCESS) :
    (clear_unreliable opcode = OP_APPKEY_STATUS → (data.drop n).length = 4 →
      (req.cmd.opcode = OP_APPKEY_ADD →
        ∃ log, msg_recvd mesh_opcode_get keys_get_bound_key st nodes src idx data =
            some (true,
              { st with requests :=
                st.requests.eraseP (req_matches src (clear_unreliable opcode)) },
              (remote_add_app_key nodes src (status_app_idx (data.drop n))).2, log) ∧
          mesh_db_calls log =
            if (remote_add_app_key nodes src (status_app_idx (data.drop n))).1 then
              [effect.mesh_db_node_app_key_add src (status_app_idx (data.drop n))]
            else []) ∧
      (req.cmd.opcode = OP_APPKEY_DELETE →
        ∃ log, msg_recvd mesh_opcode_get keys_get_bound_key st nodes src idx data =
            some (true,
              { st with requests :=
                st.requests.eraseP (req_matches src (clear_unreliable opcode)) },
              (remote_del_app_key nodes src (status_app_idx (data.drop n))).2, log) ∧
          mesh_db_calls log =
            if (remote_del_app_key nodes src (status_app_idx (data.drop n))).1 then
              [effect.mesh_db_node_app_key_del src (status_app_idx (data.drop n))]
            else []) ∧
      (req.cmd.opcode ≠ OP_APPKEY_ADD → req.cmd.opcode ≠ OP_APPKEY_DELETE →
        ∃ log, msg_recvd mesh_opcode_get keys_get_bound_key st nodes src idx data =
            some (true,
              { st with requests :=
                st.requests.eraseP (req_matches src (clear_unreliable opcode)) },
              nodes, log) ∧
          mesh_db_calls log = [])) ∧
    (clear_unreliable opcode = OP_NETKEY_STATUS → (data.drop n).length = 3 →
      (req.cmd.opcode = OP_NETKEY_ADD →
        ∃ log, msg_recvd mesh_opcode_get keys_get_bound_key st nodes src idx data =
            some (true,
              { st with requests :=
                st.requests.eraseP (req_matches src (clear_unreliable opcode)) },
              (remote_add_net_key nodes src (status_net_idx (data.drop n))).2, log) ∧
          mesh_db_calls log =
            if (remote_add_net_key nodes src (status_net_idx (data.drop n))).1 then
              [effect.mesh_db_node_net_key_add src (status_net_idx (data.drop n))]
            else []) ∧
      (req.cmd.opcode = OP_NETKEY_DELETE →
        (∀ r, remote_del_net_key keys_get_bound_key nodes src
              (status_net_idx (data.drop n)) = some r →
          ∃ log, msg_recvd mesh_opcode_get keys_get_bound_key st nodes src idx data =
              some (true,
                { st with requests :=
                  st.requests.eraseP (req_matches src (clear_unreliable opcode)) },
                r.2.1, log) ∧
            mesh_db_calls log =
              r.2.2.map (fun c => effect.mesh_db_node_app_key_del c.1 c.2) ++
                (if r.1 then
                  [effect.mesh_db_node_net_key_del src (status_net_idx (data.drop n))]
                 else [])) ∧
        (remote_del_net_key keys_get_bound_key nodes src
              (status_net_idx (data.drop n)) = none →
          msg_recvd mesh_opcode_get keys_get_bound_key st nodes src idx data = none)) ∧
      (req.cmd.opcode ≠ OP_NETKEY_ADD → req.cmd.opcode ≠ OP_NETKEY_DELETE →
        ∃ log, msg_recvd mesh_opcode_get keys_get_bound_key st nodes src idx data =
            some (true,
              { st with requests :=
                st.requests.eraseP (req_matches src (clear_unreliable opcode)) },
              nodes, log) ∧
          mesh_db_calls log = [])) := by
  have hcmd := resolve_request_cmd hreq
  constructor
  · intro hop hlen
    have hd : msg_recvd mesh_opcode_get keys_get_bound_key st nodes src idx data =
          some ((recv_appkey_status nodes src (some req.cmd) (data.drop n)).1,
            { st with requests :=
              st.requests.eraseP (req_matches src (clear_unreliable opcode)) },
            (recv_appkey_status nodes src (some req.cmd) (data.drop n)).2.1,
            effect.printf "Received %s\n" [print_arg.str (opcode_str opcode)] ::
              ((resolve_request st.requests src (clear_unreliable opcode)).2.2 ++
                (recv_appkey_status nodes src (some req.cmd) (data.drop n)).2.2)) := by
      apply msg_recvd_of_dispatch _ _ _ _ _ _ _ _ _ hparse
      rw [hcmd, hop, recv_dispatch_appkey]
    refine ⟨?_, ?_, ?_⟩
    · intro hadd
      have hr : recv_appkey_status nodes src (some req.cmd) (data.drop n) =
          (true, (remote_add_app_key nodes src (status_app_idx (data.drop n))).2,
            [effect.printf "Node %4.4x AppKey status %s\n"
               [print_arg.num src, print_arg.status_str ((data.drop n).getD 0 0)],
             effect.printf "NetKey\t%3.3x\n" [print_arg.num (status_net_idx (data.drop n))],
             effect.printf "AppKey\t%3.3x\n" [print_arg.num (status_app_idx (data.drop n))]] ++
            (if (remote_add_app_key nodes src (status_app_idx (data.drop n))).1 then
              [effect.mesh_db_node_app_key_add src (status_app_idx (data.drop n))]
             else [])) := by
        simp only [recv_appkey_status, hlen, hok, hadd, ne_eq, not_true_eq_false, if_false,
          if_true]
      rw [hr] at hd
      refine ⟨_, hd, ?_⟩
      apply mesh_db_calls_received
      · rfl
      · split_ifs <;> rfl
    · intro hdel
      have hne : OP_APPKEY_DELETE ≠ OP_APPKEY_ADD := by decide
      have hr : recv_appkey_status nodes src (some req.cmd) (data.drop n) =
          (true, (remote_del_app_key nodes src (status_app_idx (data.drop n))).2,
            [effect.printf "Node %4.4x AppKey status %s\n"
               [print_arg.num src, print_arg.status_str ((data.drop n).getD 0 0)],
             effect.printf "NetKey\t%3.3x\n" [print_arg.num (status_net_idx (data.drop n))],
             effect.printf "AppKey\t%3.3x\n" [print_arg.num (status_app_idx (data.drop n))]] ++
            (if (remote_del_app_key nodes src (status_app_idx (data.drop n))).1 then
              [effect.mesh_db_node_app_key_del src (status_app_idx (data.drop n))]
             else [])) := by
        simp only [recv_appkey_status, hlen, hok, ne_eq, not_true_eq_false, if_false,
          if_neg hne, hdel, if_true]
      rw [hr] at hd
      refine ⟨_, hd, ?_⟩
      apply mesh_db_calls_received
      · rfl
      · split_ifs <;> rfl
    · intro hna hnd
      have hr : recv_appkey_status nodes src (some req.cmd) (data.drop n) =
          (true, nodes,
            [effect.printf "Node %4.4x AppKey status %s\n"
               [print_arg.num src, print_arg.status_str ((data.drop n).getD 0 0)],
             effect.printf "NetKey\t%3.3x\n" [print_arg.num (status_net_idx (data.drop n))],
             effect.printf "AppKey\t%3.3x\n" [print_arg.num (status_app_idx (data.drop n))]] ++
            []) := by
        simp only [recv_appkey_status, hlen, hok, ne_eq, not_true_eq_false, if_false,
          if_neg hna, if_neg hnd, List.append_nil]
      rw [hr] at hd
      refine ⟨_, hd, ?_⟩
      apply mesh_db_calls_received
      · rfl
      · rfl
  · intro hop hlen
    have hd : ∀ r, recv_netkey_status keys_get_bound_key nodes src (some req.cmd)
          (data.drop n) = some r →
        msg_recvd mesh_opcode_get keys_get_bound_key st nodes src idx data =
          some (r.1,
            { st with requests :=
              st.requests.eraseP (req_matches src (clear_unreliable opcode)) },
            r.2.1,
            effect.printf "Received %s\n" [print_arg.str (opcode_str opcode)] ::
              ((resolve_request st.requests src (clear_unreliable opcode)).2.2 ++ r.2.2)) := by
      intro r hr
      apply msg_recvd_of_dispatch _ _ _ _ _ _ _ _ _ hparse
      rw [hcmd, hop, recv_dispatch_netkey, hr]
    refine ⟨?_, ?_, ?_⟩
    · intro hadd
      have hr : recv_netkey_status keys_get_bound_key nodes src (some req.cmd)
          (data.drop n) =
          some (true, (remote_add_net_key nodes src (status_net_idx (data.drop n))).2,
            [effect.printf "Node %4.4x NetKey status %s\n"
               [print_arg.num src, print_arg.status_str ((data.drop n).getD 0 0)],
             effect.printf "\tNetKey %3.3x\n"
               [print_arg.num (status_net_idx (data.drop n))]] ++
            (if (remote_add_net_key nodes src (status_net_idx (data.drop n))).1 then
              [effect.mesh_db_node_net_key_add src (status_net_idx (data.drop n))]
             else [])) := by
        simp only [recv_netkey_status, hlen, hok, hadd, ne_eq, not_true_eq_false, if_false,
          if_true]
      refine ⟨_, hd _ hr, ?_⟩
      apply mesh_db_calls_received
      · rfl
      · split_ifs <;> rfl
    · intro hdel
      have hne : OP_NETKEY_DELETE ≠ OP_NETKEY_ADD := by decide
      constructor
      · intro r hrd
        have hr : recv_netkey_status keys_get_bound_key nodes src (some req.cmd)
            (data.drop n) =
            some (true, r.2.1,
              [effect.printf "Node %4.4x NetKey status %s\n"
                 [print_arg.num src, print_arg.status_str ((data.drop n).getD 0 0)],
               effect.printf "\tNetKey %3.3x\n"
                 [print_arg.num (status_net_idx (data.drop n))]] ++
              (r.2.2.map (fun c => effect.mesh_db_node_app_key_del c.1 c.2) ++
                (if r.1 then
                  [effect.mesh_db_node_net_key_del src (status_net_idx (data.drop n))]
                 else []))) := by
          simp only [recv_netkey_status, hlen, hok, ne_eq, not_true_eq_false, if_false,
            if_neg hne, hdel, if_true, hrd, List.append_assoc]
        refine ⟨_, hd _ hr, ?_⟩
        apply mesh_db_calls_received
        · rfl
        · rw [mesh_db_calls_append]
          have h1 : mesh_db_calls
              (r.2.2.map (fun c => effect.mesh_db_node_app_key_del c.1 c.2)) =
              r.2.2.map (fun c => effect.mesh_db_node_app_key_del c.1 c.2) := by
            simp only [mesh_db_calls, List.filter_eq_self, List.mem_map]
            rintro a ⟨c, _, rfl⟩
            rfl
          rw [h1]
          congr 1
          split_ifs <;> rfl
      · intro hrd
        apply msg_recvd_of_dispatch_none _ _ _ _ _ _ _ _ _ hparse
        rw [hcmd, hop, recv_dispatch_netkey]
        simp only [recv_netkey_status, hlen, hok, ne_eq, not_true_eq_false, if_false,
          if_neg hne, hdel, if_true, hrd]
    · intro hna hnd
      have hr : recv_netkey_status keys_get_bound_key nodes src (some req.cmd)
          (data.drop n) =
          some (true, nodes,
            [effect.printf "Node %4.4x NetKey status %s\n"
               [print_arg.num src, print_arg.status_str ((data.drop n).getD 0 0)],
             effect.printf "\tNetKey %3.3x\n"
               [print_arg.num (status_net_idx (data.drop n))]] ++ []) := by
        simp only [recv_netkey_status, hlen, hok, ne_eq, not_true_eq_false, if_false,
          if_neg hna, if_neg hnd, List.append_nil]
      refine ⟨_, hd _ hr, ?_⟩
      apply mesh_db_calls_received
      · rfl
      · rfl


/-- An AppKeyAdd to `0x0100` is pending and node `0x0100` has
no app key; the AppKey-Status `80 03 00 23 61 45` from `0x0100` adds app key
`0x456` to the node and the log holds the one notification
`mesh_db_node_app_key_add(0x0100, 0x456)`. -/
theorem key_status_updates_registry_witness :
    ∃ log, msg_recvd mesh_opcode_get (fun _ => 0)
        ⟨[⟨⟨OP_APPKEY_ADD, OP_APPKEY_STATUS, "AppKeyAdd"⟩, 0x0100⟩], 2, 0x0100,
          List.replicate 8 0⟩
        (some [⟨0x0100, [0], none, [], 1⟩]) 0x0100 0 [0x80, 0x03, 0x00, 0x23, 0x61, 0x45] =
      some (true, ⟨[], 2, 0x0100, List.replicate 8 0⟩,
        some [⟨0x0100, [0], some [0x456], [], 1⟩], log) ∧
      mesh_db_calls log = [effect.mesh_db_node_app_key_add 0x0100 0x456] :=
  ((key_status_updates_registry mesh_opcode_get (fun _ => 0)
    ⟨[⟨⟨OP_APPKEY_ADD, OP_APPKEY_STATUS, "AppKeyAdd"⟩, 0x0100⟩], 2, 0x0100,
      List.replicate 8 0⟩
    (some [⟨0x0100, [0], none, [], 1⟩]) 0x0100 0 [0x80, 0x03, 0x00, 0x23, 0x61, 0x45]
    0x8003 2 ⟨⟨OP_APPKEY_ADD, OP_APPKEY_STATUS, "AppKeyAdd"⟩, 0x0100⟩
    (by decide) (by decide) (by decide)).1 (by decide) (by decide)).1 (by decide)

/-- The key-status cases evaluated: a resolved AppKeyDelete takes app key
`0x456` out of the node's set and notifies, and notifies nothing when the
key is not there; a resolved AppKeyUpdate leaves the registry alone; a
resolved NetKeyAdd appends net key `1` and notifies. -/
theorem key_status_examples :
    (msg_recvd mesh_opcode_get (fun _ => 0)
      ⟨[⟨⟨OP_APPKEY_DELETE, OP_APPKEY_STATUS, "AppKeyDelete"⟩, 0x0100⟩], 2, 0x0100,
        List.replicate 8 0⟩
      (some [⟨0x0100, [0], some [0x456, 0x789], [], 1⟩]) 0x0100 0
      [0x80, 0x03, 0x00, 0x23, 0x61, 0x45]).map
        (fun r => (r.1, r.2.2.1, mesh_db_calls r.2.2.2)) =
      some (true, some [⟨0x0100, [0], some [0x789], [], 1⟩],
        [effect.mesh_db_node_app_key_del 0x0100 0x456]) ∧
    (msg_recvd mesh_opcode_get (fun _ => 0)
      ⟨[⟨⟨OP_APPKEY_DELETE, OP_APPKEY_STATUS, "AppKeyDelete"⟩, 0x0100⟩], 2, 0x0100,
        List.replicate 8 0⟩
      (some [⟨0x0100, [0], some [0x789], [], 1⟩]) 0x0100 0
      [0x80, 0x03, 0x00, 0x23, 0x61, 0x45]).map
        (fun r => (r.1, r.2.2.1, mesh_db_calls r.2.2.2)) =
      some (true, some [⟨0x0100, [0], some [0x789], [], 1⟩], []) ∧
    (msg_recvd mesh_opcode_get (fun _ => 0)
      ⟨[⟨⟨OP_APPKEY_UPDATE, OP_APPKEY_STATUS, "AppKeyUpdate"⟩, 0x0100⟩], 2, 0x0100,
        List.replicate 8 0⟩
      (some [⟨0x0100, [0], some [0x456, 0x789], [], 1⟩]) 0x0100 0
      [0x80, 0x03, 0x00, 0x23, 0x61, 0x45]).map
        (fun r => (r.1, r.2.2.1, mesh_db_calls r.2.2.2)) =
      some (true, some [⟨0x0100, [0], some [0x456, 0x789], [], 1⟩], []) ∧
    (msg_recvd mesh_opcode_get (fun _ => 0)
      ⟨[⟨⟨OP_NETKEY_ADD, OP_NETKEY_STATUS, "NetKeyAdd"⟩, 0x0100⟩], 2, 0x0100,
        List.replicate 8 0⟩
      (some [⟨0x0100, [0], some [5], [], 1⟩]) 0x0100 0
      [0x80, 0x44, 0x00, 0x01, 0x00]).map
        (fun r => (r.1, r.2.2.1, mesh_db_calls r.2.2.2)) =
      some (true, some [⟨0x0100, [0, 1], some [5], [], 1⟩],
        [effect.mesh_db_node_net_key_add 0x0100 1]) := by
  refine ⟨by decide, by decide, by decide, by decide⟩

/-- C21: node `0x0100` holds the net keys `0`, `1` and app key `5`, and a
NetKeyDelete to `0x0100` is pending.  The NetKey-Status `80 44 00 01 00`
from `0x0100` (3-byte payload, success, net key `1`) resolves that request
and calls `remote_del_net_key(0x0100, 1)`.  When app key `5` is bound to net
key `1` the cascade of that call removes the queue entry it stands on and
then reads its `next` pointer: `msg_recvd` has no defined result, so neither
the registry after the call nor the notification is determined.  When app
key `5` is bound to net key `0` instead, the same message removes net key
`1` and logs `mesh_db_node_net_key_del(0x0100, 1)`. -/
theorem netkey_delete_status_cascade_undefined :
    Reachable (some [⟨0x0100, [0, 1], some [5], List.replicate 16 1, 1⟩]) ∧
    (config_send (fun _ _ _ => true) ⟨[], DEFAULT_TIMEOUT, 0x0100, List.replicate 8 0⟩
      [0x80, 0x41, 0x01, 0x00] OP_NETKEY_DELETE).2.1 =
      ⟨[⟨⟨OP_NETKEY_DELETE, OP_NETKEY_STATUS, "NetKeyDelete"⟩, 0x0100⟩], DEFAULT_TIMEOUT,
        0x0100, List.replicate 8 0⟩ ∧
    mesh_opcode_get [0x80, 0x44, 0x00, 0x01, 0x00] = some (OP_NETKEY_STATUS, 2) ∧
    get_req_by_rsp [⟨⟨OP_NETKEY_DELETE, OP_NETKEY_STATUS, "NetKeyDelete"⟩, 0x0100⟩]
      0x0100 (clear_unreliable OP_NETKEY_STATUS) =
      some ⟨⟨OP_NETKEY_DELETE, OP_NETKEY_STATUS, "NetKeyDelete"⟩, 0x0100⟩ ∧
    msg_recvd mesh_opcode_get (fun _ => 1)
      ⟨[⟨⟨OP_NETKEY_DELETE, OP_NETKEY_STATUS, "NetKeyDelete"⟩, 0x0100⟩], DEFAULT_TIMEOUT,
        0x0100, List.replicate 8 0⟩
      (some [⟨0x0100, [0, 1], some [5], List.replicate 16 1, 1⟩]) 0x0100 0
      [0x80, 0x44, 0x00, 0x01, 0x00] = none ∧
    (msg_recvd mesh_opcode_get (fun _ => 0)
      ⟨[⟨⟨OP_NETKEY_DELETE, OP_NETKEY_STATUS, "NetKeyDelete"⟩, 0x0100⟩], DEFAULT_TIMEOUT,
        0x0100, List.replicate 8 0⟩
      (some [⟨0x0100, [0, 1], some [5], List.replicate 16 1, 1⟩]) 0x0100 0
      [0x80, 0x44, 0x00, 0x01, 0x00]).map
        (fun r => (r.1, r.2.1.requests, r.2.2.1, mesh_db_calls r.2.2.2)) =
      some (true, [], some [⟨0x0100, [0], some [5], List.replicate 16 1, 1⟩],
        [effect.mesh_db_node_net_key_del 0x0100 1]) := by
  refine ⟨?_, by decide, by decide, by decide, by decide, by decide⟩
  have h := Reachable.add_app_key 0x0100 5 (Reachable.add_net_key 0x0100 1
    (Reachable.add_node (List.replicate 16 1) 0x0100 1 0 Reachable.init))
  have e : (remote_add_app_key (remote_add_net_key
      (remote_add_node none (List.replicate 16 1) 0x0100 1 0).2 0x0100 1).2 0x0100 5).2 =
      some [⟨0x0100, [0, 1], some [5], List.replicate 16 1, 1⟩] := by decide
  rw [e] at h
  exact h

theorem mesh_db_calls_received_nil (opcode : Nat) (requests : List pending_req)
    (src rsp : Nat) (plog : List effect) (hp : mesh_db_calls plog = []) :
    mesh_db_calls (effect.printf "Received %s\n" [print_arg.str (opcode_str opcode)] ::
      ((resolve_request requests src rsp).2.2 ++ plog)) = [] := by
  have h := mesh_db_calls_received opcode requests src rsp plog [] hp rfl
  rwa [List.append_nil] at h

theorem recv_appkey_status_inert (nodes : Registry) (src : Nat) (cmd : Option cfg_cmd)
    (data : List Nat) (h : cmd = none ∨ data.getD 0 0 ≠ MESH_STATUS_SUCCESS) :
    ∃ plog, recv_appkey_status nodes src cmd data = (true, nodes, plog) ∧
      mesh_db_calls plog = [] := by
  unfold recv_appkey_status
  by_cases hlen : data.length ≠ 4
  · exact ⟨[], by rw [if_pos hlen], rfl⟩
  · rw [if_neg hlen]
    by_cases hs : data.getD 0 0 ≠ MESH_STATUS_SUCCESS
    · simp only [if_pos hs]
      exact ⟨_, rfl, rfl⟩
    · rcases h with h | h
      · subst h
        simp only [if_neg hs]
        exact ⟨_, rfl, rfl⟩
      · exact absurd h hs

theorem recv_netkey_status_inert (keys_get_bound_key : Nat → Nat) (nodes : Registry)
    (src : Nat) (cmd : Option cfg_cmd) (data : List Nat)
    (h : cmd = none ∨ data.getD 0 0 ≠ MESH_STATUS_SUCCESS) :
    ∃ plog, recv_netkey_status keys_get_bound_key nodes src cmd data =
        some (true, nodes, plog) ∧
      mesh_db_calls plog = [] := by
  unfold recv_netkey_status
  by_cases hlen : data.length ≠ 3
  · exact ⟨[], by rw [if_pos hlen], rfl⟩
  · rw [if_neg hlen]
    by_cases hs : data.getD 0 0 ≠ MESH_STATUS_SUCCESS
    · simp only [if_pos hs]
      exact ⟨_, rfl, rfl⟩
    · rcases h with h | h
      · subst h
        simp only [if_neg hs]
        exact ⟨_, rfl, rfl⟩
      · exact absurd h hs

/-- C22: for an AppKey-Status or NetKey-Status message from `src`, of any
length, for which no pending request matches `(src, opcode)` or whose status
byte is not `MESH_STATUS_SUCCESS`, `msg_recvd` returns `true`, the registry
is the one before the call and the log holds no `mesh_db` notification; when
no request matches, the queue `requests` is unchanged as well. -/
theorem key_status_without_resolution (mesh_opcode_get : List Nat → Option (Nat × Nat))
    (keys_get_bound_key : Nat → Nat) (st : cfgcli) (nodes : Registry) (src idx : Nat)
    (data : List Nat) (opcode n : Nat)
    (hparse : mesh_opcode_get data = some (opcode, n))
    (hop : clear_unreliable opcode = OP_APPKEY_STATUS ∨
      clear_unreliable opcode = OP_NETKEY_STATUS)
    (h : get_req_by_rsp st.requests src (clear_unreliable opcode) = none ∨
      (data.drop n).getD 0 0 ≠ MESH_STATUS_SUCCESS) :
    (∃ log, msg_recvd mesh_opcode_get keys_get_bound_key st nodes src idx data =
        some (true,
          { st with requests :=
            st.requests.eraseP (req_matches src (clear_unreliable opcode)) },
          nodes, log) ∧
      mesh_db_calls log = []) ∧
    (get_req_by_rsp st.requests src (clear_unreliable opcode) = none →
      st.requests.eraseP (req_matches src (clear_unreliable opcode)) = st.requests) := by
  have hcmd : (resolve_request st.requests src (clear_unreliable opcode)).1 = none ∨
      (data.drop n).getD 0 0 ≠ MESH_STATUS_SUCCESS :=
    h.imp resolve_request_cmd_none id
  constructor
  · rcases hop with hop | hop
    · obtain ⟨plog, hr, hp⟩ := recv_appkey_status_inert nodes src _ _ hcmd
      refine ⟨_, msg_recvd_of_dispatch _ _ _ _ _ _ _ _ _ hparse (true, nodes, plog) ?_, ?_⟩
      · rw [hop, recv_dispatch_appkey, ← hop, hr]
      · exact mesh_db_calls_received_nil _ _ _ _ _ hp
    · obtain ⟨plog, hr, hp⟩ := recv_netkey_status_inert keys_get_bound_key nodes src _ _ hcmd
      refine ⟨_, msg_recvd_of_dispatch _ _ _ _ _ _ _ _ _ hparse (true, nodes, plog) ?_, ?_⟩
      · rw [hop, recv_dispatch_netkey, ← hop, hr]
      · exact mesh_db_calls_received_nil _ _ _ _ _ hp
  · intro hnone
    rw [List.eraseP_of_forall_not]
    intro a ha
    simp only [get_req_by_rsp, List.find?_eq_none] at hnone
    exact hnone a ha

/-- Witness of C22: with no pending request, the AppKey-Status
`80 03 00 23 61 45` from `0x0100` is decoded (`true`), node `0x0100` keeps
its empty app-key set and no notification is logged. -/
theorem key_status_without_resolution_witness :
    (∃ log, msg_recvd mesh_opcode_get (fun _ => 0)
        ⟨[], 2, 0x0100, List.replicate 8 0⟩
        (some [⟨0x0100, [0], none, [], 1⟩]) 0x0100 0 [0x80, 0x03, 0x00, 0x23, 0x61, 0x45] =
      some (true, ⟨[], 2, 0x0100, List.replicate 8 0⟩,
        some [⟨0x0100, [0], none, [], 1⟩], log) ∧
      mesh_db_calls log = []) :=
  (key_status_without_resolution mesh_opcode_get (fun _ => 0)
    ⟨[], 2, 0x0100, List.replicate 8 0⟩
    (some [⟨0x0100, [0], none, [], 1⟩]) 0x0100 0 [0x80, 0x03, 0x00, 0x23, 0x61, 0x45]
    0x8003 2 (by decide) (Or.inl (by decide)) (Or.inl (by decide))).1

/-! ## C23: the publication round trip -/

theorem recv_dispatch_pub_status (keys_get_bound_key : Nat → Nat) (nodes : Registry)
    (src : Nat) (cmd : Option cfg_cmd) (data : List Nat) :
    recv_dispatch keys_get_bound_key nodes src cmd OP_CONFIG_MODEL_PUB_STATUS data =
      some (true, nodes, recv_model_pub_status src data) := by
  rfl

theorem pub_set_params_seven (e p a period rexmit m v : Nat) (rest : List Nat) :
    pub_set_params 7 ([e, p, a, period, rexmit, m, v] ++ rest) =
      [e % 256, e / 256 % 256, p % 256, p / 256 % 256, a % 256, a / 256 % 256,
       DEFAULT_TTL % 256, period % 256, rexmit % 256,
       v % 256, v / 256 % 256, m % 256, m / 256 % 256] := by
  simp [pub_set_params, put_le16]

theorem vendor_model_id (v m : Nat) (hv : v < 65536) (hm : m < 65536) :
    ((v <<< 16) ||| m) % 4294967296 = (v <<< 16) ||| m := by
  apply Nat.mod_eq_of_lt
  have h1 : v <<< 16 < 2 ^ 32 := by
    rw [Nat.shiftLeft_eq]
    omega
  have h2 : m < 2 ^ 32 := by omega
  exact Nat.or_lt_two_pow h1 h2

/-- The fields the Model-Pub-Status case reads from the status byte followed
by the bytes of `pub_set_params` for seven words. -/
theorem pub_status_decode (e p a period rexmit m v src : Nat) (rest payload : List Nat)
    (he : e < 65536) (hp : p < 65536) (ha : a < 65536) (hperiod : period < 256)
    (hrexmit : rexmit < 256) (hm : m < 65536) (hv : v < 65536)
    (hpl : payload =
      MESH_STATUS_SUCCESS :: pub_set_params 7 ([e, p, a, period, rexmit, m, v] ++ rest)) :
    payload.length = 14 ∧
    get_le16 payload 1 = e ∧ get_le16 payload 3 = p ∧ get_le16 payload 5 = a ∧
    (print_mod_id payload 10 (payload.length == 14) "").1 = (v <<< 16) ||| m ∧
    payload.getD 7 0 = DEFAULT_TTL ∧ payload.getD 8 0 = period ∧
    payload.getD 9 0 = rexmit ∧
    recv_model_pub_status src payload =
      [effect.printf "\nNode %4.4x Publication status %s\n"
        [print_arg.num src, print_arg.status_str MESH_STATUS_SUCCESS],
       effect.printf "%sModel Id\t%4.4x %4.4x\n"
        [print_arg.str "", print_arg.num v, print_arg.num m]] ++
      print_pub e ((v <<< 16) ||| m) p a DEFAULT_TTL ++
      (if period >>> 6 = 0 then
         [effect.printf "Period\t\t%d ms\n" [print_arg.num ((period &&& 0x3f) * 100)]]
       else if period >>> 6 = 2 then
         [effect.printf "Period\t\t%d sec\n" [print_arg.num ((period &&& 0x3f) * 10)]]
       else if period >>> 6 = 1 then
         [effect.printf "Period\t\t%d sec\n" [print_arg.num (period &&& 0x3f)]]
       else if period >>> 6 = 3 then
         [effect.printf "Period\t\t%d min\n" [print_arg.num ((period &&& 0x3f) * 10)]]
       else []) ++
      [effect.printf "Rexmit count\t%d\n" [print_arg.num (rexmit >>> 5)],
       effect.printf "Rexmit steps\t%d\n" [print_arg.num (rexmit &&& 0x1f)]] := by
  rw [pub_set_params_seven] at hpl
  subst hpl
  have hlen : (MESH_STATUS_SUCCESS :: [e % 256, e / 256 % 256, p % 256, p / 256 % 256,
      a % 256, a / 256 % 256, DEFAULT_TTL % 256, period % 256, rexmit % 256,
      v % 256, v / 256 % 256, m % 256, m / 256 % 256]).length = 14 := rfl
  have h1 : get_le16 (MESH_STATUS_SUCCESS :: [e % 256, e / 256 % 256, p % 256, p / 256 % 256,
      a % 256, a / 256 % 256, DEFAULT_TTL % 256, period % 256, rexmit % 256,
      v % 256, v / 256 % 256, m % 256, m / 256 % 256]) 1 = e := by
    simp [get_le16]; omega
  have h3 : get_le16 (MESH_STATUS_SUCCESS :: [e % 256, e / 256 % 256, p % 256, p / 256 % 256,
      a % 256, a / 256 % 256, DEFAULT_TTL % 256, period % 256, rexmit % 256,
      v % 256, v / 256 % 256, m % 256, m / 256 % 256]) 3 = p := by
    simp [get_le16]; omega
  have h5 : get_le16 (MESH_STATUS_SUCCESS :: [e % 256, e / 256 % 256, p % 256, p / 256 % 256,
      a % 256, a / 256 % 256, DEFAULT_TTL % 256, period % 256, rexmit % 256,
      v % 256, v / 256 % 256, m % 256, m / 256 % 256]) 5 = a := by
    simp [get_le16]; omega
  have h10 : get_le16 (MESH_STATUS_SUCCESS :: [e % 256, e / 256 % 256, p % 256,
      p / 256 % 256, a % 256, a / 256 % 256, DEFAULT_TTL % 256, period % 256, rexmit % 256,
      v % 256, v / 256 % 256, m % 256, m / 256 % 256]) 10 = v := by
    simp [get_le16]; omega
  have h12 : get_le16 (MESH_STATUS_SUCCESS :: [e % 256, e / 256 % 256, p % 256,
      p / 256 % 256, a % 256, a / 256 % 256, DEFAULT_TTL % 256, period % 256, rexmit % 256,
      v % 256, v / 256 % 256, m % 256, m / 256 % 256]) (10 + 2) = m := by
    simp [get_le16]; omega
  have h7 : (MESH_STATUS_SUCCESS :: [e % 256, e / 256 % 256, p % 256,
      p / 256 % 256, a % 256, a / 256 % 256, DEFAULT_TTL % 256, period % 256, rexmit % 256,
      v % 256, v / 256 % 256, m % 256, m / 256 % 256]).getD 7 0 = DEFAULT_TTL := by
    simp [DEFAULT_TTL]
  have h8 : (MESH_STATUS_SUCCESS :: [e % 256, e / 256 % 256, p % 256,
      p / 256 % 256, a % 256, a / 256 % 256, DEFAULT_TTL % 256, period % 256, rexmit % 256,
      v % 256, v / 256 % 256, m % 256, m / 256 % 256]).getD 8 0 = period := by
    simp; omega
  have h9 : (MESH_STATUS_SUCCESS :: [e % 256, e / 256 % 256, p % 256,
      p / 256 % 256, a % 256, a / 256 % 256, DEFAULT_TTL % 256, period % 256, rexmit % 256,
      v % 256, v / 256 % 256, m % 256, m / 256 % 256]).getD 9 0 = rexmit := by
    simp; omega
  have h0 : (MESH_STATUS_SUCCESS :: [e % 256, e / 256 % 256, p % 256,
      p / 256 % 256, a % 256, a / 256 % 256, DEFAULT_TTL % 256, period % 256, rexmit % 256,
      v % 256, v / 256 % 256, m % 256, m / 256 % 256]).getD 0 0 = MESH_STATUS_SUCCESS := rfl
  have hmod : print_mod_id (MESH_STATUS_SUCCESS :: [e % 256, e / 256 % 256, p % 256,
      p / 256 % 256, a % 256, a / 256 % 256, DEFAULT_TTL % 256, period % 256, rexmit % 256,
      v % 256, v / 256 % 256, m % 256, m / 256 % 256]) 10 true "" =
      ((v <<< 16) ||| m,
        [effect.printf "%sModel Id\t%4.4x %4.4x\n"
          [print_arg.str "", print_arg.num v, print_arg.num m]]) := by
    simp only [print_mod_id, h10, h12, vendor_model_id v m hv hm]
    rfl
  refine ⟨hlen, h1, h3, h5, ?_, h7, h8, h9, ?_⟩
  · rw [hlen]
    exact congrArg Prod.fst hmod
  · simp only [recv_model_pub_status, hlen, h0, h1, h3, h5, h7, h8, h9, beq_self_eq_true, hmod,
      ne_eq, not_true_eq_false, and_false, false_and, if_false,
      List.append_assoc, List.cons_append, List.nil_append]


/-- The command `cmd_pub_set` with seven words is `config_send` of the opcode
bytes followed by `pub_set_params`. -/
theorem cmd_pub_set_seven (mesh_opcode_set : Nat → List Nat)
    (send_msg : Nat → Nat → List Nat → Bool) (st : cfgcli)
    (e p a period rexmit m v : Nat) (hparms : st.parms.length = 8) :
    cmd_pub_set mesh_opcode_set send_msg st
        [some e, some p, some a, some period, some rexmit, some m, some v] =
      ((config_send send_msg
          { st with parms := [e, p, a, period, rexmit, m, v] ++ st.parms.drop 7 }
          (mesh_opcode_set OP_CONFIG_MODEL_PUB_SET ++
            pub_set_params 7 ([e, p, a, period, rexmit, m, v] ++ st.parms.drop 7))
          OP_CONFIG_MODEL_PUB_SET).2.1,
       (config_send send_msg
          { st with parms := [e, p, a, period, rexmit, m, v] ++ st.parms.drop 7 }
          (mesh_opcode_set OP_CONFIG_MODEL_PUB_SET ++
            pub_set_params 7 ([e, p, a, period, rexmit, m, v] ++ st.parms.drop 7))
          OP_CONFIG_MODEL_PUB_SET).2.2 ++
        quit_for (config_send send_msg
          { st with parms := [e, p, a, period, rexmit, m, v] ++ st.parms.drop 7 }
          (mesh_opcode_set OP_CONFIG_MODEL_PUB_SET ++
            pub_set_params 7 ([e, p, a, period, rexmit, m, v] ++ st.parms.drop 7))
          OP_CONFIG_MODEL_PUB_SET).1) := by
  obtain ⟨requests, rsp_timeout, target, parms⟩ := st
  simp only at hparms
  match parms, hparms with
  | [x0, x1, x2, x3, x4, x5, x6, x7], _ =>
    have hr : read_input_parameters [x0, x1, x2, x3, x4, x5, x6, x7]
        [some e, some p, some a, some period, some rexmit, some m, some v] =
        (7, [e, p, a, period, rexmit, m, v, x7]) := by
      simp [read_input_parameters, read_input_parameters_from]
    simp only [cmd_pub_set, hr]
    rfl

/-- Every `send_msg` in the log of `config_send` carries the buffer given. -/
theorem config_send_send_msg_buf (send_msg : Nat → Nat → List Nat → Bool) (st : cfgcli)
    (buf : List Nat) (opcode dst app_idx : Nat) (b : List Nat)
    (h : effect.send_msg dst app_idx b ∈ (config_send send_msg st buf opcode).2.2) :
    b = buf := by
  by_cases h1 : st.target = UNASSIGNED_ADDRESS
  · simp [config_send, if_pos h1] at h
  · cases hc : get_cmd opcode with
    | none => simp [config_send, if_neg h1, hc] at h
    | some cmd =>
      cases hg : get_req_by_rsp st.requests st.target cmd.rsp with
      | some r => simp [config_send, h1, hc, hg] at h
      | none =>
        by_cases h3 : cmd.rsp = NO_RESPONSE
        · rw [h3] at hg
          simp only [config_send, if_neg h1, hc, hg, Option.isSome_none, Bool.false_eq_true,
            if_false, ne_eq, h3, not_true_eq_false, List.mem_cons, effect.send_msg.injEq] at h
          rcases h with h | h
          · exact h.2.2
          · split_ifs at h <;> simp at h
        · simp only [config_send, if_neg h1, hc, hg, Option.isSome_none, Bool.false_eq_true,
            if_false, ne_eq, h3, not_false_eq_true, if_true, add_request,
            List.cons_append, List.mem_cons, effect.send_msg.injEq, List.mem_append] at h
          rcases h with h | h | h
          · exact h.2.2
          · split_ifs at h <;> simp at h
          · simp at h

/-- C23: for 16-bit `e`, `p`, `a`, `m`, `v` and bytes `period`, `rexmit`:
`cmd_pub_set` with the seven words `e p a period rexmit m v` writes 13
bytes behind the opcode (every `send_msg` of its log carries the opcode
bytes followed by these 13 bytes).  When a received message parses to
`OP_CONFIG_MODEL_PUB_STATUS` and its payload is the byte
`MESH_STATUS_SUCCESS` followed by these 13 bytes, the payload has 14 bytes,
the Model-Pub-Status case reads back element address `e`, publish address
`p`, app-key index `a`, model id `(v << 16) | m`, TTL `DEFAULT_TTL`, period
byte `period` and retransmit byte `rexmit`, and `msg_recvd` returns `true`
with exactly the shell lines for these values. -/
theorem pub_set_status_roundtrip (mesh_opcode_set : Nat → List Nat)
    (send_msg : Nat → Nat → List Nat → Bool)
    (mesh_opcode_get : List Nat → Option (Nat × Nat)) (keys_get_bound_key : Nat → Nat)
    (sender st : cfgcli) (nodes : Registry) (src idx : Nat)
    (e p a period rexmit m v : Nat) (data : List Nat) (opcode n : Nat)
    (he : e < 65536) (hp : p < 65536) (ha : a < 65536) (hperiod : period < 256)
    (hrexmit : rexmit < 256) (hm : m < 65536) (hv : v < 65536)
    (hparms : sender.parms.length = 8)
    (hparse : mesh_opcode_get data = some (opcode, n))
    (hop : clear_unreliable opcode = OP_CONFIG_MODEL_PUB_STATUS)
    (hpl : data.drop n = MESH_STATUS_SUCCESS ::
      pub_set_params 7 ([e, p, a, period, rexmit, m, v] ++ sender.parms.drop 7)) :
    (pub_set_params 7 ([e, p, a, period, rexmit, m, v] ++ sender.parms.drop 7)).length = 13 ∧
    (∀ dst app_idx buf,
      effect.send_msg dst app_idx buf ∈
        (cmd_pub_set mesh_opcode_set send_msg sender
          [some e, some p, some a, some period, some rexmit, some m, some v]).2 →
      buf = mesh_opcode_set OP_CONFIG_MODEL_PUB_SET ++
        pub_set_params 7 ([e, p, a, period, rexmit, m, v] ++ sender.parms.drop 7)) ∧
    (data.drop n).length = 14 ∧
    get_le16 (data.drop n) 1 = e ∧ get_le16 (data.drop n) 3 = p ∧
    get_le16 (data.drop n) 5 = a ∧
    (print_mod_id (data.drop n) 10 ((data.drop n).length == 14) "").1 = (v <<< 16) ||| m ∧
    (data.drop n).getD 7 0 = DEFAULT_TTL ∧ (data.drop n).getD 8 0 = period ∧
    (data.drop n).getD 9 0 = rexmit ∧
    msg_recvd mesh_opcode_get keys_get_bound_key st nodes src idx data =
      some (true,
        { st with requests :=
          st.requests.eraseP (req_matches src (clear_unreliable opcode)) },
        nodes,
        effect.printf "Received %s\n" [print_arg.str (opcode_str opcode)] ::
          ((resolve_request st.requests src (clear_unreliable opcode)).2.2 ++
           ([effect.printf "\nNode %4.4x Publication status %s\n"
              [print_arg.num src, print_arg.status_str MESH_STATUS_SUCCESS],
             effect.printf "%sModel Id\t%4.4x %4.4x\n"
              [print_arg.str "", print_arg.num v, print_arg.num m]] ++
            print_pub e ((v <<< 16) ||| m) p a DEFAULT_TTL ++
            (if period >>> 6 = 0 then
               [effect.printf "Period\t\t%d ms\n" [print_arg.num ((period &&& 0x3f) * 100)]]
             else if period >>> 6 = 2 then
               [effect.printf "Period\t\t%d sec\n" [print_arg.num ((period &&& 0x3f) * 10)]]
             else if period >>> 6 = 1 then
               [effect.printf "Period\t\t%d sec\n" [print_arg.num (period &&& 0x3f)]]
             else if period >>> 6 = 3 then
               [effect.printf "Period\t\t%d min\n" [print_arg.num ((period &&& 0x3f) * 10)]]
             else []) ++
            [effect.printf "Rexmit count\t%d\n" [print_arg.num (rexmit >>> 5)],
             effect.printf "Rexmit steps\t%d\n" [print_arg.num (rexmit &&& 0x1f)]]))) := by
  obtain ⟨hlen, h1, h3, h5, hmod, h7, h8, h9, hlog⟩ :=
    pub_status_decode e p a period rexmit m v src (sender.parms.drop 7) (data.drop n)
      he hp ha hperiod hrexmit hm hv hpl
  refine ⟨?_, ?_, hlen, h1, h3, h5, hmod, h7, h8, h9, ?_⟩
  · rw [pub_set_params_seven]
    rfl
  · intro dst app_idx buf hmem
    rw [cmd_pub_set_seven mesh_opcode_set send_msg sender e p a period rexmit m v hparms]
      at hmem
    simp only [List.mem_append] at hmem
    rcases hmem with hmem | hmem
    · exact config_send_send_msg_buf _ _ _ _ _ _ _ hmem
    · unfold quit_for at hmem
      split_ifs at hmem <;> simp at hmem
  · rw [← hlog]
    exact msg_recvd_of_dispatch mesh_opcode_get keys_get_bound_key st nodes src idx data
      opcode n hparse (true, nodes, recv_model_pub_status src (data.drop n))
      (by rw [hop, recv_dispatch_pub_status])

/-- Witness of C23: element `0x0100`, publish address `0xc000`, app key
`1`, period `0x45`, retransmit `0x21`, model `0x1000` of vendor `0x05f1`:
`cmd_pub_set` sends `03 00 01 00 c0 01 00 ff 45 21 f1 05 00 10`, and the
status `80 19 00 00 01 00 c0 01 00 ff 45 21 f1 05 00 10` is read back to the
same addresses, index and model id `0x05f11000`. -/
theorem pub_set_status_roundtrip_witness :
    (cmd_pub_set mesh_opcode_set (fun _ _ _ => true)
      ⟨[], DEFAULT_TIMEOUT, 0x0100, List.replicate 8 0⟩
      [some 0x0100, some 0xc000, some 0x0001, some 0x45, some 0x21, some 0x1000,
       some 0x05f1]).2.head? =
      some (effect.send_msg 0x0100 APP_IDX_DEV_REMOTE
        [0x03, 0x00, 0x01, 0x00, 0xc0, 0x01, 0x00, 0xff, 0x45, 0x21, 0xf1, 0x05, 0x00,
         0x10]) ∧
    get_le16 (List.drop 2 [0x80, 0x19, 0x00, 0x00, 0x01, 0x00, 0xc0, 0x01, 0x00, 0xff, 0x45,
      0x21, 0xf1, 0x05, 0x00, 0x10]) 1 = 0x0100 ∧
    get_le16 (List.drop 2 [0x80, 0x19, 0x00, 0x00, 0x01, 0x00, 0xc0, 0x01, 0x00, 0xff, 0x45,
      0x21, 0xf1, 0x05, 0x00, 0x10]) 3 = 0xc000 ∧
    get_le16 (List.drop 2 [0x80, 0x19, 0x00, 0x00, 0x01, 0x00, 0xc0, 0x01, 0x00, 0xff, 0x45,
      0x21, 0xf1, 0x05, 0x00, 0x10]) 5 = 0x0001 ∧
    (print_mod_id (List.drop 2 [0x80, 0x19, 0x00, 0x00, 0x01, 0x00, 0xc0, 0x01, 0x00, 0xff,
      0x45, 0x21, 0xf1, 0x05, 0x00, 0x10]) 10
      ((List.drop 2 [0x80, 0x19, 0x00, 0x00, 0x01, 0x00, 0xc0, 0x01, 0x00, 0xff,
      0x45, 0x21, 0xf1, 0x05, 0x00, 0x10]).length == 14) "").1 = (0x05f1 <<< 16) ||| 0x1000 :=
  by
  have h := pub_set_status_roundtrip mesh_opcode_set (fun _ _ _ => true) mesh_opcode_get
    (fun _ => 0) ⟨[], DEFAULT_TIMEOUT, 0x0100, List.replicate 8 0⟩
    ⟨[], DEFAULT_TIMEOUT, 0x0100, List.replicate 8 0⟩ none 0x0100 0
    0x0100 0xc000 0x0001 0x45 0x21 0x1000 0x05f1
    [0x80, 0x19, 0x00, 0x00, 0x01, 0x00, 0xc0, 0x01, 0x00, 0xff, 0x45, 0x21, 0xf1, 0x05,
     0x00, 0x10] 0x8019 2
    (by decide) (by decide) (by decide) (by decide) (by decide) (by decide) (by decide)
    (by decide) (by decide) (by decide) (by decide)
  exact ⟨by decide, h.2.2.2.1, h.2.2.2.2.1, h.2.2.2.2.2.1, h.2.2.2.2.2.2.1⟩

/-! ## C24 - C25: malformed lengths and the return value -/

/-- A payload whose length fails the test of its case leaves the `switch`
at once: `true`, registry unchanged, nothing printed. -/
theorem recv_dispatch_wrong_size (keys_get_bound_key : Nat → Nat) (nodes : Registry)
    (src : Nat) (cmd : Option cfg_cmd) (op : Nat) (data : List Nat)
    (hsize : size_accepted op data.length = false) :
    recv_dispatch keys_get_bound_key nodes src cmd op data = some (true, nodes, []) := by
  by_cases h1 : op = OP_DEV_COMP_STATUS
  · simp only [size_accepted, if_pos h1, decide_eq_false_iff_not, not_le,
      beq_eq_false_iff_ne, Bool.or_eq_false_iff] at hsize
    simp only [recv_dispatch, if_pos h1, if_pos hsize]
  by_cases h2 : op = OP_APPKEY_STATUS
  · simp only [size_accepted, if_neg h1, if_pos h2, decide_eq_false_iff_not, not_le,
      beq_eq_false_iff_ne, Bool.or_eq_false_iff] at hsize
    simp only [recv_dispatch, recv_appkey_status, if_neg h1, if_pos h2, if_pos hsize]
  by_cases h3 : op = OP_NETKEY_STATUS
  · simp only [size_accepted, if_neg h1, if_neg h2, if_pos h3, decide_eq_false_iff_not, not_le,
      beq_eq_false_iff_ne, Bool.or_eq_false_iff] at hsize
    simp only [recv_dispatch, recv_netkey_status, if_neg h1, if_neg h2, if_pos h3, if_pos hsize]
  by_cases h4 : op = OP_MODEL_APP_STATUS
  · simp only [size_accepted, if_neg h1, if_neg h2, if_neg h3, if_pos h4, decide_eq_false_iff_not, not_le,
      beq_eq_false_iff_ne, Bool.or_eq_false_iff] at hsize
    simp only [recv_dispatch, recv_print_only, if_neg h1, if_neg h2, if_neg h3, if_pos h4, if_pos hsize]
  by_cases h5 : op = OP_NODE_IDENTITY_STATUS
  · simp only [size_accepted, if_neg h1, if_neg h2, if_neg h3, if_neg h4, if_pos h5, decide_eq_false_iff_not, not_le,
      beq_eq_false_iff_ne, Bool.or_eq_false_iff] at hsize
    simp only [recv_dispatch, recv_print_only, if_neg h1, if_neg h2, if_neg h3, if_neg h4, if_pos h5, if_pos hsize]
  by_cases h6 : op = OP_CONFIG_BEACON_STATUS
  · simp only [size_accepted, if_neg h1, if_neg h2, if_neg h3, if_neg h4, if_neg h5, if_pos h6, decide_eq_false_iff_not, not_le,
      beq_eq_false_iff_ne, Bool.or_eq_false_iff] at hsize
    simp only [recv_dispatch, recv_print_only, if_neg h1, if_neg h2, if_neg h3, if_neg h4, if_neg h5, if_pos h6, if_pos hsize]
  by_cases h7 : op = OP_CONFIG_RELAY_STATUS
  · simp only [size_accepted, if_neg h1, if_neg h2, if_neg h3, if_neg h4, if_neg h5, if_neg h6, if_pos h7, decide_eq_false_iff_not, not_le,
      beq_eq_false_iff_ne, Bool.or_eq_false_iff] at hsize
    simp only [recv_dispatch, recv_print_only, if_neg h1, if_neg h2, if_neg h3, if_neg h4, if_neg h5, if_neg h6, if_pos h7, if_pos hsize]
  by_cases h8 : op = OP_CONFIG_PROXY_STATUS
  · simp only [size_accepted, if_neg h1, if_neg h2, if_neg h3, if_neg h4, if_neg h5, if_neg h6, if_neg h7, if_pos h8, decide_eq_false_iff_not, not_le,
      beq_eq_false_iff_ne, Bool.or_eq_false_iff] at hsize
    simp only [recv_dispatch, recv_print_only, if_neg h1, if_neg h2, if_neg h3, if_neg h4, if_neg h5, if_neg h6, if_neg h7, if_pos h8, if_pos hsize]
  by_cases h9 : op = OP_CONFIG_DEFAULT_TTL_STATUS
  · simp only [size_accepted, if_neg h1, if_neg h2, if_neg h3, if_neg h4, if_neg h5, if_neg h6, if_neg h7, if_neg h8, if_pos h9, decide_eq_false_iff_not, not_le,
      beq_eq_false_iff_ne, Bool.or_eq_false_iff] at hsize
    simp only [recv_dispatch, recv_print_only, if_neg h1, if_neg h2, if_neg h3, if_neg h4, if_neg h5, if_neg h6, if_neg h7, if_neg h8, if_pos h9, if_pos hsize]
  by_cases h10 : op = OP_CONFIG_MODEL_PUB_STATUS
  · simp only [size_accepted, if_neg h1, if_neg h2, if_neg h3, if_neg h4, if_neg h5, if_neg h6, if_neg h7, if_neg h8, if_neg h9, if_pos h10, decide_eq_false_iff_not, not_le,
      beq_eq_false_iff_ne, Bool.or_eq_false_iff] at hsize
    simp only [recv_dispatch, recv_print_only, recv_model_pub_status, if_neg h1, if_neg h2, if_neg h3, if_neg h4, if_neg h5, if_neg h6, if_neg h7, if_neg h8, if_neg h9, if_pos h10, if_pos hsize]
  simp only [size_accepted, if_neg h1, if_neg h2, if_neg h3, if_neg h4, if_neg h5, if_neg h6, if_neg h7, if_neg h8, if_neg h9, if_neg h10,
    Bool.true_eq_false] at hsize

/-- Counterexample to C24: an AppKeyAdd to `0x0100` is pending and an
AppKey-Status with a 3-byte payload (`80 03 00 23 61`) arrives from
`0x0100`.  The length test of the case fails, but the request was already
taken out of the queue before the `switch`: the queue `requests` is empty
after the call and the request's timer was removed. -/
theorem msg_recvd_wrong_size_resolves_request :
    size_accepted OP_APPKEY_STATUS 3 = false ∧
    mesh_opcode_get [0x80, 0x03, 0x00, 0x23, 0x61] = some (OP_APPKEY_STATUS, 2) ∧
    msg_recvd mesh_opcode_get (fun _ => 0)
      ⟨[⟨⟨OP_APPKEY_ADD, OP_APPKEY_STATUS, "AppKeyAdd"⟩, 0x0100⟩], 2, 0x0100,
        List.replicate 8 0⟩
      (some [⟨0x0100, [0], none, [], 1⟩]) 0x0100 0 [0x80, 0x03, 0x00, 0x23, 0x61] =
      some (true, ⟨[], 2, 0x0100, List.replicate 8 0⟩, some [⟨0x0100, [0], none, [], 1⟩],
        [effect.printf "Received %s\n" [print_arg.str "AppKeyStatus"],
         effect.timeout_remove ⟨⟨OP_APPKEY_ADD, OP_APPKEY_STATUS, "AppKeyAdd"⟩, 0x0100⟩]) := by
  decide

/-- C24 (amended): when the payload length fails the length test of the
case for its opcode (`size_accepted` is `false`), `msg_recvd` returns
`true`, the registry is the one before the call, nothing is printed after
the `Received` line, and the queue `requests` changes only by the removal of
the request that the message resolves: the first request to `src` that
expects this opcode, whose timer is removed; when there is no such
request the queue is identical before and after. -/
theorem msg_recvd_wrong_size (mesh_opcode_get : List Nat → Option (Nat × Nat))
    (keys_get_bound_key : Nat → Nat) (st : cfgcli) (nodes : Registry) (src idx : Nat)
    (data : List Nat) (opcode n : Nat)
    (hparse : mesh_opcode_get data = some (opcode, n))
    (hsize : size_accepted (clear_unreliable opcode) (data.drop n).length = false) :
    msg_recvd mesh_opcode_get keys_get_bound_key st nodes src idx data =
      some (true,
        { st with requests :=
          st.requests.eraseP (req_matches src (clear_unreliable opcode)) },
        nodes,
        effect.printf "Received %s\n" [print_arg.str (opcode_str opcode)] ::
          (resolve_request st.requests src (clear_unreliable opcode)).2.2) ∧
    (∀ req, get_req_by_rsp st.requests src (clear_unreliable opcode) = some req →
      (resolve_request st.requests src (clear_unreliable opcode)).2.2 =
        [effect.timeout_remove req]) ∧
    (get_req_by_rsp st.requests src (clear_unreliable opcode) = none →
      st.requests.eraseP (req_matches src (clear_unreliable opcode)) = st.requests ∧
      (resolve_request st.requests src (clear_unreliable opcode)).2.2 = []) := by
  refine ⟨?_, ?_, ?_⟩
  · have h := msg_recvd_of_dispatch mesh_opcode_get keys_get_bound_key st nodes src idx data
      opcode n hparse (true, nodes, [])
      (recv_dispatch_wrong_size keys_get_bound_key nodes src _ _ _ hsize)
    simpa only [List.append_nil] using h
  · intro req hreq
    simp only [resolve_request, hreq, free_request]
  · intro hnone
    constructor
    · rw [List.eraseP_of_forall_not]
      intro a ha
      simp only [get_req_by_rsp, List.find?_eq_none] at hnone
      exact hnone a ha
    · simp only [resolve_request, hnone]

/-- Witness of C24: a NetKey-Status with a 2-byte payload (`80 44 00 23`)
from `0x0100`, while the only pending request is for `0x0200`: registry and
queue are as before and only the `Received` line is printed. -/
theorem msg_recvd_wrong_size_witness :
    msg_recvd mesh_opcode_get (fun _ => 0)
      ⟨[⟨⟨OP_NETKEY_ADD, OP_NETKEY_STATUS, "NetKeyAdd"⟩, 0x0200⟩], 2, 0x0200,
        List.replicate 8 0⟩
      (some [⟨0x0100, [0], none, [], 1⟩]) 0x0100 0 [0x80, 0x44, 0x00, 0x23] =
      some (true,
        ⟨[⟨⟨OP_NETKEY_ADD, OP_NETKEY_STATUS, "NetKeyAdd"⟩, 0x0200⟩], 2, 0x0200,
          List.replicate 8 0⟩,
        some [⟨0x0100, [0], none, [], 1⟩],
        [effect.printf "Received %s\n" [print_arg.str "NetKeyStatus"]]) :=
  (msg_recvd_wrong_size mesh_opcode_get (fun _ => 0)
    ⟨[⟨⟨OP_NETKEY_ADD, OP_NETKEY_STATUS, "NetKeyAdd"⟩, 0x0200⟩], 2, 0x0200,
      List.replicate 8 0⟩
    (some [⟨0x0100, [0], none, [], 1⟩]) 0x0100 0 [0x80, 0x44, 0x00, 0x23] 0x8044 2
    (by decide) (by decide)).1

/-- The cases of `recv_print_only` are those of the handled opcodes after
the first three. -/
theorem recv_print_only_isSome (src op : Nat) (data : List Nat) :
    (recv_print_only src op data).isSome =
      decide (op ∈ handled_opcodes.drop 3) := by
  by_cases h1 : op = OP_MODEL_APP_STATUS
  · have hm : op ∈ handled_opcodes.drop 3 := by rw [h1]; decide
    simp only [recv_print_only, if_pos h1, hm, decide_True]
    split_ifs <;> rfl
  by_cases h2 : op = OP_NODE_IDENTITY_STATUS
  · have hm : op ∈ handled_opcodes.drop 3 := by rw [h2]; decide
    simp only [recv_print_only, if_neg h1, if_pos h2, hm, decide_True]
    split_ifs <;> rfl
  by_cases h3 : op = OP_CONFIG_BEACON_STATUS
  · have hm : op ∈ handled_opcodes.drop 3 := by rw [h3]; decide
    simp only [recv_print_only, if_neg h1, if_neg h2, if_pos h3, hm, decide_True]
    split_ifs <;> rfl
  by_cases h4 : op = OP_CONFIG_RELAY_STATUS
  · have hm : op ∈ handled_opcodes.drop 3 := by rw [h4]; decide
    simp only [recv_print_only, if_neg h1, if_neg h2, if_neg h3, if_pos h4, hm, decide_True]
    split_ifs <;> rfl
  by_cases h5 : op = OP_CONFIG_PROXY_STATUS
  · have hm : op ∈ handled_opcodes.drop 3 := by rw [h5]; decide
    simp only [recv_print_only, if_neg h1, if_neg h2, if_neg h3, if_neg h4, if_pos h5, hm, decide_True]
    split_ifs <;> rfl
  by_cases h6 : op = OP_CONFIG_DEFAULT_TTL_STATUS
  · have hm : op ∈ handled_opcodes.drop 3 := by rw [h6]; decide
    simp only [recv_print_only, if_neg h1, if_neg h2, if_neg h3, if_neg h4, if_neg h5, if_pos h6, hm, decide_True]
    split_ifs <;> rfl
  by_cases h7 : op = OP_CONFIG_MODEL_PUB_STATUS
  · have hm : op ∈ handled_opcodes.drop 3 := by rw [h7]; decide
    simp only [recv_print_only, if_neg h1, if_neg h2, if_neg h3, if_neg h4, if_neg h5, if_neg h6, if_pos h7, hm, decide_True]
    rfl
  by_cases h8 : op = OP_CONFIG_MODEL_SUB_STATUS
  · have hm : op ∈ handled_opcodes.drop 3 := by rw [h8]; decide
    simp only [recv_print_only, if_neg h1, if_neg h2, if_neg h3, if_neg h4, if_neg h5, if_neg h6, if_neg h7, if_pos h8, hm, decide_True]
    split_ifs <;> rfl
  by_cases h9 : op = OP_CONFIG_MODEL_SUB_LIST
  · have hm : op ∈ handled_opcodes.drop 3 := by rw [h9]; decide
    simp only [recv_print_only, if_neg h1, if_neg h2, if_neg h3, if_neg h4, if_neg h5, if_neg h6, if_neg h7, if_neg h8, if_pos h9, hm, decide_True]
    split_ifs <;> rfl
  by_cases h10 : op = OP_MODEL_APP_LIST
  · have hm : op ∈ handled_opcodes.drop 3 := by rw [h10]; decide
    simp only [recv_print_only, if_neg h1, if_neg h2, if_neg h3, if_neg h4, if_neg h5, if_neg h6, if_neg h7, if_neg h8, if_neg h9, if_pos h10, hm, decide_True]
    split_ifs <;> rfl
  by_cases h11 : op = OP_CONFIG_HEARTBEAT_PUB_STATUS
  · have hm : op ∈ handled_opcodes.drop 3 := by rw [h11]; decide
    simp only [recv_print_only, if_neg h1, if_neg h2, if_neg h3, if_neg h4, if_neg h5, if_neg h6, if_neg h7, if_neg h8, if_neg h9, if_neg h10, if_pos h11, hm, decide_True]
    split_ifs <;> rfl
  by_cases h12 : op = OP_CONFIG_HEARTBEAT_SUB_STATUS
  · have hm : op ∈ handled_opcodes.drop 3 := by rw [h12]; decide
    simp only [recv_print_only, if_neg h1, if_neg h2, if_neg h3, if_neg h4, if_neg h5, if_neg h6, if_neg h7, if_neg h8, if_neg h9, if_neg h10, if_neg h11, if_pos h12, hm, decide_True]
    split_ifs <;> rfl
  by_cases h13 : op = OP_NODE_RESET_STATUS
  · have hm : op ∈ handled_opcodes.drop 3 := by rw [h13]; decide
    simp only [recv_print_only, if_neg h1, if_neg h2, if_neg h3, if_neg h4, if_neg h5, if_neg h6, if_neg h7, if_neg h8, if_neg h9, if_neg h10, if_neg h11, if_neg h12, if_pos h13, hm, decide_True]
    rfl
  have hm : ¬ op ∈ handled_opcodes.drop 3 := by
    simp only [handled_opcodes, List.drop, List.mem_cons, List.mem_singleton, List.not_mem_nil,
      or_false, not_or]
    exact ⟨h1, h2, h3, h4, h5, h6, h7, h8, h9, h10, h11, h12, h13⟩
  simp only [recv_print_only, if_neg h1, if_neg h2, if_neg h3, if_neg h4, if_neg h5, if_neg h6, if_neg h7, if_neg h8, if_neg h9, if_neg h10, if_neg h11, if_neg h12, if_neg h13, hm, decide_False]
  rfl

/-- Whenever the `switch` has a defined result, its return value is `true`
exactly for the handled opcodes. -/
theorem recv_dispatch_result (keys_get_bound_key : Nat → Nat) (nodes : Registry) (src : Nat)
    (cmd : Option cfg_cmd) (op : Nat) (data : List Nat) (r : Bool × Registry × List effect)
    (h : recv_dispatch keys_get_bound_key nodes src cmd op data = some r) :
    r.1 = decide (op ∈ handled_opcodes) := by
  by_cases h1 : op = OP_DEV_COMP_STATUS
  · have hm : op ∈ handled_opcodes := by rw [h1]; decide
    simp only [recv_dispatch, if_pos h1] at h
    simp only [hm, decide_True]
    by_cases hlt : data.length < MIN_COMPOSITION_LEN
    · rw [if_pos hlt] at h
      cases h
      rfl
    · rw [if_neg hlt] at h
      cases hpc : print_composition data with
      | none => simp [hpc] at h
      | some log =>
        simp only [hpc, Option.some.injEq] at h
        subst h
        rfl
  by_cases h2 : op = OP_APPKEY_STATUS
  · have hm : op ∈ handled_opcodes := by rw [h2]; decide
    simp only [recv_dispatch, if_neg h1, if_pos h2, Option.some.injEq] at h
    simp only [hm, decide_True]
    subst h
    unfold recv_appkey_status
    by_cases c1 : data.length ≠ 4
    · simp only [if_pos c1]
    by_cases c2 : data.getD 0 0 ≠ MESH_STATUS_SUCCESS
    · simp only [if_neg c1, if_pos c2]
    cases cmd with
    | none => simp only [if_neg c1, if_neg c2]
    | some c =>
      by_cases c3 : c.opcode = OP_APPKEY_ADD
      · simp only [if_neg c1, if_neg c2, if_pos c3]
      by_cases c4 : c.opcode = OP_APPKEY_DELETE
      · simp only [if_neg c1, if_neg c2, if_neg c3, if_pos c4]
      · simp only [if_neg c1, if_neg c2, if_neg c3, if_neg c4]
  by_cases h3 : op = OP_NETKEY_STATUS
  · have hm : op ∈ handled_opcodes := by rw [h3]; decide
    simp only [recv_dispatch, if_neg h1, if_neg h2, if_pos h3] at h
    simp only [hm, decide_True]
    unfold recv_netkey_status at h
    by_cases c1 : data.length ≠ 3
    · simp only [if_pos c1, Option.some.injEq] at h
      subst h
      rfl
    by_cases c2 : data.getD 0 0 ≠ MESH_STATUS_SUCCESS
    · simp only [if_neg c1, if_pos c2, Option.some.injEq] at h
      subst h
      rfl
    cases cmd with
    | none =>
      simp only [if_neg c1, if_neg c2, Option.some.injEq] at h
      subst h
      rfl
    | some c =>
      by_cases c3 : c.opcode = OP_NETKEY_ADD
      · simp only [if_neg c1, if_neg c2, if_pos c3, Option.some.injEq] at h
        subst h
        rfl
      by_cases c4 : c.opcode = OP_NETKEY_DELETE
      · simp only [if_neg c1, if_neg c2, if_neg c3, if_pos c4] at h
        cases hdel : remote_del_net_key keys_get_bound_key nodes src (status_net_idx data) with
        | none => simp [hdel] at h
        | some x =>
          simp only [hdel, Option.some.injEq] at h
          subst h
          rfl
      · simp only [if_neg c1, if_neg c2, if_neg c3, if_neg c4, Option.some.injEq] at h
        subst h
        rfl
  have hiff : decide (op ∈ handled_opcodes) = decide (op ∈ handled_opcodes.drop 3) := by
    simp only [handled_opcodes, List.drop, List.mem_cons, h1, h2, h3, false_or]
  simp only [recv_dispatch, if_neg h1, if_neg h2, if_neg h3] at h
  rw [hiff, ← recv_print_only_isSome src op data]
  cases hp : recv_print_only src op data with
  | none =>
    simp only [hp, Option.some.injEq] at h
    subst h
    rfl
  | some log =>
    simp only [hp, Option.some.injEq] at h
    subst h
    rfl

/-- Whenever `msg_recvd` has a defined result, it returns `false` exactly
when the opcode cannot be parsed or is not a handled one. -/
theorem msg_recvd_flag (mesh_opcode_get : List Nat → Option (Nat × Nat))
    (keys_get_bound_key : Nat → Nat) (st : cfgcli) (nodes : Registry) (src idx : Nat)
    (data : List Nat) (res : Bool × cfgcli × Registry × List effect)
    (h : msg_recvd mesh_opcode_get keys_get_bound_key st nodes src idx data = some res) :
    res.1 = false ↔
      (mesh_opcode_get data = none ∨
        ∃ opcode n, mesh_opcode_get data = some (opcode, n) ∧
          clear_unreliable opcode ∉ handled_opcodes) := by
  cases hparse : mesh_opcode_get data with
  | none =>
    simp only [msg_recvd, hparse, Option.some.injEq] at h
    subst h
    simp
  | some pr =>
    obtain ⟨opcode, n⟩ := pr
    simp only [msg_recvd, hparse] at h
    cases hd : recv_dispatch keys_get_bound_key nodes src
        (resolve_request st.requests src (clear_unreliable opcode)).1
        (clear_unreliable opcode) (data.drop n) with
    | none => simp [hd] at h
    | some r =>
      have hr := recv_dispatch_result _ _ _ _ _ _ _ hd
      simp only [hd, Option.some.injEq] at h
      subst h
      simp only [hr, decide_eq_false_iff_not, false_or, Option.some.injEq, Prod.mk.injEq,
        reduceCtorEq]
      constructor
      · intro hn
        exact ⟨opcode, n, ⟨rfl, rfl⟩, hn⟩
      · rintro ⟨o, m, ⟨rfl, rfl⟩, hn⟩
        exact hn

/-- C25: `OP_DEV_COMP_STATUS` is one of the handled opcodes, yet for the
Device-Composition-Status message `02 00 f1 05 01 00 01 00 0a 00 03 00 00 00
00 00 00` (a 16-byte payload, which passes `len < MIN_COMPOSITION_LEN`)
`msg_recvd` has no defined result: `print_composition` is left with one byte
after the first element, its `uint16_t` length wraps round and it reads on
beyond the buffer. -/
theorem msg_recvd_composition_undefined :
    clear_unreliable OP_DEV_COMP_STATUS ∈ handled_opcodes ∧
    mesh_opcode_get
      [0x02, 0x00, 0xf1, 0x05, 0x01, 0x00, 0x01, 0x00, 0x0a, 0x00, 0x03, 0x00,
       0x00, 0x00, 0x00, 0x00, 0x00] = some (OP_DEV_COMP_STATUS, 1) ∧
    msg_recvd mesh_opcode_get (fun _ => 0) ⟨[], 2, 0x0100, List.replicate 8 0⟩ none 0x0100 0
      [0x02, 0x00, 0xf1, 0x05, 0x01, 0x00, 0x01, 0x00, 0x0a, 0x00, 0x03, 0x00,
       0x00, 0x00, 0x00, 0x00, 0x00] = none := by
  decide

/-! ## C26 - C27: heartbeat subscription and model binding -/

/-- No entry of the table `cmds` expects the response
`OP_CONFIG_HEARTBEAT_SUB_STATUS`. -/
theorem no_command_awaits_hb_sub_status :
    ∀ c ∈ cmds, c.rsp ≠ OP_CONFIG_HEARTBEAT_SUB_STATUS := by
  decide

/-- C26: the table `cmds` gives HeartbeatSubGet and HeartbeatSubSet the
expected response `OP_CONFIG_HEARTBEAT_SUB_GET`, which is not
`OP_CONFIG_HEARTBEAT_SUB_STATUS`.  After `cmd_hb_sub_get` (respectively
`cmd_hb_sub_set 0001 0100 3`) to target `0x0100` the request is pending, and
a HeartbeatSubStatus message (`80 3c ...`) received from `0x0100` is decoded
(`true`) but leaves that request in the queue. -/
theorem hb_sub_status_leaves_request_pending :
    (get_cmd OP_CONFIG_HEARTBEAT_SUB_GET).map (fun c => c.rsp) =
      some OP_CONFIG_HEARTBEAT_SUB_GET ∧
    (get_cmd OP_CONFIG_HEARTBEAT_SUB_SET).map (fun c => c.rsp) =
      some OP_CONFIG_HEARTBEAT_SUB_GET ∧
    OP_CONFIG_HEARTBEAT_SUB_GET ≠ OP_CONFIG_HEARTBEAT_SUB_STATUS ∧
    (cmd_hb_sub_get mesh_opcode_set (fun _ _ _ => true)
      ⟨[], 2, 0x0100, List.replicate 8 0⟩).1.requests =
      [⟨⟨OP_CONFIG_HEARTBEAT_SUB_GET, OP_CONFIG_HEARTBEAT_SUB_GET, "HeartbeatSubGet"⟩,
        0x0100⟩] ∧
    (cmd_hb_sub_set mesh_opcode_set (fun _ _ _ => true)
      ⟨[], 2, 0x0100, List.replicate 8 0⟩ [some 0x0001, some 0x0100, some 3]).1.requests =
      [⟨⟨OP_CONFIG_HEARTBEAT_SUB_SET, OP_CONFIG_HEARTBEAT_SUB_GET, "HeartbeatSubSet"⟩,
        0x0100⟩] ∧
    mesh_opcode_get [0x80, 0x3c, 0x00, 0x01, 0x00, 0x00, 0x01, 0x03, 0x00, 0x7f, 0x00] =
      some (OP_CONFIG_HEARTBEAT_SUB_STATUS, 2) ∧
    (msg_recvd mesh_opcode_get (fun _ => 0)
      (cmd_hb_sub_get mesh_opcode_set (fun _ _ _ => true)
        ⟨[], 2, 0x0100, List.replicate 8 0⟩).1
      none 0x0100 0
      [0x80, 0x3c, 0x00, 0x01, 0x00, 0x00, 0x01, 0x03, 0x00, 0x7f, 0x00]).map
        (fun r => (r.1, r.2.1.requests)) =
      some (true,
        [⟨⟨OP_CONFIG_HEARTBEAT_SUB_GET, OP_CONFIG_HEARTBEAT_SUB_GET, "HeartbeatSubGet"⟩,
          0x0100⟩]) ∧
    (msg_recvd mesh_opcode_get (fun _ => 0)
      (cmd_hb_sub_set mesh_opcode_set (fun _ _ _ => true)
        ⟨[], 2, 0x0100, List.replicate 8 0⟩ [some 0x0001, some 0x0100, some 3]).1
      none 0x0100 0
      [0x80, 0x3c, 0x00, 0x01, 0x00, 0x00, 0x01, 0x03, 0x00, 0x7f, 0x00]).map
        (fun r => (r.1, r.2.1.requests)) =
      some (true,
        [⟨⟨OP_CONFIG_HEARTBEAT_SUB_SET, OP_CONFIG_HEARTBEAT_SUB_GET, "HeartbeatSubSet"⟩,
          0x0100⟩]) := by
  refine ⟨by decide, by decide, by decide, by decide, by decide, by decide, by decide,
    by decide⟩

/-- C27: let `read_input_parameters` give the count `cnt` and the words
`parms`.  With `cnt = 3` the bytes `cmd_bind` puts behind the opcode are
`le16(parms[0])`, `le16(parms[1])`, `le16(parms[2])` (6 bytes); with
`cnt = 4` they are `le16(parms[0])`, `le16(parms[1])`, `le16(parms[3])`,
`le16(parms[2])` (8 bytes); in both cases the command is `config_send` of the
opcode bytes followed by these bytes, and every `send_msg` of the log carries
exactly that buffer.  With any other count the log is the line
`Bad arguments` and the exit status `EXIT_FAILURE`: `send_msg` is not called
and the queue `requests` is unchanged. -/
theorem cmd_bind_message (mesh_opcode_set : Nat → List Nat)
    (send_msg : Nat → Nat → List Nat → Bool) (st : cfgcli) (args : List (Option Nat))
    (cnt : Nat) (parms : List Nat)
    (hread : read_input_parameters st.parms args = (cnt, parms)) :
    (cnt = 3 →
      bind_params cnt parms =
        put_le16 (parms.getD 0 0) ++ put_le16 (parms.getD 1 0) ++ put_le16 (parms.getD 2 0) ∧
      (bind_params cnt parms).length = 6) ∧
    (cnt = 4 →
      bind_params cnt parms =
        put_le16 (parms.getD 0 0) ++ put_le16 (parms.getD 1 0) ++
          put_le16 (parms.getD 3 0) ++ put_le16 (parms.getD 2 0) ∧
      (bind_params cnt parms).length = 8) ∧
    (cnt = 3 ∨ cnt = 4 →
      cmd_bind mesh_opcode_set send_msg st args =
        ((config_send send_msg { st with parms := parms }
            (mesh_opcode_set OP_MODEL_APP_BIND ++ bind_params cnt parms)
            OP_MODEL_APP_BIND).2.1,
         (config_send send_msg { st with parms := parms }
            (mesh_opcode_set OP_MODEL_APP_BIND ++ bind_params cnt parms)
            OP_MODEL_APP_BIND).2.2 ++
          quit_for (config_send send_msg { st with parms := parms }
            (mesh_opcode_set OP_MODEL_APP_BIND ++ bind_params cnt parms)
            OP_MODEL_APP_BIND).1) ∧
      ∀ dst app_idx buf,
        effect.send_msg dst app_idx buf ∈ (cmd_bind mesh_opcode_set send_msg st args).2 →
        buf = mesh_opcode_set OP_MODEL_APP_BIND ++ bind_params cnt parms) ∧
    (cnt ≠ 3 → cnt ≠ 4 →
      cmd_bind mesh_opcode_set send_msg st args =
        ({ st with parms := parms },
          [effect.printf "Bad arguments\n" [], effect.quit EXIT_FAILURE]) ∧
      (cmd_bind mesh_opcode_set send_msg st args).1.requests = st.requests ∧
      ¬ calls_send_msg (cmd_bind mesh_opcode_set send_msg st args).2) := by
  refine ⟨?_, ?_, ?_, ?_⟩
  · intro h
    subst h
    simp [bind_params, put_le16]
  · intro h
    subst h
    simp [bind_params, put_le16]
  · intro h
    have hn : ¬ (cnt ≠ 3 ∧ cnt ≠ 4) := by omega
    have hb : cmd_bind mesh_opcode_set send_msg st args =
        ((config_send send_msg { st with parms := parms }
            (mesh_opcode_set OP_MODEL_APP_BIND ++ bind_params cnt parms)
            OP_MODEL_APP_BIND).2.1,
         (config_send send_msg { st with parms := parms }
            (mesh_opcode_set OP_MODEL_APP_BIND ++ bind_params cnt parms)
            OP_MODEL_APP_BIND).2.2 ++
          quit_for (config_send send_msg { st with parms := parms }
            (mesh_opcode_set OP_MODEL_APP_BIND ++ bind_params cnt parms)
            OP_MODEL_APP_BIND).1) := by
      simp only [cmd_bind, hread, if_neg hn]
    refine ⟨hb, ?_⟩
    intro dst app_idx buf hmem
    rw [hb] at hmem
    simp only [List.mem_append] at hmem
    rcases hmem with hmem | hmem
    · exact config_send_send_msg_buf _ _ _ _ _ _ _ hmem
    · unfold quit_for at hmem
      split_ifs at hmem <;> simp at hmem
  · intro h3 h4
    have hb : cmd_bind mesh_opcode_set send_msg st args =
        ({ st with parms := parms },
          [effect.printf "Bad arguments\n" [], effect.quit EXIT_FAILURE]) := by
      simp only [cmd_bind, hread, if_pos (And.intro h3 h4)]
    refine ⟨hb, ?_, ?_⟩
    · rw [hb]
    · rw [hb]
      rintro ⟨dst, app_idx, buf, hmem⟩
      simp at hmem

/-- Witness of C27: `bind 0100 0001 1000` to target `0x0100` sends
`80 3d 00 01 01 00 00 10`; with the vendor id `05f1` as fourth word the
eight bytes behind the opcode are `00 01 01 00 f1 05 00 10`. -/
theorem cmd_bind_message_witness :
    (cmd_bind mesh_opcode_set (fun _ _ _ => true)
      ⟨[], DEFAULT_TIMEOUT, 0x0100, List.replicate 8 0⟩
      [some 0x0100, some 0x0001, some 0x1000]).2.head? =
      some (effect.send_msg 0x0100 APP_IDX_DEV_REMOTE
        [0x80, 0x3d, 0x00, 0x01, 0x01, 0x00, 0x00, 0x10]) ∧
    (bind_params 4 [0x0100, 0x0001, 0x1000, 0x05f1, 0, 0, 0, 0] =
      [0x00, 0x01, 0x01, 0x00, 0xf1, 0x05, 0x00, 0x10] ∧
      (bind_params 4 [0x0100, 0x0001, 0x1000, 0x05f1, 0, 0, 0, 0]).length = 8) :=
  ⟨by decide,
   by
    have h := (cmd_bind_message mesh_opcode_set (fun _ _ _ => true)
      ⟨[], DEFAULT_TIMEOUT, 0x0100, List.replicate 8 0⟩
      [some 0x0100, some 0x0001, some 0x1000, some 0x05f1] 4
      [0x0100, 0x0001, 0x1000, 0x05f1, 0, 0, 0, 0] (by decide)).2.1 rfl
    exact ⟨by decide, h.2⟩⟩

/-! ## C28 - C30: the bytes the decoders read -/

/-- With one byte left neither model loop of `print_composition` runs. -/
theorem composition_models_single (m v x : Nat) :
    (composition_vendor_models v (composition_sig_models m [x]).1).1 = [x] := by
  cases m <;> cases v <;> simp [composition_sig_models, composition_vendor_models]

/-- C28: for every payload of exactly 16 bytes (the smallest length
`msg_recvd` passes on), `print_composition` has no defined result: page and
header take 11 bytes, the first element takes 4, and the one byte left makes
the loop `while (len)` start another element, where `get_le16(data)` reads
the offset 16 and `len -= 2` wraps the `uint16_t` counter round. -/
theorem print_composition_min_length (data : List Nat) (h : data.length = 16) :
    print_composition data = none := by
  match data, h with
  | [b0, b1, b2, b3, b4, b5, b6, b7, b8, b9, b10, b11, b12, b13, b14, b15], _ =>
    have h1 : composition_elements 4
        (composition_vendor_models b14 (composition_sig_models b13 [b15]).1).1 1 = none := by
      rw [composition_models_single]
      rfl
    have h2 : composition_elements (4 + 1) [b11, b12, b13, b14, b15] 0 = none := by
      rw [composition_elements]
      simp only [List.length_cons, List.length_nil, List.drop_succ_cons, List.drop_zero,
        List.getD_cons_succ, List.getD_cons_zero, h1]
      rfl
    unfold print_composition
    simp only [List.length_cons, List.length_nil, List.drop_succ_cons, List.drop_zero]
    rw [if_neg (by decide)]
    simp only [Nat.reduceAdd, Nat.reduceSub]
    rw [h2]

/-- Witness of C28: a 16-byte composition payload is undefined, while the
17-byte payload with one SIG model (`... 00 00 01 00 00 10`) is decoded. -/
theorem print_composition_min_length_witness :
    print_composition
      [0x00, 0xf1, 0x05, 0x01, 0x00, 0x01, 0x00, 0x0a, 0x00, 0x03, 0x00,
       0x00, 0x00, 0x01, 0x00, 0x00] = none ∧
    (print_composition
      [0x00, 0xf1, 0x05, 0x01, 0x00, 0x01, 0x00, 0x0a, 0x00, 0x03, 0x00,
       0x00, 0x00, 0x01, 0x00, 0x00, 0x10]).isSome = true :=
  ⟨print_composition_min_length
    [0x00, 0xf1, 0x05, 0x01, 0x00, 0x01, 0x00, 0x0a, 0x00, 0x03, 0x00,
     0x00, 0x00, 0x01, 0x00, 0x00] (by decide), by decide⟩

/-- The cases of `msg_recvd` that test the length read only offsets below
the payload length. -/
theorem recv_reads_checked_in_bounds (op : Nat) (data : List Nat) (offs : List Nat)
    (hop : op ∈ [OP_APPKEY_STATUS, OP_NETKEY_STATUS, OP_MODEL_APP_STATUS,
      OP_NODE_IDENTITY_STATUS, OP_CONFIG_BEACON_STATUS, OP_CONFIG_RELAY_STATUS,
      OP_CONFIG_PROXY_STATUS, OP_CONFIG_DEFAULT_TTL_STATUS, OP_CONFIG_MODEL_PUB_STATUS])
    (h : recv_reads op data = some offs) : ∀ o ∈ offs, o < data.length := by
  simp only [List.mem_cons, List.mem_singleton, List.not_mem_nil, or_false] at hop
  rcases hop with rfl | rfl | rfl | rfl | rfl | rfl | rfl | rfl | rfl
  · have e : recv_reads OP_APPKEY_STATUS data =
        if data.length ≠ 4 then some [] else some ([0] ++ le16_reads 1 ++ le16_reads 2 ++ [0]) := rfl
    rw [e] at h
    by_cases c : data.length ≠ 4
    · rw [if_pos c] at h
      cases h
      simp
    · rw [if_neg c] at h
      cases h
      simp only [le16_reads, List.mem_append, List.mem_cons, List.mem_singleton,
        List.not_mem_nil, or_false, List.cons_append, List.nil_append]
      intro o ho
      omega
  · have e : recv_reads OP_NETKEY_STATUS data =
        if data.length ≠ 3 then some [] else some ([0] ++ le16_reads 1 ++ [0]) := rfl
    rw [e] at h
    by_cases c : data.length ≠ 3
    · rw [if_pos c] at h
      cases h
      simp
    · rw [if_neg c] at h
      cases h
      simp only [le16_reads, List.mem_append, List.mem_cons, List.mem_singleton,
        List.not_mem_nil, or_false, List.cons_append, List.nil_append]
      intro o ho
      omega
  · have e : recv_reads OP_MODEL_APP_STATUS data =
        if data.length ≠ 7 ∧ data.length ≠ 9 then some []
        else some ([0] ++ le16_reads 1 ++ le16_reads 3 ++
          mod_id_reads 5 (data.length == 9)) := rfl
    rw [e] at h
    by_cases c : data.length ≠ 7 ∧ data.length ≠ 9
    · rw [if_pos c] at h
      cases h
      simp
    · rw [if_neg c] at h
      cases h
      rcases (by omega : data.length = 7 ∨ data.length = 9) with c7 | c9
      · simp only [c7, le16_reads, mod_id_reads, List.mem_append, List.mem_cons,
          List.mem_singleton, List.not_mem_nil, or_false, List.cons_append, List.nil_append,
          Nat.reduceBEq, if_true]
        intro o ho
        omega
      · simp only [c9, le16_reads, mod_id_reads, List.mem_append, List.mem_cons,
          List.mem_singleton, List.not_mem_nil, or_false, List.cons_append, List.nil_append,
          beq_self_eq_true, Bool.true_eq_false, if_false]
        intro o ho
        omega
  · have e : recv_reads OP_NODE_IDENTITY_STATUS data =
        if data.length ≠ 4 then some [] else some (le16_reads 1 ++ [3, 0]) := rfl
    rw [e] at h
    by_cases c : data.length ≠ 4
    · rw [if_pos c] at h
      cases h
      simp
    · rw [if_neg c] at h
      cases h
      simp only [le16_reads, List.mem_append, List.mem_cons, List.mem_singleton,
        List.not_mem_nil, or_false, List.cons_append, List.nil_append]
      intro o ho
      omega
  · have e : recv_reads OP_CONFIG_BEACON_STATUS data =
        if data.length ≠ 1 then some [] else some ([0]) := rfl
    rw [e] at h
    by_cases c : data.length ≠ 1
    · rw [if_pos c] at h
      cases h
      simp
    · rw [if_neg c] at h
      cases h
      simp only [le16_reads, List.mem_append, List.mem_cons, List.mem_singleton,
        List.not_mem_nil, or_false, List.cons_append, List.nil_append]
      intro o ho
      omega
  · have e : recv_reads OP_CONFIG_RELAY_STATUS data =
        if data.length ≠ 2 then some [] else some ([0, 1, 1]) := rfl
    rw [e] at h
    by_cases c : data.length ≠ 2
    · rw [if_pos c] at h
      cases h
      simp
    · rw [if_neg c] at h
      cases h
      simp only [le16_reads, List.mem_append, List.mem_cons, List.mem_singleton,
        List.not_mem_nil, or_false, List.cons_append, List.nil_append]
      intro o ho
      omega
  · have e : recv_reads OP_CONFIG_PROXY_STATUS data =
        if data.length ≠ 1 then some [] else some ([0]) := rfl
    rw [e] at h
    by_cases c : data.length ≠ 1
    · rw [if_pos c] at h
      cases h
      simp
    · rw [if_neg c] at h
      cases h
      simp only [le16_reads, List.mem_append, List.mem_cons, List.mem_singleton,
        List.not_mem_nil, or_false, List.cons_append, List.nil_append]
      intro o ho
      omega
  · have e : recv_reads OP_CONFIG_DEFAULT_TTL_STATUS data =
        if data.length ≠ 1 then some [] else some ([0]) := rfl
    rw [e] at h
    by_cases c : data.length ≠ 1
    · rw [if_pos c] at h
      cases h
      simp
    · rw [if_neg c] at h
      cases h
      simp only [le16_reads, List.mem_append, List.mem_cons, List.mem_singleton,
        List.not_mem_nil, or_false, List.cons_append, List.nil_append]
      intro o ho
      omega
  · have e : recv_reads OP_CONFIG_MODEL_PUB_STATUS data =
        if data.length ≠ 12 ∧ data.length ≠ 14 then some []
        else if data.getD 0 0 ≠ MESH_STATUS_SUCCESS then some [0, 0]
        else
          some ([0, 0] ++ le16_reads 1 ++ mod_id_reads 10 (data.length == 14) ++
            le16_reads 3 ++ le16_reads 5 ++ [7, 8, 8, 8, 9, 9]) := rfl
    rw [e] at h
    by_cases c : data.length ≠ 12 ∧ data.length ≠ 14
    · rw [if_pos c] at h
      cases h
      simp
    · rw [if_neg c] at h
      by_cases cs : data.getD 0 0 ≠ MESH_STATUS_SUCCESS
      · rw [if_pos cs] at h
        cases h
        simp only [List.mem_cons, List.mem_singleton, List.not_mem_nil, or_false]
        intro o ho
        omega
      · rw [if_neg cs] at h
        cases h
        rcases (by omega : data.length = 12 ∨ data.length = 14) with c12 | c14
        · simp only [c12, le16_reads, mod_id_reads, List.mem_append, List.mem_cons,
            List.mem_singleton, List.not_mem_nil, or_false, List.cons_append,
            List.nil_append, Nat.reduceBEq, if_true]
          intro o ho
          omega
        · simp only [c14, le16_reads, mod_id_reads, List.mem_append, List.mem_cons,
            List.mem_singleton, List.not_mem_nil, or_false, List.cons_append,
            List.nil_append, beq_self_eq_true, Bool.true_eq_false, if_false]
          intro o ho
          omega

/-- C29: `OP_NODE_RESET_STATUS` is a handled opcode and its case has no
length test: for the empty payload it reads `data[0]`, the offset 0 of a
payload of length 0, and prints the status line instead of ignoring the
message (`msg_recvd` returns `true` with two lines logged).  In the same
way a 1-byte payload with status `00` makes the Model-Sub-Status case read
the offsets up to 6, the Heartbeat-Pub-Status case up to 9, the
Heartbeat-Sub-Status case up to 8 and the two list cases up to 4. -/
theorem node_reset_status_reads_empty_payload :
    OP_NODE_RESET_STATUS ∈ handled_opcodes ∧
    recv_reads OP_NODE_RESET_STATUS [] = some [0] ∧
    recv_print_only 0x0100 OP_NODE_RESET_STATUS [] =
      some [effect.printf "Node %4.4x reset status %s\n"
        [print_arg.num 0x0100, print_arg.status_str (([] : List Nat).getD 0 0)]] ∧
    (msg_recvd mesh_opcode_get (fun _ => 0) ⟨[], 2, 0x0100, List.replicate 8 0⟩ none
      0x0100 0 [0x80, 0x4a]).map (fun r => (r.1, r.2.2.2.length)) = some (true, 2) ∧
    recv_reads OP_CONFIG_MODEL_SUB_STATUS [0x00] = some [0, 0, 1, 2, 3, 4, 5, 6] ∧
    recv_reads OP_CONFIG_HEARTBEAT_PUB_STATUS [0x00] =
      some [0, 0, 1, 2, 3, 4, 5, 6, 7, 8, 9] ∧
    recv_reads OP_CONFIG_HEARTBEAT_SUB_STATUS [0x00] = some [0, 0, 1, 2, 3, 4, 5, 6, 7, 8] ∧
    recv_reads OP_CONFIG_MODEL_SUB_LIST [0x00] = some [0, 0, 1, 2, 3, 4] ∧
    recv_reads OP_MODEL_APP_LIST [0x00] = some [0, 0, 1, 2, 3, 4] := by
  refine ⟨by decide, by decide, by decide, by decide, by decide, by decide, by decide,
    by decide, by decide⟩

/-- The loop `for (i = 5; i < len; i += 2)` prints `(len - i + 1) / 2`
entries, the `k`-th being `get_le16(data + i + 2k)`: one for every started
2-byte chunk, a trailing single byte included. -/
theorem recv_list_entries_eq (fmt : String) (data : List Nat) :
    ∀ fuel i, (data.length - i + 1) / 2 ≤ fuel →
      recv_list_entries fmt data fuel i =
        (List.range ((data.length - i + 1) / 2)).map
          (fun k => effect.printf fmt [print_arg.num (get_le16 data (i + 2 * k))]) := by
  intro fuel
  induction fuel with
  | zero =>
    intro i h
    have h0 : (data.length - i + 1) / 2 = 0 := by omega
    rw [h0]
    rfl
  | succ fuel ih =>
    intro i h
    unfold recv_list_entries
    by_cases hi : i < data.length
    · rw [if_pos hi]
      have hc : (data.length - i + 1) / 2 = (data.length - (i + 2) + 1) / 2 + 1 := by omega
      rw [ih (i + 2) (by omega), hc, List.range_succ_eq_map, List.map_cons, List.map_map]
      congr 1
      apply List.map_congr_left
      intro k _
      simp only [Function.comp, Nat.succ_eq_add_one]
      have hk : i + 2 + 2 * k = i + 2 * (k + 1) := by omega
      rw [hk]
    · rw [if_neg hi]
      have h0 : (data.length - i + 1) / 2 = 0 := by omega
      rw [h0]
      rfl

/-- C30: for the 6-byte payload `00 01 00 02 00 07` (success status, one
trailing byte after the header) `floor((6 - 5) / 2) = 0`, yet the
Model-Sub-List case and the Model-App-List case each print one list entry:
the loop `for (i = 5; i < len; i += 2)` runs for `i = 5` and
`get_le16(data + 5)` reads the offsets 5 and 6, the second of which is
outside the payload. -/
theorem sub_list_prints_trailing_byte :
    ([0x00, 0x01, 0x00, 0x02, 0x00, 0x07] : List Nat).length = 6 ∧ (6 - 5) / 2 = 0 ∧
    recv_print_only 0x0100 OP_CONFIG_MODEL_SUB_LIST [0x00, 0x01, 0x00, 0x02, 0x00, 0x07] =
      some [effect.printf "\nNode %4.4x Subscription List status %s\n"
              [print_arg.num 0x0100, print_arg.status_str 0],
            effect.printf "Element Addr\t%4.4x\n" [print_arg.num 0x0001],
            effect.printf "Model ID\t%4.4x\n" [print_arg.num 0x0002],
            effect.printf "Subscr Addr\t%4.4x\n" [print_arg.num 0x0007]] ∧
    recv_print_only 0x0100 OP_MODEL_APP_LIST [0x00, 0x01, 0x00, 0x02, 0x00, 0x07] =
      some [effect.printf "\nNode %4.4x Model AppIdx status %s\n"
              [print_arg.num 0x0100, print_arg.status_str 0],
            effect.printf "Element Addr\t%4.4x\n" [print_arg.num 0x0001],
            effect.printf "Model ID\t%4.4x\n" [print_arg.num 0x0002],
            effect.printf "Model AppIdx\t%4.4x\n" [print_arg.num 0x0007]] ∧
    recv_reads OP_CONFIG_MODEL_SUB_LIST [0x00, 0x01, 0x00, 0x02, 0x00, 0x07] =
      some [0, 0, 1, 2, 3, 4, 5, 6] := by
  refine ⟨by decide, by decide, by decide, by decide, by decide⟩

/-! ## C31 - C32: a failed send and the publication report -/

/-- C31: let the target be assigned, let the table entry `cmd` of `opcode`
expect a response and let no pending request to the target expect that
response.  When `send_msg` reports failure, `config_send` prints
`Failed to send`, returns `false` and has nevertheless appended the request
`(cmd, target)` with its timer to the queue.  A retry of the same opcode in
that state, whatever the buffer and the transport, returns `false` with the
line `Another command is pending` and the state unchanged.  Once the timer
of that request has expired (`wait_rsp_timeout`) or the expected response
from the target has been received (`resolve_request`), the queue is the one
before the failed call, and from that state the retry reaches `send_msg`. -/
theorem failed_send_registers_request (send_msg retry_send : Nat → Nat → List Nat → Bool)
    (st : cfgcli) (buf retry_buf : List Nat) (opcode : Nat) (cmd : cfg_cmd)
    (hT : st.target ≠ UNASSIGNED_ADDRESS) (hcmd : get_cmd opcode = some cmd)
    (hrsp : cmd.rsp ≠ NO_RESPONSE)
    (hfree : get_req_by_rsp st.requests st.target cmd.rsp = none)
    (hfail : send_msg st.target APP_IDX_DEV_REMOTE buf = false) :
    config_send send_msg st buf opcode =
      (false,
       { st with requests := l_queue_push_tail st.requests ⟨cmd, st.target⟩ },
       [effect.send_msg st.target APP_IDX_DEV_REMOTE buf,
        effect.printf "Failed to send \"%s\"\n" [print_arg.str (opcode_str opcode)],
        effect.timeout_create st.rsp_timeout ⟨cmd, st.target⟩]) ∧
    config_send retry_send
        { st with requests := l_queue_push_tail st.requests ⟨cmd, st.target⟩ }
        retry_buf opcode =
      (false,
       { st with requests := l_queue_push_tail st.requests ⟨cmd, st.target⟩ },
       [effect.printf "Another command is pending\n" []]) ∧
    (∀ h : st.requests.length < (l_queue_push_tail st.requests ⟨cmd, st.target⟩).length,
      (wait_rsp_timeout (l_queue_push_tail st.requests ⟨cmd, st.target⟩)
        ⟨st.requests.length, h⟩).1 = st.requests) ∧
    resolve_request (l_queue_push_tail st.requests ⟨cmd, st.target⟩) st.target cmd.rsp =
      (some cmd, st.requests, [effect.timeout_remove ⟨cmd, st.target⟩]) ∧
    effect.send_msg st.target APP_IDX_DEV_REMOTE retry_buf ∈
      (config_send retry_send st retry_buf opcode).2.2 := by
  have hnm : ∀ a ∈ st.requests, ¬ (req_matches st.target cmd.rsp a = true) := by
    intro a ha
    simp only [get_req_by_rsp, List.find?_eq_none] at hfree
    exact hfree a ha
  have hself : req_matches st.target cmd.rsp ⟨cmd, st.target⟩ = true := by
    simp [req_matches]
  refine ⟨?_, ?_, ?_, ?_, ?_⟩
  · simp only [config_send, if_neg hT, hcmd, hfree, Option.isSome_none, Bool.false_eq_true,
      if_false, ne_eq, hrsp, not_false_eq_true, if_true, hfail,
      add_request_requests st opcode cmd hcmd, List.cons_append, List.nil_append]
  · have hsome : (get_req_by_rsp (l_queue_push_tail st.requests ⟨cmd, st.target⟩)
        st.target cmd.rsp).isSome = true :=
      get_req_by_rsp_of_mem ⟨⟨cmd, st.target⟩, by simp [l_queue_push_tail], rfl, rfl⟩
    simp only [config_send, if_neg hT, hcmd, hsome, if_true]
  · intro h
    simp only [wait_rsp_timeout, l_queue_push_tail]
    rw [List.eraseIdx_append_of_length_le (le_refl _)]
    simp
  · have hfind : get_req_by_rsp (l_queue_push_tail st.requests ⟨cmd, st.target⟩)
        st.target cmd.rsp = some ⟨cmd, st.target⟩ := by
      simp only [get_req_by_rsp, l_queue_push_tail, List.find?_append]
      have h0 : List.find? (req_matches st.target cmd.rsp) st.requests = none := hfree
      rw [h0]
      simp [hself]
    have herase : (l_queue_push_tail st.requests ⟨cmd, st.target⟩).eraseP
        (req_matches st.target cmd.rsp) = st.requests := by
      simp only [l_queue_push_tail]
      rw [List.eraseP_append_right _ (fun b hb => hnm b hb)]
      simp [List.eraseP_cons, hself]
    simp only [resolve_request, hfind, herase, free_request]
  · by_cases hres : retry_send st.target APP_IDX_DEV_REMOTE retry_buf = true
    · simp [config_send, if_neg hT, hcmd, hfree, hrsp, hres]
    · simp [config_send, if_neg hT, hcmd, hfree, hrsp, hres]

/-- Witness of C31: a DeviceCompositionGet to `0x0100` whose transport
fails leaves the request pending, and the retry is rejected although its
transport would succeed. -/
theorem failed_send_registers_request_witness :
    config_send (fun _ _ _ => false) ⟨[], DEFAULT_TIMEOUT, 0x0100, List.replicate 8 0⟩
        [0x80, 0x08, 0x00] OP_DEV_COMP_GET =
      (false,
       ⟨[⟨⟨OP_DEV_COMP_GET, OP_DEV_COMP_STATUS, "DeviceCompositionGet"⟩, 0x0100⟩],
        DEFAULT_TIMEOUT, 0x0100, List.replicate 8 0⟩,
       [effect.send_msg 0x0100 APP_IDX_DEV_REMOTE [0x80, 0x08, 0x00],
        effect.printf "Failed to send \"%s\"\n" [print_arg.str "DeviceCompositionGet"],
        effect.timeout_create DEFAULT_TIMEOUT
          ⟨⟨OP_DEV_COMP_GET, OP_DEV_COMP_STATUS, "DeviceCompositionGet"⟩, 0x0100⟩]) ∧
    config_send (fun _ _ _ => true)
        ⟨[⟨⟨OP_DEV_COMP_GET, OP_DEV_COMP_STATUS, "DeviceCompositionGet"⟩, 0x0100⟩],
          DEFAULT_TIMEOUT, 0x0100, List.replicate 8 0⟩
        [0x80, 0x08, 0x00] OP_DEV_COMP_GET =
      (false,
       ⟨[⟨⟨OP_DEV_COMP_GET, OP_DEV_COMP_STATUS, "DeviceCompositionGet"⟩, 0x0100⟩],
        DEFAULT_TIMEOUT, 0x0100, List.replicate 8 0⟩,
       [effect.printf "Another command is pending\n" []]) := by
  have h := failed_send_registers_request (fun _ _ _ => false) (fun _ _ _ => true)
    ⟨[], DEFAULT_TIMEOUT, 0x0100, List.replicate 8 0⟩ [0x80, 0x08, 0x00] [0x80, 0x08, 0x00]
    OP_DEV_COMP_GET ⟨OP_DEV_COMP_GET, OP_DEV_COMP_STATUS, "DeviceCompositionGet"⟩
    (by decide) (by decide) (by decide) (by decide) rfl
  exact ⟨h.1, h.2.1⟩

/-- A 16-bit word read from a payload of bytes is below `0x10000`. -/
theorem get_le16_lt (data : List Nat) (hb : ∀ b ∈ data, b < 256) (off : Nat) :
    get_le16 data off < 65536 := by
  have h : ∀ i, data.getD i 0 < 256 := by
    intro i
    rw [List.getD_eq_getElem?_getD]
    cases hi : data[i]? with
    | none => simp
    | some x => exact hb x (List.getElem?_mem hi)
  have h0 := h off
  have h1 := h (off + 1)
  unfold get_le16
  omega

/-- The value `0xffff0000 | mod_id` that `print_mod_id` returns for a SIG
model. -/
theorem sig_model_id (m : Nat) (hm : m < 65536) : 0xffff0000 ||| m = 0xffff0000 + m := by
  have h := Nat.mul_add_lt_is_or (i := 16) (b := m) (by omega) 0xffff
  simpa using h.symm

/-- The value `vendor << 16 | mod_id` that `print_mod_id` returns for a
vendor model. -/
theorem vendor_model_id_add (v m : Nat) (hv : v < 65536) (hm : m < 65536) :
    ((v <<< 16) ||| m) % 4294967296 = 65536 * v + m := by
  rw [vendor_model_id v m hv hm, Nat.shiftLeft_eq, Nat.mul_comm]
  exact (Nat.mul_add_lt_is_or (i := 16) (b := m) (by omega) v).symm

theorem and_0xffff (x : Nat) : x &&& 0xffff = x % 65536 :=
  Nat.and_pow_two_sub_one_eq_mod x 16

/-- The lines of `print_pub` are part of the log of the Model-Pub-Status
case for a successful status of 12 or 14 bytes. -/
theorem print_pub_mem_pub_status (src : Nat) (data : List Nat)
    (hlen : data.length = 12 ∨ data.length = 14)
    (hs : data.getD 0 0 = MESH_STATUS_SUCCESS) (x : effect)
    (hx : x ∈ print_pub (get_le16 data 1)
      (print_mod_id data 10 (data.length == 14) "").1 (get_le16 data 3) (get_le16 data 5)
      (data.getD 7 0)) :
    x ∈ recv_model_pub_status src data := by
  have hn : ¬ (data.length ≠ 12 ∧ data.length ≠ 14) := by omega
  simp only [recv_model_pub_status, if_neg hn, hs, ne_eq, not_true_eq_false, if_false,
    List.mem_append]
  exact Or.inl (Or.inl (Or.inr hx))

/-- C32: for a Model-Pub-Status payload of bytes with status
`MESH_STATUS_SUCCESS`: with 12 bytes and a SIG model id `m ≠ 0`,
`print_mod_id` returns `0xffff0000 + m` and the `Model:` line of `print_pub`
is the 8-digit one, showing `0xffff0000 + m`; with 14 bytes and a vendor id
`v < 0xffff`, `print_mod_id` returns `(v << 16) + m` and the `Model:` line
is the 4-digit one, showing only `m`.  The test `mod_id > 0xffff0000` selects
the wide format for SIG models and the narrow one for vendor models. -/
theorem print_pub_model_width (src : Nat) (data : List Nat) (hb : ∀ b ∈ data, b < 256)
    (hs : data.getD 0 0 = MESH_STATUS_SUCCESS) :
    (data.length = 12 → get_le16 data 10 ≠ 0 →
      (print_mod_id data 10 (data.length == 14) "").1 = 0xffff0000 + get_le16 data 10 ∧
      effect.printf "\tModel: %8.8x\n" [print_arg.num (0xffff0000 + get_le16 data 10)] ∈
        recv_model_pub_status src data ∧
      (print_pub (get_le16 data 1) (print_mod_id data 10 (data.length == 14) "").1
        (get_le16 data 3) (get_le16 data 5) (data.getD 7 0))[2]? =
        some (effect.printf "\tModel: %8.8x\n"
          [print_arg.num (0xffff0000 + get_le16 data 10)])) ∧
    (data.length = 14 → get_le16 data 10 < 0xffff →
      (print_mod_id data 10 (data.length == 14) "").1 =
        65536 * get_le16 data 10 + get_le16 data 12 ∧
      effect.printf "\tModel: %4.4x\n" [print_arg.num (get_le16 data 12)] ∈
        recv_model_pub_status src data ∧
      (print_pub (get_le16 data 1) (print_mod_id data 10 (data.length == 14) "").1
        (get_le16 data 3) (get_le16 data 5) (data.getD 7 0))[2]? =
        some (effect.printf "\tModel: %4.4x\n" [print_arg.num (get_le16 data 12)])) := by
  have hm10 := get_le16_lt data hb 10
  have hm12 := get_le16_lt data hb 12
  constructor
  · intro hlen hne
    have hid : (print_mod_id data 10 (data.length == 14) "").1 =
        0xffff0000 + get_le16 data 10 := by
      simp only [print_mod_id, hlen, Nat.reduceBEq, if_true, sig_model_id _ hm10]
    have hgt : 0xffff0000 + get_le16 data 10 > 0xffff0000 := by omega
    have hline : (print_pub (get_le16 data 1) (print_mod_id data 10 (data.length == 14) "").1
        (get_le16 data 3) (get_le16 data 5) (data.getD 7 0))[2]? =
        some (effect.printf "\tModel: %8.8x\n"
          [print_arg.num (0xffff0000 + get_le16 data 10)]) := by
      rw [hid]
      simp only [print_pub, if_pos hgt]
      rfl
    refine ⟨hid, ?_, hline⟩
    exact print_pub_mem_pub_status src data (Or.inl hlen) hs _ (List.getElem?_mem hline)
  · intro hlen hv
    have hid : (print_mod_id data 10 (data.length == 14) "").1 =
        65536 * get_le16 data 10 + get_le16 data 12 := by
      simp only [print_mod_id, hlen, beq_self_eq_true, Bool.true_eq_false, if_false,
        vendor_model_id_add _ _ hm10 hm12]
    have hle : ¬ (65536 * get_le16 data 10 + get_le16 data 12 > 0xffff0000) := by omega
    have hlow : ((65536 * get_le16 data 10 + get_le16 data 12) &&& 0xffff) % 65536 =
        get_le16 data 12 := by
      rw [and_0xffff]
      omega
    have hline : (print_pub (get_le16 data 1) (print_mod_id data 10 (data.length == 14) "").1
        (get_le16 data 3) (get_le16 data 5) (data.getD 7 0))[2]? =
        some (effect.printf "\tModel: %4.4x\n" [print_arg.num (get_le16 data 12)]) := by
      rw [hid]
      simp only [print_pub, if_neg hle, hlow]
      rfl
    refine ⟨hid, ?_, hline⟩
    exact print_pub_mem_pub_status src data (Or.inr hlen) hs _ (List.getElem?_mem hline)

/-- Witness of C32: SIG model `0x1000` is reported as `Model: ffff1000`,
and model `0x1000` of vendor `0x05f1` as `Model: 1000`. -/
theorem print_pub_model_width_witness :
    effect.printf "\tModel: %8.8x\n" [print_arg.num 0xffff1000] ∈
      recv_model_pub_status 0x0100
        [0x00, 0x00, 0x01, 0x00, 0xc0, 0x01, 0x00, 0xff, 0x45, 0x21, 0x00, 0x10] ∧
    effect.printf "\tModel: %4.4x\n" [print_arg.num 0x1000] ∈
      recv_model_pub_status 0x0100
        [0x00, 0x00, 0x01, 0x00, 0xc0, 0x01, 0x00, 0xff, 0x45, 0x21, 0xf1, 0x05, 0x00,
         0x10] :=
  ⟨((print_pub_model_width 0x0100
      [0x00, 0x00, 0x01, 0x00, 0xc0, 0x01, 0x00, 0xff, 0x45, 0x21, 0x00, 0x10]
      (by decide) (by decide)).1 (by decide) (by decide)).2.1,
   ((print_pub_model_width 0x0100
      [0x00, 0x00, 0x01, 0x00, 0xc0, 0x01, 0x00, 0xff, 0x45, 0x21, 0xf1, 0x05, 0x00, 0x10]
      (by decide) (by decide)).2 (by decide) (by decide)).2.1⟩

end Cfgcli
